import Mathlib

/-!
Tokebi analytics plugin: the function-library event pipeline.

A shallow embedding of `UTokebiAnalyticsFunctions`
(`TokebiAnalyticsFunctions.cpp`): the in-memory event queue, the forced and
timed flush, the completion handler of the track request, and the offline
store (`SaveEventsToFile` / `LoadEventsFromFile`), the game registration and
the session calls; and of `FTokebiAnalyticsProvider`
(`TokebiAnalyticsProvider.cpp`): its session start, its player id, its flush
and completion handler, with the factory `CreateAnalyticsProvider` of
`TokebiAnalyticsModule.cpp`. The member variables of the provider are the
fields of the structure of the same name; `ProviderWorld` adds the files, the
flush timer and the HTTP module it acts on.

Conventions of the embedding

* The static variables of the translation unit are the fields of `State`;
  every function of the class is a function on `State`.
* A text that the plugin only ever hands to the engine's JSON reader or
  receives from its JSON writer is kept as `JsonText`: the text up to what
  `FJsonSerializer::Deserialize` makes of it.
* Engine facilities whose result the plugin branches on and whose source is
  not part of the plugin are inputs: the string accessor of a JSON value
  (`Engine.TryGetString`), the reading of a text as a number (`Numerals`),
  the clock and the GUID generator (`Env`), the outcome of file writes
  (`WriteOutcome`) and of `ProcessRequest`.
* `GetDefault<UTokebiAnalyticsSettings>()` is the class default object; it is
  passed as `cfg : Settings`, and the guards against a null `Settings` pointer
  have no counterpart.
* The disk holds the two files of the plugin. `LoadFileToString` succeeds
  exactly on an existing file and `DeleteFile` removes the file (its result
  only selects a log line); the steps of a write that the code tests are
  explicit in `WriteOutcome`. The JSON writer and reader are taken to be
  inverse to each other: a file written from a value reads back as that value.
* A request handed to `ProcessRequest` is recorded in `State.requests`; when
  the call returns `true` the request is pending until the HTTP module
  completes it (`OnProcessRequestComplete`), which runs the bound lambda once.
-/

namespace Tokebi

/-! ## JSON values -/

/-- JSON values of the engine (`FJsonValue`); an object keeps its fields in
insertion order, the first binding of a key being the one in force. -/
inductive JsonValue where
  | null
  | boolean (b : Bool)
  | number (n : Int)
  | string (s : String)
  | array (items : List JsonValue)
  | object (fields : List (String × JsonValue))

/-- The field table of an `FJsonObject`. -/
abbrev JsonObject := List (String × JsonValue)

/-- The characters of a text with the ASCII letters folded to lower case: what
the case-insensitive comparisons of `FString` compare. -/
def foldCase (s : String) : List Char := s.data.map Char.toLower

/-- Embeds `FString::operator==` (and, negated, `operator!=`), which is also
the key comparison of `TMap<FString, ...>` and so of the field table of an
`FJsonObject`: the texts are equal up to the case of their ASCII letters. -/
def FStringEquals (a b : String) : Bool := decide (foldCase a = foldCase b)

/-- Insertion into a `TMap` keyed by strings (`TMap::Add`), the keys compared
as `FString` does: an entry whose key matches keeps its place and is replaced
by the new key and value, a new key goes last. -/
def TMapAdd {β : Type} : List (String × β) → String → β → List (String × β)
  | [], k, v => [(k, v)]
  | (k', v') :: rest, k, v =>
    if FStringEquals k' k then (k, v) :: rest else (k', v') :: TMapAdd rest k v

/-- Embeds `FJsonObject::SetStringField`. -/
def SetStringField (o : JsonObject) (k : String) (v : String) : JsonObject :=
  TMapAdd o k (JsonValue.string v)

/-- Embeds `FJsonObject::SetNumberField`. -/
def SetNumberField (o : JsonObject) (k : String) (v : Int) : JsonObject :=
  TMapAdd o k (JsonValue.number v)

/-- Embeds `FJsonObject::SetObjectField`. -/
def SetObjectField (o : JsonObject) (k : String) (v : JsonObject) : JsonObject :=
  TMapAdd o k (JsonValue.object v)

/-- Embeds `FJsonObject::SetArrayField`. -/
def SetArrayField (o : JsonObject) (k : String) (v : List JsonValue) : JsonObject :=
  TMapAdd o k (JsonValue.array v)

/-- Embeds `FJsonObject::TryGetField`: the value bound to a key, if any, the
keys compared as `FString` does. -/
def TryGetField (o : JsonObject) (k : String) : Option JsonValue :=
  match o with
  | [] => none
  | (k', v) :: rest => if FStringEquals k' k then some v else TryGetField rest k

/-- A text as the JSON reader sees it: the empty string, a non-empty text on
which `FJsonSerializer::Deserialize` fails (its characters kept for the log
only), or the serialization of a JSON value. -/
inductive JsonText where
  | empty
  | raw (s : String)
  | json (v : JsonValue)

/-- Embeds `FString::IsEmpty` on a text handed to the JSON reader. -/
def JsonText.IsEmpty : JsonText → Bool
  | JsonText.empty => true
  | _ => false

/-- Embeds `FJsonSerializer::Deserialize(Reader, TSharedPtr<FJsonValue>&)`. -/
def Deserialize : JsonText → Option JsonValue
  | JsonText.json v => some v
  | _ => none

/-- Embeds `FJsonSerializer::Deserialize(Reader, TSharedPtr<FJsonObject>&)`:
succeeds when the root of the text is an object. -/
def DeserializeObject : JsonText → Option JsonObject
  | JsonText.json (JsonValue.object o) => some o
  | _ => none

/-- Engine facilities taken as parameters: the string accessor of a JSON
value (`FJsonValue::TryGetString`) and the engine version text. -/
structure Engine where
  TryGetString : JsonValue → Option String
  ENGINE_VERSION_STRING : String

/-- Embeds `FJsonObject::TryGetStringField`. -/
def TryGetStringField (E : Engine) (o : JsonObject) (k : String) : Option String :=
  match TryGetField o k with
  | some v => E.TryGetString v
  | none => none

/-! ## Strings -/

/-- Embeds `FString::IsEmpty`. -/
def IsEmpty (s : String) : Bool := decide (s = "")

/-- Two's-complement truncation to `int32`, as when an `int64` is passed to a
parameter of type `int32`. -/
def toInt32 (n : Int) : Int := (n + 2147483648) % 4294967296 - 2147483648

/-- Embeds `FString::FromInt(int32)`. -/
def FromInt (n : Int) : String := toString (toInt32 n)

/-- Embeds `FString::Right(Count)`: the last `Count` characters. -/
def Right (s : String) (Count : Nat) : String :=
  String.mk (s.data.drop (s.data.length - Count))

/-- Embeds `FChar::IsWhitespace` on the characters a text file holds: space,
tab, line feed, vertical tab, form feed, carriage return. -/
def IsWhitespace (c : Char) : Bool :=
  c = Char.ofNat 32 || (9 ≤ c.toNat && c.toNat ≤ 13)

/-- Embeds `FString::TrimStartAndEnd`. -/
def TrimStartAndEnd (s : String) : String :=
  String.mk (((s.data.dropWhile IsWhitespace).reverse.dropWhile IsWhitespace).reverse)

/-! ## Configuration, environment, disk -/

/-- The fields of `UTokebiAnalyticsSettings`. -/
structure Settings where
  TokebiApiKey : String
  TokebiGameId : String
  TokebiEndpoint : String
  TokebiEnvironment : String

/-- Outcome of the fallible steps of one write of the offline events file. -/
structure WriteOutcome where
  serializeOk : Bool
  directoryExists : Bool
  createDirectoryTreeOk : Bool
  saveStringToFileOk : Bool

/-- The two files under `Saved/Analytics`; `none` is an absent file. -/
structure Disk where
  offlineEvents : Option JsonText
  playerIdFile : Option String

/-- Embeds `static const int32 MAX_QUEUE_SIZE`. -/
def MAX_QUEUE_SIZE : Nat := 100

/-- Embeds the local `const int32 MAX_SAVED_EVENTS` of `SaveEventsToFile`. -/
def MAX_SAVED_EVENTS : Nat := 500

/-- The loop `for (i = StartIndex; i < AllEvents.Num(); i++)
TrimmedEvents.Add(AllEvents[i])`, run for `n` iterations from index `i`. -/
def TrimLoop {α : Type} (AllEvents : List α) : Nat → Nat → List α → List α
  | 0, _, TrimmedEvents => TrimmedEvents
  | n + 1, i, TrimmedEvents =>
    match AllEvents.get? i with
    | some x => TrimLoop AllEvents n (i + 1) (TrimmedEvents ++ [x])
    | none => TrimLoop AllEvents n (i + 1) TrimmedEvents

/-- Embeds `UTokebiAnalyticsFunctions::SaveEventsToFile`: the existing array is
read defensively, the events appended, the total trimmed to the most recent
`MAX_SAVED_EVENTS`, and the result written unless serialization, the creation
of a missing directory or the write fails. A failed `SaveStringToFile` is
taken to leave the file as it was. -/
def SaveEventsToFile (io : WriteOutcome) (Events : List JsonObject) (d : Disk) : Disk :=
  if Events.length = 0 then d
  else
    let Existing : List JsonValue :=
      match d.offlineEvents with
      | some ExistingJson =>
        if !ExistingJson.IsEmpty then
          match Deserialize ExistingJson with
          | some (JsonValue.array a) => a
          | _ => []
        else []
      | none => []
    let AllEvents := Existing ++ Events.map JsonValue.object
    let AllEvents :=
      if AllEvents.length > MAX_SAVED_EVENTS then
        let StartIndex := AllEvents.length - MAX_SAVED_EVENTS
        TrimLoop AllEvents (AllEvents.length - StartIndex) StartIndex []
      else AllEvents
    if !io.serializeOk then d
    else if !io.directoryExists && !io.createDirectoryTreeOk then d
    else if io.saveStringToFileOk then
      { d with offlineEvents := some (JsonText.json (JsonValue.array AllEvents)) }
    else d

/-! ## HTTP requests and the static state -/

/-- The callbacks the plugin passes to `SendHTTPRequest`: the lambda of
`FlushQueuedEvents`, with its captured copy of the drained batch, and the
lambda of `RegisterGameWithTokebi`. -/
inductive Callback where
  | track (EventsToSend : List JsonObject)
  | registration

/-- A request as `SendHTTPRequest` sets it up before `ProcessRequest`. -/
structure HttpRequest where
  Verb : String
  URL : String
  ContentType : String
  Authorization : String
  Content : JsonText
  OnComplete : Callback

/-- The part of an `IHttpResponse` the plugin reads. -/
structure HttpResponse where
  ResponseCode : Int
  Content : JsonText

/-- Inputs the engine supplies during one call into the plugin: the clock
(unix seconds, one reading per call), the GUIDs drawn by `GenerateSessionID`
and by `GetPlayerID` (in `EGuidFormats::Digits`), whether `SaveStringToFile`
of the player id succeeds, the result of `ProcessRequest`, and the outcome
of a write of the offline events file. -/
structure Env where
  UtcNow : Int
  SessionGuid : String
  PlayerGuid : String
  playerIdSaveOk : Bool
  ProcessRequest : Bool
  io : WriteOutcome

/-- The static variables of `TokebiAnalyticsFunctions.cpp`, the files, and
the HTTP module. `requests` is the history of requests on which
`ProcessRequest` was called, `pending` those started and not yet completed;
`queued` is the history of events that `QueueEvent` added to the queue;
`LoadCalls` counts the executions of `LoadEventsFromFile`.
`PlayerID` is the function-local static of `GetPlayerID`; `OneShotTickers`
counts the one-shot flush tickers added by `InitializeTokebiSystem`. -/
structure State where
  bSystemInitialized : Bool
  bGameRegistered : Bool
  CurrentSessionID : String
  RegisteredGameId : String
  EventQueue : List JsonObject
  FlushTickerHandle : Bool
  OneShotTickers : Nat
  PlayerID : String
  disk : Disk
  requests : List HttpRequest
  pending : List HttpRequest
  queued : List JsonObject
  LoadCalls : Nat

/-- The state at process start over a given disk. -/
def State.initial (d : Disk) : State :=
  { bSystemInitialized := false, bGameRegistered := false, CurrentSessionID := "",
    RegisteredGameId := "", EventQueue := [], FlushTickerHandle := false,
    OneShotTickers := 0, PlayerID := "", disk := d, requests := [], pending := [],
    queued := [], LoadCalls := 0 }

/-- The completion lambda that `FlushQueuedEvents` passes to
`SendHTTPRequest`: the argument of the call of `SaveEventsToFile` it makes,
`none` when it makes none. -/
def FlushQueuedEvents.Completion (EventsToSend : List JsonObject) (bSuccess : Bool)
    (ResponseCode : Int) (_ResponseBody : JsonText) : Option (List JsonObject) :=
  if bSuccess && ResponseCode = 200 then none else some EventsToSend

/-- Embeds `UTokebiAnalyticsFunctions::OnGameRegistrationComplete`. -/
def OnGameRegistrationComplete (bSuccess : Bool) (s : State) : State :=
  { s with bGameRegistered := bSuccess }

/-- The completion lambda that `RegisterGameWithTokebi` passes to
`SendHTTPRequest`. -/
def RegisterGameWithTokebi.Completion (E : Engine) (bSuccess : Bool) (ResponseCode : Int)
    (ResponseBody : JsonText) (s : State) : State :=
  if bSuccess && (ResponseCode = 200 || ResponseCode = 201) then
    let s :=
      match DeserializeObject ResponseBody with
      | some JsonResponse =>
        match TryGetStringField E JsonResponse "game_id" with
        | some RealGameId => { s with RegisteredGameId := RealGameId }
        | none => s
      | none => s
    OnGameRegistrationComplete true s
  else OnGameRegistrationComplete false s

/-- Invocation of a callback with `(bSuccess, ResponseCode, ResponseBody)`. -/
def Callback.invoke (E : Engine) (io : WriteOutcome) (cb : Callback) (bSuccess : Bool)
    (ResponseCode : Int) (ResponseBody : JsonText) (s : State) : State :=
  match cb with
  | Callback.track EventsToSend =>
    match FlushQueuedEvents.Completion EventsToSend bSuccess ResponseCode ResponseBody with
    | some Events => { s with disk := SaveEventsToFile io Events s.disk }
    | none => s
  | Callback.registration =>
    RegisterGameWithTokebi.Completion E bSuccess ResponseCode ResponseBody s

/-- The lambda bound to `OnProcessRequestComplete` in `SendHTTPRequest`: the
arguments with which it invokes the callback. -/
def SendHTTPRequest.Completion (bWasSuccessful : Bool) (Response : Option HttpResponse) :
    Bool × Int × JsonText :=
  match bWasSuccessful, Response with
  | true, some r => (true, r.ResponseCode, r.Content)
  | _, _ => (false, 0, JsonText.raw "Network error")

/-- Embeds `UTokebiAnalyticsFunctions::SendHTTPRequest`. -/
def SendHTTPRequest (E : Engine) (cfg : Settings) (env : Env) (Endpoint : String)
    (JsonPayload : JsonText) (cb : Callback) (s : State) : State :=
  let HttpRequest : HttpRequest :=
    { Verb := "POST", URL := Endpoint, ContentType := "application/json",
      Authorization := cfg.TokebiApiKey, Content := JsonPayload, OnComplete := cb }
  let s := { s with requests := s.requests ++ [HttpRequest] }
  if !env.ProcessRequest then
    cb.invoke E env.io false 0 (JsonText.raw "Failed to process request") s
  else { s with pending := s.pending ++ [HttpRequest] }

/-- The HTTP module completes the pending request at index `i`: the bound
lambda runs and invokes the callback. -/
def OnProcessRequestComplete (E : Engine) (io : WriteOutcome) (i : Nat) (bWasSuccessful : Bool)
    (Response : Option HttpResponse) (s : State) : State :=
  match s.pending.get? i with
  | none => s
  | some req =>
    let args := SendHTTPRequest.Completion bWasSuccessful Response
    req.OnComplete.invoke E io args.1 args.2.1 args.2.2
      { s with pending := s.pending.eraseIdx i }

/-! ## Offline store: load -/

/-- The body of the loop of `LoadEventsFromFile` for one element of the
saved array. -/
def LoadEventsFromFile.Step (E : Engine) (cfg : Settings) (RegisteredGameId : String)
    (EventQueue : List JsonObject) (EventValue : JsonValue) : List JsonObject :=
  match EventValue with
  | JsonValue.object EventObj =>
    let EventObj :=
      match TryGetStringField E EventObj "gameId" with
      | some CurrentGameId =>
        if !IsEmpty RegisteredGameId && FStringEquals CurrentGameId cfg.TokebiGameId
            && !FStringEquals CurrentGameId RegisteredGameId then
          SetStringField EventObj "gameId" RegisteredGameId
        else EventObj
      | none => EventObj
    EventQueue ++ [EventObj]
  | _ => EventQueue

/-- Embeds `UTokebiAnalyticsFunctions::LoadEventsFromFile`: an absent file
returns at once; a JSON array is walked by `LoadEventsFromFile.Step` and the
file deleted; any other content takes the branch that deletes the file.
Every execution is counted in `LoadCalls`. -/
def LoadEventsFromFile (E : Engine) (cfg : Settings) (s : State) : State :=
  let s := { s with LoadCalls := s.LoadCalls + 1 }
  match s.disk.offlineEvents with
  | none => s
  | some SavedJson =>
    match Deserialize SavedJson with
    | some (JsonValue.array SavedEventsArray) =>
      { s with
        EventQueue :=
          SavedEventsArray.foldl (LoadEventsFromFile.Step E cfg s.RegisteredGameId)
            s.EventQueue
        disk := { s.disk with offlineEvents := none } }
    | _ => { s with disk := { s.disk with offlineEvents := none } }

/-! ## The pipeline -/

/-- Embeds `UTokebiAnalyticsFunctions::GetPlayerID`. -/
def GetPlayerID (env : Env) (s : State) : String × State :=
  if IsEmpty s.PlayerID then
    let Loaded : Option String :=
      match s.disk.playerIdFile with
      | some SavedPlayerID => if !IsEmpty SavedPlayerID then some SavedPlayerID else none
      | none => none
    match Loaded with
    | some SavedPlayerID =>
      let PlayerID := TrimStartAndEnd SavedPlayerID
      (PlayerID, { s with PlayerID := PlayerID })
    | none =>
      let PlayerID := "player_" ++ toString env.UtcNow ++ "_" ++ Right env.PlayerGuid 8
      let disk :=
        if env.playerIdSaveOk then { s.disk with playerIdFile := some PlayerID } else s.disk
      (PlayerID, { s with PlayerID := PlayerID, disk := disk })
  else (s.PlayerID, s)

/-- Embeds `UTokebiAnalyticsFunctions::GenerateSessionID`. -/
def GenerateSessionID (env : Env) : String :=
  "session_" ++ toString env.UtcNow ++ "_" ++ Right env.SessionGuid 8

/-- Embeds `UTokebiAnalyticsFunctions::StartFlushTicker`. -/
def StartFlushTicker (s : State) : State :=
  { s with FlushTickerHandle := true }

/-- Embeds `UTokebiAnalyticsFunctions::FlushQueuedEvents`. -/
def FlushQueuedEvents (E : Engine) (cfg : Settings) (env : Env) (s : State) : State :=
  if s.EventQueue.length = 0 then s
  else
    let EventsToSend := s.EventQueue
    let s := { s with EventQueue := [] }
    let EventsArray := EventsToSend.map JsonValue.object
    let BatchObject := SetArrayField [] "events" EventsArray
    let JsonString := JsonText.json (JsonValue.object BatchObject)
    let TrackEndpoint := cfg.TokebiEndpoint ++ "/api/track"
    SendHTTPRequest E cfg env TrackEndpoint JsonString (Callback.track EventsToSend) s

/-- Embeds `UTokebiAnalyticsFunctions::InitializeTokebiSystem`. -/
def InitializeTokebiSystem (E : Engine) (cfg : Settings) (s : State) : State :=
  if s.bSystemInitialized then s
  else
    let s := LoadEventsFromFile E cfg s
    let s := StartFlushTicker s
    let s := if s.EventQueue.length > 0 then { s with OneShotTickers := s.OneShotTickers + 1 } else s
    { s with bSystemInitialized := true }

/-- Embeds `UTokebiAnalyticsFunctions::QueueEvent`. -/
def QueueEvent (E : Engine) (cfg : Settings) (env : Env) (EventType : String)
    (EventData : List (String × String)) (s : State) : State :=
  if IsEmpty cfg.TokebiApiKey || IsEmpty cfg.TokebiGameId then s
  else
    let GameIdToUse := if IsEmpty s.RegisteredGameId then cfg.TokebiGameId else s.RegisteredGameId
    let EventObject : JsonObject := []
    let EventObject := SetStringField EventObject "eventType" EventType
    let EventObject := SetStringField EventObject "gameId" GameIdToUse
    let PlayerIDResult := GetPlayerID env s
    let PlayerID := PlayerIDResult.1
    let s := PlayerIDResult.2
    let EventObject := SetStringField EventObject "playerId" PlayerID
    let EventObject := SetStringField EventObject "platform" "unreal"
    let EventObject := SetStringField EventObject "environment" cfg.TokebiEnvironment
    let PayloadObject : JsonObject :=
      EventData.foldl (fun o Pair => SetStringField o Pair.1 Pair.2) []
    let EventObject := SetObjectField EventObject "payload" PayloadObject
    let s := { s with EventQueue := s.EventQueue ++ [EventObject],
                      queued := s.queued ++ [EventObject] }
    if s.EventQueue.length ≥ MAX_QUEUE_SIZE then FlushQueuedEvents E cfg env s else s

/-- Embeds `UTokebiAnalyticsFunctions::TokebiFlushEvents`. -/
def TokebiFlushEvents (E : Engine) (cfg : Settings) (env : Env) (s : State) : State :=
  FlushQueuedEvents E cfg env s

/-- Embeds `UTokebiAnalyticsFunctions::TokebiTrack`. -/
def TokebiTrack (E : Engine) (cfg : Settings) (env : Env) (EventName : String)
    (EventData : List (String × String)) (s : State) : State :=
  let s := InitializeTokebiSystem E cfg s
  let EnhancedData := TMapAdd EventData "timestamp" (FromInt env.UtcNow)
  let EnhancedData :=
    if !IsEmpty s.CurrentSessionID then TMapAdd EnhancedData "session_id" s.CurrentSessionID
    else EnhancedData
  QueueEvent E cfg env EventName EnhancedData s

/-- Embeds `UTokebiAnalyticsFunctions::TokebiStartSession`. -/
def TokebiStartSession (E : Engine) (cfg : Settings) (env : Env) (s : State) : State :=
  let s := InitializeTokebiSystem E cfg s
  let s := { s with CurrentSessionID := GenerateSessionID env }
  let EventData : List (String × String) := []
  let EventData := TMapAdd EventData "session_id" s.CurrentSessionID
  let EventData := TMapAdd EventData "timestamp" (FromInt env.UtcNow)
  QueueEvent E cfg env "session_start" EventData s

/-- Embeds `UTokebiAnalyticsFunctions::TokebiEndSession`. -/
def TokebiEndSession (E : Engine) (cfg : Settings) (env : Env) (s : State) : State :=
  if IsEmpty s.CurrentSessionID then s
  else
    let EventData : List (String × String) := []
    let EventData := TMapAdd EventData "session_id" s.CurrentSessionID
    let EventData := TMapAdd EventData "timestamp" (FromInt env.UtcNow)
    let s := QueueEvent E cfg env "session_end" EventData s
    let s := TokebiFlushEvents E cfg env s
    { s with CurrentSessionID := "" }

/-- Embeds `UTokebiAnalyticsFunctions::RegisterGameWithTokebi`. -/
def RegisterGameWithTokebi (E : Engine) (cfg : Settings) (env : Env) (s : State) : State :=
  if IsEmpty cfg.TokebiApiKey || IsEmpty cfg.TokebiGameId then s
  else
    let GameObject : JsonObject := []
    let GameObject := SetStringField GameObject "gameName" cfg.TokebiGameId
    let GameObject := SetStringField GameObject "platform" "unreal"
    let GameObject := SetStringField GameObject "unrealVersion" E.ENGINE_VERSION_STRING
    let GameObject := SetNumberField GameObject "playerCount" 1
    let JsonString := JsonText.json (JsonValue.object GameObject)
    let GamesEndpoint := cfg.TokebiEndpoint ++ "/api/games"
    SendHTTPRequest E cfg env GamesEndpoint JsonString Callback.registration s

/-- Embeds `UTokebiAnalyticsFunctions::TokebiRegisterGame`. -/
def TokebiRegisterGame (E : Engine) (cfg : Settings) (env : Env) (s : State) : State :=
  let s := InitializeTokebiSystem E cfg s
  if !s.bGameRegistered then RegisterGameWithTokebi E cfg env s else s

/-! ## The analytics provider -/

/-- An `FAnalyticsEventAttribute` as the provider reads it: its name and its
value in string form. -/
structure FAnalyticsEventAttribute where
  GetName : String
  GetValue : String

/-- Text-to-number facilities of the engine taken as parameters:
`FString::IsNumeric`, `FCString::Atoi`, and the JSON number that
`SetNumberField` makes of `FCString::Atof` of a text (a double, which need not
be one of the integer numbers of `JsonValue`). -/
structure Numerals where
  IsNumeric : String → Bool
  Atoi : String → Int
  AtofNumber : String → JsonValue

/-- The member variables of `FTokebiAnalyticsProvider` that the session and
queue functions read or write. -/
structure FTokebiAnalyticsProvider where
  ApiKey : String
  Endpoint : String
  Environment : String
  GameId : String
  Platform : String
  UserID : String
  SessionID : String
  bSessionStarted : Bool
  EventQueue : List JsonObject

/-- Embeds `FTokebiAnalyticsProvider::GenerateSessionID`. -/
def FTokebiAnalyticsProvider.GenerateSessionID (env : Env) : String :=
  "session_" ++ toString env.UtcNow ++ "_" ++ Right env.SessionGuid 8

/-- Embeds `FTokebiAnalyticsProvider::AttributesToJson`: attributes with an
empty value are skipped, numeric values become numbers, the others strings. -/
def FTokebiAnalyticsProvider.AttributesToJson (N : Numerals)
    (Attributes : List FAnalyticsEventAttribute) : JsonObject :=
  Attributes.foldl
    (fun Json Attribute =>
      if IsEmpty Attribute.GetValue then Json
      else if N.IsNumeric Attribute.GetValue then
        if Attribute.GetValue.data.contains '.' then
          TMapAdd Json Attribute.GetName (N.AtofNumber Attribute.GetValue)
        else SetNumberField Json Attribute.GetName (N.Atoi Attribute.GetValue)
      else SetStringField Json Attribute.GetName Attribute.GetValue)
    []

/-- Embeds `FTokebiAnalyticsProvider::CreateEventPayload`. -/
def FTokebiAnalyticsProvider.CreateEventPayload (p : FTokebiAnalyticsProvider)
    (EventType : String) (Payload : JsonObject) : JsonObject :=
  let EventPayload : JsonObject := []
  let EventPayload := SetStringField EventPayload "eventType" EventType
  let EventPayload := SetObjectField EventPayload "payload" Payload
  let EventPayload := SetStringField EventPayload "gameId" p.GameId
  let EventPayload := SetStringField EventPayload "playerId" p.UserID
  let EventPayload := SetStringField EventPayload "platform" p.Platform
  let EventPayload := SetStringField EventPayload "environment" p.Environment
  EventPayload

/-- Embeds `FTokebiAnalyticsProvider::QueueEvent`. -/
def FTokebiAnalyticsProvider.QueueEvent (p : FTokebiAnalyticsProvider) (EventType : String)
    (Payload : JsonObject) : FTokebiAnalyticsProvider :=
  let EventPayload := FTokebiAnalyticsProvider.CreateEventPayload p EventType Payload
  { p with EventQueue := p.EventQueue ++ [EventPayload] }

/-- The loop `for (auto& Pair : AttributesJson->Values)
Payload->SetField(Pair.Key, Pair.Value)`. -/
def FTokebiAnalyticsProvider.AddAttributes (Payload AttributesJson : JsonObject) : JsonObject :=
  AttributesJson.foldl (fun Payload Pair => TMapAdd Payload Pair.1 Pair.2) Payload

/-- Embeds `FTokebiAnalyticsProvider::StartSession`: the returned flag and the
provider after the call. -/
def FTokebiAnalyticsProvider.StartSession (N : Numerals) (env : Env)
    (Attributes : List FAnalyticsEventAttribute) (p : FTokebiAnalyticsProvider) :
    Bool × FTokebiAnalyticsProvider :=
  if p.bSessionStarted then (false, p)
  else
    let p := { p with SessionID := FTokebiAnalyticsProvider.GenerateSessionID env,
                      bSessionStarted := true }
    let Payload : JsonObject := []
    let Payload := SetStringField Payload "sessionId" p.SessionID
    let Payload := SetNumberField Payload "timestamp" env.UtcNow
    let Payload :=
      if Attributes.length > 0 then
        let AttributesJson := FTokebiAnalyticsProvider.AttributesToJson N Attributes
        FTokebiAnalyticsProvider.AddAttributes Payload AttributesJson
      else Payload
    (true, FTokebiAnalyticsProvider.QueueEvent p "session_start" Payload)

/-- A request as `SendQueuedEvents` sets it up before `ProcessRequest`; the
delegate bound to its completion is always `OnHttpRequestComplete`. -/
structure ProviderRequest where
  Verb : String
  URL : String
  ContentType : String
  Authorization : String
  Content : JsonText

/-- A provider together with what it acts on: the files, its flush timer
(`FlushTimerHandle` valid or not), and the HTTP module, of which `requests` is
the history of the provider's requests on which `ProcessRequest` was called
and `pending` those started and not yet completed. -/
structure ProviderWorld where
  provider : FTokebiAnalyticsProvider
  disk : Disk
  FlushTimerHandle : Bool
  requests : List ProviderRequest
  pending : List ProviderRequest

/-- Embeds `FTokebiAnalyticsProvider::GeneratePlayerID`: the returned id and
the disk after the call. The results of `DirectoryExists`,
`CreateDirectoryTree` and `SaveStringToFile` are not tested by the code; the
write leaves the file holding the new id when `env.playerIdSaveOk`. -/
def FTokebiAnalyticsProvider.GeneratePlayerID (env : Env) (d : Disk) : String × Disk :=
  let Loaded : Option String :=
    match d.playerIdFile with
    | some SavedPlayerID => if !IsEmpty SavedPlayerID then some SavedPlayerID else none
    | none => none
  match Loaded with
  | some SavedPlayerID => (TrimStartAndEnd SavedPlayerID, d)
  | none =>
    let NewPlayerID := "player_" ++ toString env.UtcNow ++ "_" ++ Right env.PlayerGuid 8
    let d := if env.playerIdSaveOk then { d with playerIdFile := some NewPlayerID } else d
    (NewPlayerID, d)

/-- Embeds `FTokebiAnalyticsProvider::StartFlushTimer`; `bWorld` is the test
`GEngine && GEngine->GetWorld()`. -/
def FTokebiAnalyticsProvider.StartFlushTimer (bWorld : Bool) (w : ProviderWorld) :
    ProviderWorld :=
  if bWorld then { w with FlushTimerHandle := true } else w

/-- Embeds the constructor of `FTokebiAnalyticsProvider` over a given disk. -/
def FTokebiAnalyticsProvider.Construct (env : Env) (bWorld : Bool) (d : Disk)
    (InApiKey InEndpoint InEnvironment InGameId : String) : ProviderWorld :=
  let Generated := FTokebiAnalyticsProvider.GeneratePlayerID env d
  let p : FTokebiAnalyticsProvider :=
    { ApiKey := InApiKey, Endpoint := InEndpoint, Environment := InEnvironment,
      GameId := InGameId, Platform := "unreal", UserID := Generated.1, SessionID := "",
      bSessionStarted := false, EventQueue := [] }
  FTokebiAnalyticsProvider.StartFlushTimer bWorld
    { provider := p, disk := Generated.2, FlushTimerHandle := false, requests := [],
      pending := [] }

/-- The body of the loop of `SendQueuedEvents` for one event: the request is
set up and `ProcessRequest` called, its result not being tested. -/
def FTokebiAnalyticsProvider.SendQueuedEvents.Step (env : Env) (w : ProviderWorld)
    (Event : JsonObject) : ProviderWorld :=
  let HttpRequest : ProviderRequest :=
    { Verb := "POST", URL := w.provider.Endpoint ++ "/track",
      ContentType := "application/json", Authorization := "Bearer " ++ w.provider.ApiKey,
      Content := JsonText.json (JsonValue.object Event) }
  let w := { w with requests := w.requests ++ [HttpRequest] }
  if env.ProcessRequest then { w with pending := w.pending ++ [HttpRequest] } else w

/-- Embeds `FTokebiAnalyticsProvider::SendQueuedEvents`. -/
def FTokebiAnalyticsProvider.SendQueuedEvents (env : Env) (w : ProviderWorld) : ProviderWorld :=
  if w.provider.EventQueue.length = 0 then w
  else
    let EventsToSend := w.provider.EventQueue
    let w := { w with provider := { w.provider with EventQueue := [] } }
    EventsToSend.foldl (FTokebiAnalyticsProvider.SendQueuedEvents.Step env) w

/-- Embeds `FTokebiAnalyticsProvider::FlushEvents`. -/
def FTokebiAnalyticsProvider.FlushEvents (env : Env) (w : ProviderWorld) : ProviderWorld :=
  FTokebiAnalyticsProvider.SendQueuedEvents env w

/-- Embeds `FTokebiAnalyticsProvider::OnHttpRequestComplete`: each of its
three branches writes a log line and nothing else. -/
def FTokebiAnalyticsProvider.OnHttpRequestComplete (bWasSuccessful : Bool)
    (Response : Option HttpResponse) (w : ProviderWorld) : ProviderWorld :=
  match bWasSuccessful, Response with
  | true, some r => if r.ResponseCode = 200 then w else w
  | _, _ => w

/-- The HTTP module completes the provider's pending request at index `i`:
the bound delegate `OnHttpRequestComplete` runs. -/
def ProviderWorld.OnProcessRequestComplete (i : Nat) (bWasSuccessful : Bool)
    (Response : Option HttpResponse) (w : ProviderWorld) : ProviderWorld :=
  match w.pending.get? i with
  | none => w
  | some _ =>
    FTokebiAnalyticsProvider.OnHttpRequestComplete bWasSuccessful Response
      { w with pending := w.pending.eraseIdx i }

/-- Embeds `FTokebiAnalyticsModule::CreateAnalyticsProvider` over a given
disk; `GetConfigValue` is the configuration delegate and `none` the null
pointer. -/
def FTokebiAnalyticsModule.CreateAnalyticsProvider (env : Env) (bWorld : Bool) (d : Disk)
    (GetConfigValue : String → Bool → String) : Option ProviderWorld :=
  let ApiKey := GetConfigValue "TokebiApiKey" true
  let Endpoint := GetConfigValue "TokebiEndpoint" false
  let Environment := GetConfigValue "TokebiEnvironment" false
  let GameId := GetConfigValue "TokebiGameId" false
  let Endpoint := if IsEmpty Endpoint then "https://tokebi-api.vercel.app" else Endpoint
  let Environment := if IsEmpty Environment then "production" else Environment
  if IsEmpty ApiKey then none
  else
    let GameId := if IsEmpty GameId then "unreal_game" else GameId
    some (FTokebiAnalyticsProvider.Construct env bWorld d ApiKey Endpoint Environment GameId)

/-! ## Notions used to state the properties -/

/-- The last `k` elements of a list, in order. -/
def lastN {α : Type} (k : Nat) (xs : List α) : List α := xs.drop (xs.length - k)

/-- The array decoded from the offline events file, taken as the empty list
when the file is absent, empty, unparseable, or parses to something that is
not a JSON array. -/
def storedArray : Option JsonText → List JsonValue
  | some (JsonText.json (JsonValue.array a)) => a
  | _ => []

/-- A write of the offline events file goes through: serialization succeeds,
the directory exists or is created, and `SaveStringToFile` succeeds. -/
def WriteOutcome.succeeds (io : WriteOutcome) : Bool :=
  io.serializeOk && (io.directoryExists || io.createDirectoryTreeOk) && io.saveStringToFileOk

/-- Successive calls of `SaveEventsToFile`, each with the outcome of its
write and its batch. -/
def SaveAll : List (WriteOutcome × List JsonObject) → Disk → Disk
  | [], d => d
  | c :: rest, d => SaveAll rest (SaveEventsToFile c.1 c.2 d)

/-- The elements of a JSON array that are objects, in order. -/
def objectsOf : List JsonValue → List JsonObject
  | [] => []
  | JsonValue.object o :: rest => o :: objectsOf rest
  | _ :: rest => objectsOf rest

/-- The game-id reconciliation of a loaded event: when a canonical id is
stored and the `gameId` of the event reads as a string that `FString`
compares equal to the configured id and unequal to the canonical one, its
`gameId` becomes the canonical id; otherwise the event is kept. -/
def reconciled (E : Engine) (cfg : Settings) (RegisteredGameId : String) (o : JsonObject) :
    JsonObject :=
  match TryGetStringField E o "gameId" with
  | some CurrentGameId =>
    if RegisteredGameId ≠ "" ∧ FStringEquals CurrentGameId cfg.TokebiGameId = true
        ∧ FStringEquals CurrentGameId RegisteredGameId = false then
      SetStringField o "gameId" RegisteredGameId
    else o
  | none => o

/-- The request of the wire protocol for a batch: a POST to
`{endpoint}/api/track` whose body is the object `{events: [e1, ..., en]}`,
completed by the handler that captured the batch. -/
def trackRequest (cfg : Settings) (batch : List JsonObject) : HttpRequest :=
  { Verb := "POST", URL := cfg.TokebiEndpoint ++ "/api/track",
    ContentType := "application/json", Authorization := cfg.TokebiApiKey,
    Content := JsonText.json (JsonValue.object
      [("events", JsonValue.array (batch.map JsonValue.object))]),
    OnComplete := Callback.track batch }

/-- The event object of the data model: the five identity fields followed by
the payload object. -/
def eventOf (cfg : Settings) (gameId playerId EventType : String)
    (payload : JsonObject) : JsonObject :=
  [("eventType", JsonValue.string EventType), ("gameId", JsonValue.string gameId),
   ("playerId", JsonValue.string playerId), ("platform", JsonValue.string "unreal"),
   ("environment", JsonValue.string cfg.TokebiEnvironment),
   ("payload", JsonValue.object payload)]

/-- The payload object of an event: every pair of the data map set as a
string field, in iteration order. -/
def payloadOf (EventData : List (String × String)) : JsonObject :=
  EventData.foldl (fun o Pair => SetStringField o Pair.1 Pair.2) []

/-- The event `QueueEvent` builds in state `s`: stamped with the canonical
game id when one is stored and with the configured one otherwise, and with
the player id `GetPlayerID` returns. -/
def queuedEventOf (cfg : Settings) (env : Env) (EventType : String)
    (EventData : List (String × String)) (s : State) : JsonObject :=
  eventOf cfg (if s.RegisteredGameId = "" then cfg.TokebiGameId else s.RegisteredGameId)
    (GetPlayerID env s).1 EventType (payloadOf EventData)

/-- The state once `QueueEvent` has added the event `e` to the queue, before
the size test. -/
def afterEnqueue (env : Env) (s : State) (e : JsonObject) : State :=
  { (GetPlayerID env s).2 with EventQueue := s.EventQueue ++ [e], queued := s.queued ++ [e] }

/-- One step of a run of the plugin: a call of `TokebiTrack`, a flush (a tick
of the flush ticker or a call of `TokebiFlushEvents`), or the HTTP module
completing the pending request at index `i`. -/
inductive Step where
  | track (env : Env) (EventName : String) (EventData : List (String × String))
  | flush (env : Env)
  | complete (io : WriteOutcome) (i : Nat) (bWasSuccessful : Bool) (Response : Option HttpResponse)

/-- The effect of one step. -/
def Step.apply (E : Engine) (cfg : Settings) (s : State) : Step → State
  | Step.track env EventName EventData => TokebiTrack E cfg env EventName EventData s
  | Step.flush env => FlushQueuedEvents E cfg env s
  | Step.complete io i bWasSuccessful Response =>
    OnProcessRequestComplete E io i bWasSuccessful Response s

/-- The batch captured by the completion handler of a request. -/
def batchOf (r : HttpRequest) : List JsonObject :=
  match r.OnComplete with
  | Callback.track EventsToSend => EventsToSend
  | Callback.registration => []

/-- The events of the batches in flight, oldest request first. -/
def inFlight (l : List HttpRequest) : List JsonObject := (l.map batchOf).flatten

/-- The event type of an event object, when it is a string. -/
def eventTypeOf (e : JsonObject) : Option String :=
  match TryGetField e "eventType" with
  | some (JsonValue.string t) => some t
  | _ => none

/-- One atomic step on the event queue: the critical section of `QueueEvent`
(the event is added and, when the queue has reached `MAX_QUEUE_SIZE`, drained
at once) or the critical section of `FlushQueuedEvents` (the queue is
drained). -/
inductive QueueStep where
  | enqueue (env : Env) (EventType : String) (EventData : List (String × String))
  | drain (env : Env)

/-- The effect of one step on the queue. -/
def QueueStep.apply (E : Engine) (cfg : Settings) (s : State) : QueueStep → State
  | QueueStep.enqueue env EventType EventData => QueueEvent E cfg env EventType EventData s
  | QueueStep.drain env => FlushQueuedEvents E cfg env s

/-- An interleaving of enqueue and drain steps, applied in order. -/
def runQueue (E : Engine) (cfg : Settings) (steps : List QueueStep) (s : State) : State :=
  steps.foldl (QueueStep.apply E cfg) s

/-- The drained batches, concatenated in drain order: each drain hands its
batch to one request. -/
def drained (s : State) : List JsonObject := inFlight s.requests

/-- The payload object of an event object. -/
def payloadField (e : JsonObject) : Option JsonObject :=
  match TryGetField e "payload" with
  | some (JsonValue.object p) => some p
  | _ => none

/-- The event `TokebiEndSession` queues in state `s`: a `session_end` event
whose data map holds the current session id and the timestamp. -/
def sessionEndEventOf (cfg : Settings) (env : Env) (s : State) : JsonObject :=
  queuedEventOf cfg env "session_end"
    [("session_id", s.CurrentSessionID), ("timestamp", FromInt env.UtcNow)] s

/-- The registration request of the wire protocol: a POST to
`{endpoint}/api/games` whose body names the game, the platform, the engine
version and the player count, completed by the registration handler. -/
def registrationRequest (E : Engine) (cfg : Settings) : HttpRequest :=
  { Verb := "POST", URL := cfg.TokebiEndpoint ++ "/api/games",
    ContentType := "application/json", Authorization := cfg.TokebiApiKey,
    Content := JsonText.json (JsonValue.object
      [("gameName", JsonValue.string cfg.TokebiGameId),
       ("platform", JsonValue.string "unreal"),
       ("unrealVersion", JsonValue.string E.ENGINE_VERSION_STRING),
       ("playerCount", JsonValue.number 1)]),
    OnComplete := Callback.registration }

/-- The registration response is a success carrying a canonical id: the
transport succeeded, the status is 200 or 201, and the body is a JSON object
in which the field found under `game_id`, keys compared as `FString` does, is
read by the string accessor as `v`. -/
def carriesGameId (E : Engine) (bSuccess : Bool) (ResponseCode : Int) (ResponseBody : JsonText)
    (v : String) : Prop :=
  bSuccess = true ∧ (ResponseCode = 200 ∨ ResponseCode = 201)
    ∧ ∃ o, ResponseBody = JsonText.json (JsonValue.object o)
        ∧ TryGetStringField E o "game_id" = some v

/-- The value an event's payload holds for `sessionId`, if any. -/
def payloadSessionId (e : JsonObject) : Option JsonValue :=
  match payloadField e with
  | some Payload => TryGetField Payload "sessionId"
  | none => none

/-- One step of the life of the process: a public call of the function
library, a tick of a flush ticker (the periodic one or the one-shot one of
`InitializeTokebiSystem`), or the HTTP module completing the pending request
at index `i`. -/
inductive Call where
  | registerGame (env : Env)
  | startSession (env : Env)
  | track (env : Env) (EventName : String) (EventData : List (String × String))
  | endSession (env : Env)
  | flushEvents (env : Env)
  | tick (env : Env)
  | complete (io : WriteOutcome) (i : Nat) (bWasSuccessful : Bool) (Response : Option HttpResponse)

/-- The effect of one step. -/
def Call.apply (E : Engine) (cfg : Settings) (s : State) : Call → State
  | Call.registerGame env => TokebiRegisterGame E cfg env s
  | Call.startSession env => TokebiStartSession E cfg env s
  | Call.track env EventName EventData => TokebiTrack E cfg env EventName EventData s
  | Call.endSession env => TokebiEndSession E cfg env s
  | Call.flushEvents env => TokebiFlushEvents E cfg env s
  | Call.tick env => FlushQueuedEvents E cfg env s
  | Call.complete io i bWasSuccessful Response =>
    OnProcessRequestComplete E io i bWasSuccessful Response s

/-- A sequence of steps applied in order. -/
def runCalls (E : Engine) (cfg : Settings) (calls : List Call) (s : State) : State :=
  calls.foldl (Call.apply E cfg) s

/-- The number of event objects the offline events file holds. -/
def offlineCount (d : Disk) : Nat := (objectsOf (storedArray d.offlineEvents)).length

/-- Every request issued so far is the track request of a batch of at most
`B` events or the registration request. -/
def BatchesWithin (E : Engine) (cfg : Settings) (B : Nat) (s : State) : Prop :=
  ∀ r ∈ s.requests, (∃ b, r = trackRequest cfg b ∧ b.length ≤ B) ∨ r = registrationRequest E cfg

/-- The system is initialized, every batch sent so far holds at most `B`
events, and the queue holds fewer than `B`. -/
def Steady (E : Engine) (cfg : Settings) (B : Nat) (s : State) : Prop :=
  s.bSystemInitialized = true ∧ BatchesWithin E cfg B s ∧ s.EventQueue.length + 1 ≤ B

/-- The event an enqueue step taken in state `s` must add to the queue: the
event built from the event type and the data map of the step; a drain step
adds none. -/
def QueueStep.enqueued (cfg : Settings) (s : State) : QueueStep → List JsonObject
  | QueueStep.enqueue env EventType EventData => [queuedEventOf cfg env EventType EventData s]
  | QueueStep.drain _ => []

/-- The enqueued events of an interleaving started in state `s`, in enqueue
order: one event for each enqueue step, none for a drain step. -/
def enqueuedEvents (E : Engine) (cfg : Settings) : List QueueStep → State → List JsonObject
  | [], _ => []
  | st :: rest, s => st.enqueued cfg s ++ enqueuedEvents E cfg rest (st.apply E cfg s)

/-- The event type and the data map of an enqueue step. -/
def QueueStep.arguments : QueueStep → Option (String × List (String × String))
  | QueueStep.enqueue _ EventType EventData => some (EventType, EventData)
  | QueueStep.drain _ => none

/-- The event types and data maps handed to the enqueue steps of an
interleaving, in order. -/
def enqueueArguments (steps : List QueueStep) : List (String × List (String × String)) :=
  steps.filterMap QueueStep.arguments

/-! ## Sample data -/

/-- An engine whose string accessor answers on string values. -/
def sampleEngine : Engine :=
  { TryGetString := fun v => match v with
      | JsonValue.string s => some s
      | _ => none
    ENGINE_VERSION_STRING := "5.3.2" }

/-- A valid configuration. -/
def sampleCfg : Settings :=
  { TokebiApiKey := "k1", TokebiGameId := "g1",
    TokebiEndpoint := "https://tokebi-api.vercel.app", TokebiEnvironment := "development" }

/-- A write that goes through. -/
def okWrite : WriteOutcome :=
  { serializeOk := true, directoryExists := true, createDirectoryTreeOk := true,
    saveStringToFileOk := true }

/-- A call during which the request is started. -/
def sampleEnv : Env :=
  { UtcNow := 1700000000, SessionGuid := "0123456789ABCDEF0123456789ABCDEF",
    PlayerGuid := "FEDCBA9876543210FEDCBA9876543210", playerIdSaveOk := true,
    ProcessRequest := true, io := okWrite }

/-- An event as `QueueEvent` builds it. -/
def sampleEvent (EventType : String) : JsonObject :=
  [("eventType", JsonValue.string EventType), ("gameId", JsonValue.string "g1"),
   ("playerId", JsonValue.string "player_1700000000_76543210"),
   ("platform", JsonValue.string "unreal"), ("environment", JsonValue.string "development"),
   ("payload", JsonValue.object [("timestamp", JsonValue.string "1700000000")])]

/-- A batch of 300 copies of one event. -/
def batch300 (EventType : String) : List JsonObject :=
  List.replicate 300 (sampleEvent EventType)

/-- Two successive writes of 300 events each, both going through. -/
def twoSaves : List (WriteOutcome × List JsonObject) :=
  [(okWrite, batch300 "a"), (okWrite, batch300 "b")]

/-- A disk with no file. -/
def emptyDisk : Disk := { offlineEvents := none, playerIdFile := none }

/-- A fresh process over a disk whose offline events file holds `t`, with the
events `q` already queued. -/
def stateWithFile (t : JsonText) (q : List JsonObject) : State :=
  { State.initial { offlineEvents := some t, playerIdFile := none } with EventQueue := q }

/-- An array holding two events and, between them, a string. -/
def mixedArray : List JsonValue :=
  [JsonValue.object (sampleEvent "a"), JsonValue.string "x", JsonValue.object (sampleEvent "b")]

/-- The settings as the constructor of `UTokebiAnalyticsSettings` leaves them. -/
def defaultCfg : Settings :=
  { TokebiApiKey := "", TokebiGameId := "",
    TokebiEndpoint := "https://tokebi-api.vercel.app", TokebiEnvironment := "development" }

/-- A process in which the canonical game id `G2` has been stored. -/
def registeredState : State :=
  { State.initial emptyDisk with RegisteredGameId := "G2", bGameRegistered := true,
                                 bSystemInitialized := true }

/-- A process with an active session and two events queued. -/
def sessionState : State :=
  { State.initial emptyDisk with
      CurrentSessionID := "session_1690000000_AAAAAAAA", bSystemInitialized := true,
      EventQueue := [sampleEvent "session_start", sampleEvent "level_start"] }

/-- Number reading for the samples: a text of decimal digits is numeric. -/
def sampleNumerals : Numerals :=
  { IsNumeric := fun v => v.data.all Char.isDigit
    Atoi := fun v => (v.toNat?.getD 0 : Nat)
    AtofNumber := fun v => JsonValue.number (v.toNat?.getD 0 : Nat) }

/-- A provider as constructed, with no session and an empty queue. -/
def sampleProvider : FTokebiAnalyticsProvider :=
  { ApiKey := "k1", Endpoint := "https://tokebi-api.vercel.app", Environment := "production",
    GameId := "g1", Platform := "unreal", UserID := "player_1690000000_76543210",
    SessionID := "", bSessionStarted := false, EventQueue := [] }

/-- A provider with a session started and one event queued. -/
def startedProvider : FTokebiAnalyticsProvider :=
  { sampleProvider with
      SessionID := "session_1690000000_AAAAAAAA", bSessionStarted := true,
      EventQueue := [sampleEvent "session_start"] }

/-- A disk whose player-identity file holds a single space. -/
def blankIdDisk : Disk := { offlineEvents := none, playerIdFile := some " " }

/-- A disk whose offline events file holds 100 events. -/
def fullDisk : Disk :=
  { offlineEvents := some (JsonText.json (JsonValue.array
      (List.replicate 100 (JsonValue.object (sampleEvent "a"))))),
    playerIdFile := none }

/-- The data map of the end-to-end scenario. -/
def levelData : List (String × String) := [("level", "3"), ("score", "100")]

/-- A provider with two events queued, over an empty disk. -/
def sampleWorld : ProviderWorld :=
  { provider := { sampleProvider with
      EventQueue := [sampleEvent "level_start", sampleEvent "level_complete"] },
    disk := emptyDisk, FlushTimerHandle := true, requests := [], pending := [] }

/-- A configuration delegate that knows the API key only. -/
def keyOnlyConfig (Name : String) (_bRequired : Bool) : String :=
  if Name = "TokebiApiKey" then "k1" else ""

theorem FStringEquals_iff (a b : String) :
    FStringEquals a b = true ↔ foldCase a = foldCase b := by
  simp [FStringEquals]

theorem FStringEquals_refl (a : String) : FStringEquals a a = true := by
  simp [FStringEquals]

theorem FStringEquals_comm (a b : String) : FStringEquals a b = FStringEquals b a := by
  simp only [FStringEquals]
  exact decide_eq_decide.mpr ⟨fun h => h.symm, fun h => h.symm⟩

theorem FStringEquals_congr (a b c : String) (h : FStringEquals a b = true) :
    FStringEquals a c = FStringEquals b c := by
  rw [FStringEquals_iff] at h
  simp only [FStringEquals, h]

theorem FStringEquals_of_eq (a b : String) (h : a = b) : FStringEquals a b = true := by
  rw [h]
  exact FStringEquals_refl b

theorem TryGetField_TMapAdd_ne (o : JsonObject) (k k2 : String) (v : JsonValue)
    (h : FStringEquals k k2 = false) :
    TryGetField (TMapAdd o k v) k2 = TryGetField o k2 := by
  induction o with
  | nil => simp [TMapAdd, TryGetField, h]
  | cons x rest ih =>
    obtain ⟨k1, v1⟩ := x
    cases h1 : FStringEquals k1 k with
    | true =>
      have h2 : FStringEquals k1 k2 = false := by
        rw [FStringEquals_congr k1 k k2 h1]
        exact h
      simp [TMapAdd, TryGetField, h1, h2, h]
    | false =>
      cases h2 : FStringEquals k1 k2 with
      | true => simp [TMapAdd, TryGetField, h1, h2]
      | false => simp [TMapAdd, TryGetField, h1, h2, ih]

theorem keys_TMapAdd {β : Type} (o : List (String × β)) (k k2 : String) (v : β)
    (h : k2 ∈ (TMapAdd o k v).map Prod.fst) : k2 ∈ o.map Prod.fst ∨ k2 = k := by
  induction o with
  | nil =>
    simp only [TMapAdd, List.map_cons, List.map_nil, List.mem_singleton] at h
    exact Or.inr h
  | cons x rest ih =>
    obtain ⟨k1, v1⟩ := x
    cases h1 : FStringEquals k1 k with
    | true =>
      simp only [TMapAdd, h1, if_true, List.map_cons, List.mem_cons] at h
      rcases h with h | h
      · exact Or.inr h
      · exact Or.inl (by simp only [List.map_cons, List.mem_cons]; exact Or.inr h)
    | false =>
      simp only [TMapAdd, h1, Bool.false_eq_true, if_false, List.map_cons, List.mem_cons] at h
      rcases h with h | h
      · exact Or.inl (by simp [h])
      · rcases ih h with h3 | h3
        · exact Or.inl (by simp only [List.map_cons, List.mem_cons]; exact Or.inr h3)
        · exact Or.inr h3

theorem TryGetField_ne_none (o : JsonObject) (k : String) (h : TryGetField o k ≠ none) :
    ∃ k1 ∈ o.map Prod.fst, FStringEquals k1 k = true := by
  induction o with
  | nil => exact absurd rfl h
  | cons x rest ih =>
    obtain ⟨k1, v1⟩ := x
    cases h1 : FStringEquals k1 k with
    | true => exact ⟨k1, by simp, h1⟩
    | false =>
      have h2 : TryGetField rest k ≠ none := by
        simpa [TryGetField, h1] using h
      obtain ⟨k2, hk2, e⟩ := ih h2
      exact ⟨k2, by simp only [List.map_cons, List.mem_cons]; exact Or.inr hk2, e⟩

theorem TrimLoop_eq {α : Type} (xs : List α) (n i : Nat) (acc : List α) :
    TrimLoop xs n i acc = acc ++ (xs.drop i).take n := by
  induction n generalizing i acc with
  | zero => simp [TrimLoop]
  | succ n ih =>
    unfold TrimLoop
    cases h : xs.get? i with
    | none =>
      have hi : xs.length ≤ i := by
        rw [List.get?_eq_none] at h; exact h
      simp [ih, List.drop_eq_nil_of_le hi, List.drop_eq_nil_of_le (Nat.le_succ_of_le hi)]
    | some x =>
      have hd : xs.drop i = x :: xs.drop (i + 1) := by
        rw [List.get?_eq_some] at h
        obtain ⟨hlt, hx⟩ := h
        rw [← hx]
        exact List.drop_eq_getElem_cons hlt
      simp [ih, hd]

theorem TrimLoop_last {α : Type} (xs : List α) (m : Nat) :
    TrimLoop xs (xs.length - (xs.length - m)) (xs.length - m) [] = lastN m xs := by
  rw [TrimLoop_eq]
  simp only [List.nil_append, lastN]
  apply List.take_of_length_le
  simp

theorem lastN_of_length_le {α : Type} (k : Nat) (xs : List α) (h : xs.length ≤ k) :
    lastN k xs = xs := by
  simp [lastN, Nat.sub_eq_zero_of_le h]

theorem length_lastN {α : Type} (k : Nat) (xs : List α) :
    (lastN k xs).length = min k xs.length := by
  simp [lastN]; omega

theorem lastN_min_length {α : Type} (k : Nat) (xs : List α) :
    lastN (min k xs.length) xs = lastN k xs := by
  unfold lastN
  congr 1
  omega

theorem lastN_lastN_append {α : Type} (k : Nat) (xs ys : List α) :
    lastN k (lastN k xs ++ ys) = lastN k (xs ++ ys) := by
  unfold lastN
  rw [← List.drop_append_of_le_length (Nat.sub_le _ _), List.drop_drop]
  congr 1
  simp
  omega

theorem storedArray_existing (d : Disk) :
    (match d.offlineEvents with
      | some ExistingJson =>
        if !ExistingJson.IsEmpty then
          match Deserialize ExistingJson with
          | some (JsonValue.array a) => a
          | _ => []
        else []
      | none => []) = storedArray d.offlineEvents := by
  cases h : d.offlineEvents with
  | none => rfl
  | some t =>
    cases t with
    | empty => rfl
    | raw r => rfl
    | json v => cases v <;> rfl

theorem SaveEventsToFile_ok (io : WriteOutcome) (Events : List JsonObject) (d : Disk)
    (hne : Events ≠ []) (hio : io.succeeds = true) :
    SaveEventsToFile io Events d =
      { d with offlineEvents := some (JsonText.json (JsonValue.array
          (lastN MAX_SAVED_EVENTS (storedArray d.offlineEvents ++ Events.map JsonValue.object)))) } := by
  have hlen : Events.length ≠ 0 := by
    intro h; exact hne (List.length_eq_zero.mp h)
  simp only [WriteOutcome.succeeds, Bool.and_eq_true, Bool.or_eq_true] at hio
  obtain ⟨⟨h1, h2⟩, h3⟩ := hio
  unfold SaveEventsToFile
  rw [if_neg hlen, storedArray_existing]
  simp only [h1, h3, Bool.not_true, Bool.false_eq_true, if_false, if_true]
  have hdir : (!io.directoryExists && !io.createDirectoryTreeOk) = false := by
    rcases h2 with h | h <;> simp [h]
  rw [hdir]
  simp only [Bool.false_eq_true, if_false]
  by_cases hgt : (storedArray d.offlineEvents ++ Events.map JsonValue.object).length
      > MAX_SAVED_EVENTS
  · rw [if_pos hgt, TrimLoop_last]
  · rw [if_neg hgt, lastN_of_length_le _ _ (Nat.le_of_not_gt hgt)]

theorem SaveAll_stored (calls : List (WriteOutcome × List JsonObject)) (d : Disk)
    (hne : ∀ c ∈ calls, c.2 ≠ []) (hio : ∀ c ∈ calls, c.1.succeeds = true)
    (hd : (storedArray d.offlineEvents).length ≤ MAX_SAVED_EVENTS) :
    storedArray (SaveAll calls d).offlineEvents =
      lastN MAX_SAVED_EVENTS
        (storedArray d.offlineEvents ++ ((calls.map (fun c => c.2)).flatten).map JsonValue.object)
    ∧ (calls ≠ [] → ∃ a, (SaveAll calls d).offlineEvents
        = some (JsonText.json (JsonValue.array a)))
    ∧ (SaveAll calls d).playerIdFile = d.playerIdFile := by
  induction calls generalizing d with
  | nil =>
    simp [SaveAll, lastN_of_length_le _ _ hd]
  | cons c rest ih =>
    have hc := SaveEventsToFile_ok c.1 c.2 d (hne c (List.mem_cons_self _ _))
      (hio c (List.mem_cons_self _ _))
    have hne' : ∀ c' ∈ rest, c'.2 ≠ [] := fun c' hc' => hne c' (List.mem_cons_of_mem _ hc')
    have hio' : ∀ c' ∈ rest, c'.1.succeeds = true :=
      fun c' hc' => hio c' (List.mem_cons_of_mem _ hc')
    have hst : storedArray (SaveEventsToFile c.1 c.2 d).offlineEvents =
        lastN MAX_SAVED_EVENTS (storedArray d.offlineEvents ++ c.2.map JsonValue.object) := by
      rw [hc]; simp only [storedArray]
    have hd' : (storedArray (SaveEventsToFile c.1 c.2 d).offlineEvents).length
        ≤ MAX_SAVED_EVENTS := by
      rw [hst, length_lastN]; exact Nat.min_le_left _ _
    obtain ⟨ih1, ih2, ih3⟩ := ih (SaveEventsToFile c.1 c.2 d) hne' hio' hd'
    refine ⟨?_, ?_, ?_⟩
    · simp only [SaveAll, List.map_cons, List.flatten_cons, List.map_append]
      rw [ih1, hst, lastN_lastN_append, List.append_assoc]
    · intro _
      cases rest with
      | nil => exact ⟨_, by simp only [SaveAll]; rw [hc]⟩
      | cons c2 rest2 => exact ih2 (List.cons_ne_nil _ _)
    · simp only [SaveAll]
      rw [ih3, hc]

/-! ## Lemmas on the flush and the queue -/

theorem IsEmpty_eq_false (s : String) (h : s ≠ "") : IsEmpty s = false := by
  simp [IsEmpty, h]

theorem IsEmpty_eq_true (s : String) (h : s = "") : IsEmpty s = true := by
  simp [IsEmpty, h]

theorem Completion_none_iff (b : List JsonObject) (bSuccess : Bool) (code : Int)
    (body : JsonText) :
    FlushQueuedEvents.Completion b bSuccess code body = none ↔ (bSuccess = true ∧ code = 200) := by
  unfold FlushQueuedEvents.Completion
  by_cases h : bSuccess = true ∧ code = 200
  · simp [h.1, h.2]
  · constructor
    · intro hc
      exfalso
      apply h
      by_contra hcon
      have : ¬ ((bSuccess && decide (code = 200)) = true) := by
        simpa using hcon
      rw [if_neg this] at hc
      exact Option.noConfusion hc
    · intro hc; exact absurd hc h

theorem Completion_some (b : List JsonObject) (bSuccess : Bool) (code : Int) (body : JsonText)
    (h : ¬ (bSuccess = true ∧ code = 200)) :
    FlushQueuedEvents.Completion b bSuccess code body = some b := by
  unfold FlushQueuedEvents.Completion
  have : ¬ ((bSuccess && decide (code = 200)) = true) := by
    simpa using h
  rw [if_neg this]

theorem invoke_track_fail (E : Engine) (io : WriteOutcome) (b : List JsonObject) (bSuccess : Bool)
    (code : Int) (body : JsonText) (s : State) (h : ¬ (bSuccess = true ∧ code = 200)) :
    (Callback.track b).invoke E io bSuccess code body s =
      { s with disk := SaveEventsToFile io b s.disk } := by
  simp only [Callback.invoke, Completion_some b bSuccess code body h]

theorem invoke_track_ok (E : Engine) (io : WriteOutcome) (b : List JsonObject) (body : JsonText)
    (s : State) : (Callback.track b).invoke E io true 200 body s = s := by
  simp only [Callback.invoke, (Completion_none_iff b true 200 body).2 ⟨rfl, rfl⟩]

theorem FlushQueuedEvents_empty (E : Engine) (cfg : Settings) (env : Env) (s : State)
    (h : s.EventQueue = []) : FlushQueuedEvents E cfg env s = s := by
  simp [FlushQueuedEvents, h]

theorem FlushQueuedEvents_started (E : Engine) (cfg : Settings) (env : Env) (s : State)
    (h : s.EventQueue ≠ []) (hp : env.ProcessRequest = true) :
    FlushQueuedEvents E cfg env s =
      { s with EventQueue := [], requests := s.requests ++ [trackRequest cfg s.EventQueue],
               pending := s.pending ++ [trackRequest cfg s.EventQueue] } := by
  have hlen : s.EventQueue.length ≠ 0 := fun hl => h (List.length_eq_zero.mp hl)
  simp [FlushQueuedEvents, hlen, SendHTTPRequest, hp, trackRequest, SetArrayField, TMapAdd, FStringEquals, foldCase]

theorem FlushQueuedEvents_not_started (E : Engine) (cfg : Settings) (env : Env) (s : State)
    (h : s.EventQueue ≠ []) (hp : env.ProcessRequest = false) :
    FlushQueuedEvents E cfg env s =
      { s with EventQueue := [], requests := s.requests ++ [trackRequest cfg s.EventQueue],
               disk := SaveEventsToFile env.io s.EventQueue s.disk } := by
  have hlen : s.EventQueue.length ≠ 0 := fun hl => h (List.length_eq_zero.mp hl)
  have hf : ¬ (false = true ∧ (0 : Int) = 200) := by simp
  simp [FlushQueuedEvents, hlen, SendHTTPRequest, hp, trackRequest, SetArrayField, TMapAdd,
    invoke_track_fail _ _ _ _ _ _ _ hf, FStringEquals, foldCase]

theorem FlushQueuedEvents_requests (E : Engine) (cfg : Settings) (env : Env) (s : State)
    (h : s.EventQueue ≠ []) :
    (FlushQueuedEvents E cfg env s).requests = s.requests ++ [trackRequest cfg s.EventQueue]
    ∧ (FlushQueuedEvents E cfg env s).EventQueue = [] := by
  cases hp : env.ProcessRequest with
  | true => rw [FlushQueuedEvents_started E cfg env s h hp]; exact ⟨rfl, rfl⟩
  | false => rw [FlushQueuedEvents_not_started E cfg env s h hp]; exact ⟨rfl, rfl⟩

theorem GetPlayerID_frame (env : Env) (s : State) :
    (GetPlayerID env s).2 =
      { s with PlayerID := (GetPlayerID env s).2.PlayerID,
               disk := { s.disk with
                 playerIdFile := (GetPlayerID env s).2.disk.playerIdFile } } := by
  rcases s with ⟨b1, b2, sid, reg, q, tk, os, pid, ⟨off, pf⟩, rq, pe, qd⟩
  unfold GetPlayerID
  by_cases h : IsEmpty pid = true
  · simp only [h, if_true]
    cases pf with
    | none =>
      cases hs : env.playerIdSaveOk <;> simp
    | some t =>
      by_cases ht : IsEmpty t = true
      · cases hs : env.playerIdSaveOk <;> simp [ht]
      · simp [ht]
  · simp only [h]
    simp

theorem QueueEvent_configured (E : Engine) (cfg : Settings) (env : Env) (EventType : String)
    (EventData : List (String × String)) (s : State)
    (hkey : cfg.TokebiApiKey ≠ "") (hgid : cfg.TokebiGameId ≠ "") :
    QueueEvent E cfg env EventType EventData s =
      (if (s.EventQueue ++ [queuedEventOf cfg env EventType EventData s]).length
            ≥ MAX_QUEUE_SIZE then
        FlushQueuedEvents E cfg env
          (afterEnqueue env s (queuedEventOf cfg env EventType EventData s))
       else afterEnqueue env s (queuedEventOf cfg env EventType EventData s)) := by
  have hfr := GetPlayerID_frame env s
  have hQ : (GetPlayerID env s).2.EventQueue = s.EventQueue := by rw [hfr]
  have hD : (GetPlayerID env s).2.queued = s.queued := by rw [hfr]
  unfold QueueEvent
  simp only [IsEmpty_eq_false _ hkey, IsEmpty_eq_false _ hgid, Bool.or_self,
    Bool.false_eq_true, if_false]
  have hg : (if IsEmpty s.RegisteredGameId = true then cfg.TokebiGameId else s.RegisteredGameId)
      = (if s.RegisteredGameId = "" then cfg.TokebiGameId else s.RegisteredGameId) := by
    simp [IsEmpty]
  simp only [hg, queuedEventOf, afterEnqueue, eventOf, payloadOf, SetStringField,
    SetObjectField, TMapAdd, hQ, hD, FStringEquals, foldCase]
  simp [FStringEquals, foldCase]

theorem FlushQueuedEvents_frame (E : Engine) (cfg : Settings) (env : Env) (s : State) :
    (FlushQueuedEvents E cfg env s).queued = s.queued
    ∧ (FlushQueuedEvents E cfg env s).RegisteredGameId = s.RegisteredGameId
    ∧ (FlushQueuedEvents E cfg env s).CurrentSessionID = s.CurrentSessionID
    ∧ (FlushQueuedEvents E cfg env s).bSystemInitialized = s.bSystemInitialized
    ∧ (FlushQueuedEvents E cfg env s).PlayerID = s.PlayerID := by
  by_cases hq : s.EventQueue = []
  · rw [FlushQueuedEvents_empty E cfg env s hq]
    exact ⟨rfl, rfl, rfl, rfl, rfl⟩
  · cases hp : env.ProcessRequest with
    | true => rw [FlushQueuedEvents_started E cfg env s hq hp]; exact ⟨rfl, rfl, rfl, rfl, rfl⟩
    | false =>
      rw [FlushQueuedEvents_not_started E cfg env s hq hp]; exact ⟨rfl, rfl, rfl, rfl, rfl⟩

theorem GetPlayerID_fields (env : Env) (s : State) :
    (GetPlayerID env s).2.EventQueue = s.EventQueue
    ∧ (GetPlayerID env s).2.requests = s.requests
    ∧ (GetPlayerID env s).2.pending = s.pending
    ∧ (GetPlayerID env s).2.queued = s.queued
    ∧ (GetPlayerID env s).2.disk.offlineEvents = s.disk.offlineEvents
    ∧ (GetPlayerID env s).2.RegisteredGameId = s.RegisteredGameId
    ∧ (GetPlayerID env s).2.CurrentSessionID = s.CurrentSessionID
    ∧ (GetPlayerID env s).2.bSystemInitialized = s.bSystemInitialized
    ∧ (GetPlayerID env s).2.bGameRegistered = s.bGameRegistered := by
  have h := GetPlayerID_frame env s
  refine ⟨?_, ?_, ?_, ?_, ?_, ?_, ?_, ?_, ?_⟩ <;> rw [h]

theorem LoadStep_object (E : Engine) (cfg : Settings) (reg : String) (q : List JsonObject)
    (o : JsonObject) :
    LoadEventsFromFile.Step E cfg reg q (JsonValue.object o) = q ++ [reconciled E cfg reg o] := by
  unfold LoadEventsFromFile.Step reconciled
  cases hg : TryGetStringField E o "gameId" with
  | none => simp [hg]
  | some g =>
    by_cases hr : reg = ""
    · simp [hg, IsEmpty, hr]
    · cases h1 : FStringEquals g cfg.TokebiGameId <;> cases h2 : FStringEquals g reg <;>
        simp [hg, IsEmpty, hr, h1, h2]

theorem LoadLoop_eq (E : Engine) (cfg : Settings) (reg : String) (a : List JsonValue)
    (q : List JsonObject) :
    a.foldl (LoadEventsFromFile.Step E cfg reg) q
      = q ++ (objectsOf a).map (reconciled E cfg reg) := by
  induction a generalizing q with
  | nil => simp [objectsOf]
  | cons v rest ih =>
    rw [List.foldl_cons, ih]
    cases v with
    | object o => rw [LoadStep_object]; simp [objectsOf]
    | null => simp [LoadEventsFromFile.Step, objectsOf]
    | boolean b => simp [LoadEventsFromFile.Step, objectsOf]
    | number n => simp [LoadEventsFromFile.Step, objectsOf]
    | string t => simp [LoadEventsFromFile.Step, objectsOf]
    | array l => simp [LoadEventsFromFile.Step, objectsOf]

theorem reconciled_unregistered (E : Engine) (cfg : Settings) (o : JsonObject) :
    reconciled E cfg "" o = o := by
  unfold reconciled
  cases TryGetStringField E o "gameId" <;> simp

theorem map_reconciled_unregistered (E : Engine) (cfg : Settings) (l : List JsonObject) :
    l.map (reconciled E cfg "") = l := by
  induction l with
  | nil => rfl
  | cons o rest ih => rw [List.map_cons, reconciled_unregistered, ih]

theorem objectsOf_map_object (b : List JsonObject) :
    objectsOf (b.map JsonValue.object) = b := by
  induction b with
  | nil => rfl
  | cons o rest ih => simp [objectsOf, ih]

theorem LoadEventsFromFile_array (E : Engine) (cfg : Settings) (s : State)
    (a : List JsonValue) (h : s.disk.offlineEvents = some (JsonText.json (JsonValue.array a))) :
    LoadEventsFromFile E cfg s =
      { s with EventQueue := s.EventQueue
                 ++ (objectsOf a).map (reconciled E cfg s.RegisteredGameId),
               disk := { s.disk with offlineEvents := none },
               LoadCalls := s.LoadCalls + 1 } := by
  unfold LoadEventsFromFile
  simp only [h, Deserialize, LoadLoop_eq]

theorem LoadEventsFromFile_absent (E : Engine) (cfg : Settings) (s : State)
    (h : s.disk.offlineEvents = none) :
    LoadEventsFromFile E cfg s = { s with LoadCalls := s.LoadCalls + 1 } := by
  unfold LoadEventsFromFile
  simp only [h]

theorem LoadEventsFromFile_not_array (E : Engine) (cfg : Settings) (s : State)
    (h : ∀ a, s.disk.offlineEvents ≠ some (JsonText.json (JsonValue.array a))) :
    LoadEventsFromFile E cfg s =
      { s with disk := { s.disk with offlineEvents := none },
               LoadCalls := s.LoadCalls + 1 } := by
  rcases s with ⟨b1, b2, sid, reg, q, tk, os, pid, ⟨off, pf⟩, rq, pe, qd, lc⟩
  unfold LoadEventsFromFile
  cases off with
  | none => rfl
  | some t =>
    cases t with
    | empty => rfl
    | raw r => rfl
    | json v =>
      cases v with
      | array a => exact absurd rfl (h a)
      | null => rfl
      | boolean b => rfl
      | number n => rfl
      | string t => rfl
      | object o => rfl

theorem OnProcessRequestComplete_last (E : Engine) (io : WriteOutcome) (bWasSuccessful : Bool)
    (Response : Option HttpResponse) (s : State) (l : List HttpRequest) (req : HttpRequest)
    (h : s.pending = l ++ [req]) :
    OnProcessRequestComplete E io l.length bWasSuccessful Response s =
      req.OnComplete.invoke E io (SendHTTPRequest.Completion bWasSuccessful Response).1
        (SendHTTPRequest.Completion bWasSuccessful Response).2.1
        (SendHTTPRequest.Completion bWasSuccessful Response).2.2 { s with pending := l } := by
  unfold OnProcessRequestComplete
  rw [h]
  simp [List.eraseIdx_append_of_length_le]

/-! ## Lemmas on runs -/

theorem LoadEventsFromFile_eq (E : Engine) (cfg : Settings) (s : State) :
    LoadEventsFromFile E cfg s =
      { s with EventQueue := s.EventQueue
                 ++ (objectsOf (storedArray s.disk.offlineEvents)).map
                      (reconciled E cfg s.RegisteredGameId),
               disk := { s.disk with offlineEvents := none },
               LoadCalls := s.LoadCalls + 1 } := by
  by_cases h : ∃ a, s.disk.offlineEvents = some (JsonText.json (JsonValue.array a))
  · obtain ⟨a, ha⟩ := h
    rw [LoadEventsFromFile_array E cfg s a ha, ha]
    rfl
  · have h' : ∀ a, s.disk.offlineEvents ≠ some (JsonText.json (JsonValue.array a)) :=
      fun a ha => h ⟨a, ha⟩
    rw [LoadEventsFromFile_not_array E cfg s h']
    have hs : storedArray s.disk.offlineEvents = [] := by
      rcases s with ⟨b1, b2, sid, reg, q, tk, os, pid, ⟨off, pf⟩, rq, pe, qd, lc⟩
      cases off with
      | none => rfl
      | some t =>
        cases t with
        | empty => rfl
        | raw r => rfl
        | json v =>
          cases v with
          | array a => exact absurd rfl (h' a)
          | null => rfl
          | boolean b => rfl
          | number n => rfl
          | string t => rfl
          | object o => rfl
    rw [hs]
    simp [objectsOf]

theorem InitializeTokebiSystem_fields (E : Engine) (cfg : Settings) (s : State) :
    (InitializeTokebiSystem E cfg s).pending = s.pending
    ∧ (InitializeTokebiSystem E cfg s).queued = s.queued
    ∧ (InitializeTokebiSystem E cfg s).requests = s.requests
    ∧ (InitializeTokebiSystem E cfg s).RegisteredGameId = s.RegisteredGameId
    ∧ (InitializeTokebiSystem E cfg s).EventQueue
        = (if s.bSystemInitialized = true then s.EventQueue
           else s.EventQueue ++ (objectsOf (storedArray s.disk.offlineEvents)).map
                  (reconciled E cfg s.RegisteredGameId))
    ∧ (InitializeTokebiSystem E cfg s).disk.offlineEvents
        = (if s.bSystemInitialized = true then s.disk.offlineEvents else none) := by
  unfold InitializeTokebiSystem
  by_cases hi : s.bSystemInitialized = true
  · simp [hi]
  · simp only [hi, if_false, Bool.false_eq_true]
    rw [LoadEventsFromFile_eq]
    simp only [StartFlushTicker]
    split <;> exact ⟨rfl, rfl, rfl, rfl, rfl, rfl⟩

theorem afterEnqueue_fields (env : Env) (s : State) (e : JsonObject) :
    (afterEnqueue env s e).EventQueue = s.EventQueue ++ [e]
    ∧ (afterEnqueue env s e).queued = s.queued ++ [e]
    ∧ (afterEnqueue env s e).pending = s.pending
    ∧ (afterEnqueue env s e).requests = s.requests
    ∧ (afterEnqueue env s e).disk.offlineEvents = s.disk.offlineEvents
    ∧ (afterEnqueue env s e).RegisteredGameId = s.RegisteredGameId := by
  obtain ⟨_, hR, hP, _, hO, hG, _⟩ := GetPlayerID_fields env s
  exact ⟨rfl, rfl, hP, hR, hO, hG⟩

theorem batchOf_trackRequest (cfg : Settings) (b : List JsonObject) :
    batchOf (trackRequest cfg b) = b := rfl

theorem inFlight_append_single (l : List HttpRequest) (r : HttpRequest) :
    inFlight (l ++ [r]) = inFlight l ++ batchOf r := by
  simp [inFlight]

theorem invoke_frame (E : Engine) (io : WriteOutcome) (cb : Callback) (bSuccess : Bool)
    (ResponseCode : Int) (ResponseBody : JsonText) (s : State) :
    (cb.invoke E io bSuccess ResponseCode ResponseBody s).queued = s.queued
    ∧ (cb.invoke E io bSuccess ResponseCode ResponseBody s).EventQueue = s.EventQueue
    ∧ (cb.invoke E io bSuccess ResponseCode ResponseBody s).pending = s.pending
    ∧ (cb.invoke E io bSuccess ResponseCode ResponseBody s).requests = s.requests
    ∧ (cb.invoke E io bSuccess ResponseCode ResponseBody s).bSystemInitialized
        = s.bSystemInitialized := by
  cases cb with
  | track b =>
    cases hc : FlushQueuedEvents.Completion b bSuccess ResponseCode ResponseBody <;>
      simp [Callback.invoke, hc]
  | registration =>
    simp only [Callback.invoke, RegisterGameWithTokebi.Completion, OnGameRegistrationComplete]
    by_cases hc : (bSuccess && (decide (ResponseCode = 200) || decide (ResponseCode = 201)))
        = true
    · rw [if_pos hc]
      cases DeserializeObject ResponseBody with
      | none => exact ⟨rfl, rfl, rfl, rfl, rfl⟩
      | some o =>
        cases ht : TryGetStringField E o "game_id" <;> simp [ht]
    · rw [if_neg hc]
      exact ⟨rfl, rfl, rfl, rfl, rfl⟩

theorem OnProcessRequestComplete_frame (E : Engine) (io : WriteOutcome) (i : Nat)
    (bWasSuccessful : Bool) (Response : Option HttpResponse) (s : State) :
    (OnProcessRequestComplete E io i bWasSuccessful Response s).queued = s.queued
    ∧ (OnProcessRequestComplete E io i bWasSuccessful Response s).EventQueue = s.EventQueue
    ∧ (OnProcessRequestComplete E io i bWasSuccessful Response s).pending
        = s.pending.eraseIdx i
    ∧ (OnProcessRequestComplete E io i bWasSuccessful Response s).bSystemInitialized
        = s.bSystemInitialized := by
  unfold OnProcessRequestComplete
  cases hget : s.pending.get? i with
  | none =>
    have hi : s.pending.length ≤ i := by
      rw [List.get?_eq_none] at hget; exact hget
    exact ⟨rfl, rfl, (List.eraseIdx_of_length_le hi).symm, rfl⟩
  | some req =>
    obtain ⟨h1, h2, h3, _, h5⟩ := invoke_frame E io req.OnComplete
      (SendHTTPRequest.Completion bWasSuccessful Response).1
      (SendHTTPRequest.Completion bWasSuccessful Response).2.1
      (SendHTTPRequest.Completion bWasSuccessful Response).2.2
      { s with pending := s.pending.eraseIdx i }
    exact ⟨h1, h2, h3, h5⟩

theorem InitializeTokebiSystem_initialized (E : Engine) (cfg : Settings) (s : State) :
    (InitializeTokebiSystem E cfg s).bSystemInitialized = true := by
  unfold InitializeTokebiSystem
  by_cases hi : s.bSystemInitialized = true
  · simp [hi]
  · simp only [hi, if_false, Bool.false_eq_true]

theorem QueueEvent_unconfigured (E : Engine) (cfg : Settings) (env : Env) (EventType : String)
    (EventData : List (String × String)) (s : State)
    (h : cfg.TokebiApiKey = "" ∨ cfg.TokebiGameId = "") :
    QueueEvent E cfg env EventType EventData s = s := by
  unfold QueueEvent
  rcases h with h | h
  · simp [IsEmpty_eq_true _ h]
  · simp [IsEmpty_eq_true _ h]

theorem gameId_queuedEventOf (cfg : Settings) (env : Env) (EventType : String)
    (EventData : List (String × String)) (s : State) :
    TryGetField (queuedEventOf cfg env EventType EventData s) "gameId"
      = some (JsonValue.string
          (if s.RegisteredGameId = "" then cfg.TokebiGameId else s.RegisteredGameId)) := by
  simp [queuedEventOf, eventOf, TryGetField, FStringEquals, foldCase]

theorem QueueEvent_then_flush (E : Engine) (cfg : Settings) (env : Env) (EventType : String)
    (EventData : List (String × String)) (s : State)
    (hkey : cfg.TokebiApiKey ≠ "") (hgid : cfg.TokebiGameId ≠ "") :
    FlushQueuedEvents E cfg env (QueueEvent E cfg env EventType EventData s)
      = FlushQueuedEvents E cfg env
          (afterEnqueue env s (queuedEventOf cfg env EventType EventData s)) := by
  rw [QueueEvent_configured E cfg env EventType EventData s hkey hgid]
  split
  · have hne : (afterEnqueue env s (queuedEventOf cfg env EventType EventData s)).EventQueue
        ≠ [] := by simp [afterEnqueue]
    exact FlushQueuedEvents_empty E cfg env _
      (FlushQueuedEvents_requests E cfg env _ hne).2
  · rfl

theorem FlushQueuedEvents_drained (E : Engine) (cfg : Settings) (env : Env) (s : State) :
    (FlushQueuedEvents E cfg env s).queued = s.queued
    ∧ drained (FlushQueuedEvents E cfg env s) ++ (FlushQueuedEvents E cfg env s).EventQueue
        = drained s ++ s.EventQueue := by
  refine ⟨(FlushQueuedEvents_frame E cfg env s).1, ?_⟩
  by_cases hq : s.EventQueue = []
  · rw [FlushQueuedEvents_empty E cfg env s hq]
  · obtain ⟨h1, h2⟩ := FlushQueuedEvents_requests E cfg env s hq
    simp only [drained, h1, h2, inFlight_append_single, batchOf_trackRequest, List.append_nil]

theorem eventTypeOf_queuedEventOf (cfg : Settings) (env : Env) (EventType : String)
    (EventData : List (String × String)) (s : State) :
    eventTypeOf (queuedEventOf cfg env EventType EventData s) = some EventType := by
  simp [queuedEventOf, eventOf, eventTypeOf, TryGetField, FStringEquals]

theorem payloadField_queuedEventOf (cfg : Settings) (env : Env) (EventType : String)
    (EventData : List (String × String)) (s : State) :
    payloadField (queuedEventOf cfg env EventType EventData s) = some (payloadOf EventData) := by
  simp [queuedEventOf, eventOf, payloadField, TryGetField, FStringEquals, foldCase]

theorem QueueStep_apply_drained (E : Engine) (cfg : Settings) (s : State) (st : QueueStep)
    (hkey : cfg.TokebiApiKey ≠ "") (hgid : cfg.TokebiGameId ≠ "") :
    drained (st.apply E cfg s) ++ (st.apply E cfg s).EventQueue
      = drained s ++ s.EventQueue ++ st.enqueued cfg s := by
  cases st with
  | drain env =>
    simp only [QueueStep.apply, QueueStep.enqueued, (FlushQueuedEvents_drained E cfg env s).2,
      List.append_nil]
  | enqueue env t d =>
    obtain ⟨a1, _, _, a4, _⟩ := afterEnqueue_fields env s (queuedEventOf cfg env t d s)
    have hafter : drained (afterEnqueue env s (queuedEventOf cfg env t d s))
        ++ (afterEnqueue env s (queuedEventOf cfg env t d s)).EventQueue
        = drained s ++ s.EventQueue ++ [queuedEventOf cfg env t d s] := by
      simp only [drained, a1, a4, List.append_assoc]
    simp only [QueueStep.apply, QueueStep.enqueued]
    rw [QueueEvent_configured E cfg env t d s hkey hgid]
    split
    · rw [(FlushQueuedEvents_drained E cfg env _).2, hafter]
    · exact hafter

theorem runQueue_drained (E : Engine) (cfg : Settings) (steps : List QueueStep) (s : State)
    (hkey : cfg.TokebiApiKey ≠ "") (hgid : cfg.TokebiGameId ≠ "") :
    drained (runQueue E cfg steps s) ++ (runQueue E cfg steps s).EventQueue
      = drained s ++ s.EventQueue ++ enqueuedEvents E cfg steps s := by
  induction steps generalizing s with
  | nil => simp [runQueue, enqueuedEvents]
  | cons st rest ih =>
    have hrun : runQueue E cfg (st :: rest) s = runQueue E cfg rest (st.apply E cfg s) := rfl
    rw [hrun, ih (st.apply E cfg s), QueueStep_apply_drained E cfg s st hkey hgid]
    simp only [enqueuedEvents, List.append_assoc]

theorem enqueuedEvents_arguments (E : Engine) (cfg : Settings) (steps : List QueueStep)
    (s : State) :
    (enqueuedEvents E cfg steps s).map eventTypeOf
        = (enqueueArguments steps).map (fun a => some a.1)
    ∧ (enqueuedEvents E cfg steps s).map payloadField
        = (enqueueArguments steps).map (fun a => some (payloadOf a.2))
    ∧ (enqueuedEvents E cfg steps s).length = (enqueueArguments steps).length := by
  induction steps generalizing s with
  | nil => exact ⟨rfl, rfl, rfl⟩
  | cons st rest ih =>
    obtain ⟨i1, i2, i3⟩ := ih (st.apply E cfg s)
    cases st with
    | drain env =>
      simp only [enqueuedEvents, QueueStep.enqueued, List.nil_append, enqueueArguments,
        List.filterMap_cons, QueueStep.arguments]
      exact ⟨i1, i2, i3⟩
    | enqueue env t d =>
      simp only [enqueuedEvents, QueueStep.enqueued, enqueueArguments, List.filterMap_cons,
        QueueStep.arguments, List.singleton_append, List.map_cons, List.length_cons,
        eventTypeOf_queuedEventOf, payloadField_queuedEventOf]
      refine ⟨?_, ?_, ?_⟩
      · rw [i1]; rfl
      · rw [i2]; rfl
      · rw [i3]; rfl

theorem TokebiEndSession_active (E : Engine) (cfg : Settings) (env : Env) (s : State)
    (hkey : cfg.TokebiApiKey ≠ "") (hgid : cfg.TokebiGameId ≠ "")
    (hs : s.CurrentSessionID ≠ "") :
    TokebiEndSession E cfg env s =
      { FlushQueuedEvents E cfg env (afterEnqueue env s (sessionEndEventOf cfg env s)) with
        CurrentSessionID := "" } := by
  unfold TokebiEndSession
  simp only [IsEmpty_eq_false _ hs, Bool.false_eq_true, if_false, TokebiFlushEvents]
  have hd : TMapAdd (TMapAdd ([] : List (String × String)) "session_id" s.CurrentSessionID)
      "timestamp" (FromInt env.UtcNow)
      = [("session_id", s.CurrentSessionID), ("timestamp", FromInt env.UtcNow)] := by
    simp [TMapAdd, FStringEquals, foldCase]
  rw [hd, QueueEvent_then_flush E cfg env _ _ s hkey hgid]
  rfl

theorem DeserializeObject_eq_some (t : JsonText) (o : JsonObject) :
    DeserializeObject t = some o ↔ t = JsonText.json (JsonValue.object o) := by
  cases t with
  | empty => simp [DeserializeObject]
  | raw r => simp [DeserializeObject]
  | json v => cases v <;> simp [DeserializeObject]

theorem registration_condition (bSuccess : Bool) (code : Int) :
    (bSuccess && (decide (code = 200) || decide (code = 201))) = true
      ↔ (bSuccess = true ∧ (code = 200 ∨ code = 201)) := by
  simp

theorem RegistrationCompletion_carries (E : Engine) (bSuccess : Bool) (code : Int)
    (body : JsonText) (s : State) (v : String) (h : carriesGameId E bSuccess code body v) :
    RegisterGameWithTokebi.Completion E bSuccess code body s
      = { s with RegisteredGameId := v, bGameRegistered := true } := by
  obtain ⟨hb, hc, o, ho, hv⟩ := h
  unfold RegisterGameWithTokebi.Completion
  rw [if_pos ((registration_condition bSuccess code).2 ⟨hb, hc⟩),
    (DeserializeObject_eq_some body o).2 ho]
  simp only [hv, OnGameRegistrationComplete]

theorem RegistrationCompletion_other (E : Engine) (bSuccess : Bool) (code : Int)
    (body : JsonText) (s : State) (h : ¬ ∃ v, carriesGameId E bSuccess code body v) :
    RegisterGameWithTokebi.Completion E bSuccess code body s
      = { s with bGameRegistered :=
            decide (bSuccess = true ∧ (code = 200 ∨ code = 201)) } := by
  unfold RegisterGameWithTokebi.Completion
  by_cases hc : bSuccess = true ∧ (code = 200 ∨ code = 201)
  · rw [if_pos ((registration_condition bSuccess code).2 hc)]
    have hd : decide (bSuccess = true ∧ (code = 200 ∨ code = 201)) = true := by
      simpa using hc
    rw [hd]
    cases hdo : DeserializeObject body with
    | none => simp only [OnGameRegistrationComplete]
    | some o =>
      cases hv : TryGetStringField E o "game_id" with
      | none => simp only [hv, OnGameRegistrationComplete]
      | some v =>
        exact absurd ⟨v, hc.1, hc.2, o, (DeserializeObject_eq_some body o).1 hdo, hv⟩ h
  · have hn : ¬ ((bSuccess && (decide (code = 200) || decide (code = 201))) = true) :=
      fun hh => hc ((registration_condition bSuccess code).1 hh)
    rw [if_neg hn]
    have hd : decide (bSuccess = true ∧ (code = 200 ∨ code = 201)) = false := by
      simpa using hc
    rw [hd]
    simp only [OnGameRegistrationComplete]

theorem QueueEvent_queued (E : Engine) (cfg : Settings) (env : Env) (EventType : String)
    (EventData : List (String × String)) (s : State)
    (hkey : cfg.TokebiApiKey ≠ "") (hgid : cfg.TokebiGameId ≠ "") :
    (QueueEvent E cfg env EventType EventData s).queued
      = s.queued ++ [queuedEventOf cfg env EventType EventData s] := by
  rw [QueueEvent_configured E cfg env EventType EventData s hkey hgid]
  split
  · rw [(FlushQueuedEvents_frame E cfg env _).1, (afterEnqueue_fields env _ _).2.1]
  · exact (afterEnqueue_fields env _ _).2.1

theorem InitializeTokebiSystem_registered (E : Engine) (cfg : Settings) (s : State) :
    (InitializeTokebiSystem E cfg s).bGameRegistered = s.bGameRegistered
    ∧ (InitializeTokebiSystem E cfg s).CurrentSessionID = s.CurrentSessionID := by
  unfold InitializeTokebiSystem
  by_cases hi : s.bSystemInitialized = true
  · simp [hi]
  · simp only [hi, if_false, Bool.false_eq_true]
    rw [LoadEventsFromFile_eq]
    simp only [StartFlushTicker]
    split <;> exact ⟨rfl, rfl⟩

theorem InitializeTokebiSystem_of_initialized (E : Engine) (cfg : Settings) (s : State)
    (h : s.bSystemInitialized = true) : InitializeTokebiSystem E cfg s = s := by
  simp [InitializeTokebiSystem, h]

theorem RegisterGameWithTokebi_started (E : Engine) (cfg : Settings) (env : Env) (s : State)
    (hkey : cfg.TokebiApiKey ≠ "") (hgid : cfg.TokebiGameId ≠ "")
    (hstart : env.ProcessRequest = true) :
    RegisterGameWithTokebi E cfg env s =
      { s with requests := s.requests ++ [registrationRequest E cfg],
               pending := s.pending ++ [registrationRequest E cfg] } := by
  unfold RegisterGameWithTokebi
  simp [IsEmpty_eq_false _ hkey, IsEmpty_eq_false _ hgid, SendHTTPRequest, hstart,
    registrationRequest, SetStringField, SetNumberField, TMapAdd, FStringEquals, foldCase]

theorem TokebiRegisterGame_registered (E : Engine) (cfg : Settings) (env : Env) (s : State)
    (h : s.bGameRegistered = true) :
    TokebiRegisterGame E cfg env s = InitializeTokebiSystem E cfg s := by
  unfold TokebiRegisterGame
  simp [(InitializeTokebiSystem_registered E cfg s).1, h]

theorem TokebiRegisterGame_unregistered (E : Engine) (cfg : Settings) (env : Env) (s : State)
    (h : s.bGameRegistered = false) :
    TokebiRegisterGame E cfg env s
      = RegisterGameWithTokebi E cfg env (InitializeTokebiSystem E cfg s) := by
  unfold TokebiRegisterGame
  simp [(InitializeTokebiSystem_registered E cfg s).1, h]

theorem RegistrationCompletion_success (E : Engine) (code : Int) (body : JsonText) (s : State)
    (hcode : code = 200 ∨ code = 201) :
    (RegisterGameWithTokebi.Completion E true code body s).bGameRegistered = true
    ∧ (RegisterGameWithTokebi.Completion E true code body s).bSystemInitialized
        = s.bSystemInitialized
    ∧ (RegisterGameWithTokebi.Completion E true code body s).requests = s.requests
    ∧ (RegisterGameWithTokebi.Completion E true code body s).pending = s.pending := by
  by_cases hex : ∃ v, carriesGameId E true code body v
  · obtain ⟨v, hv⟩ := hex
    rw [RegistrationCompletion_carries E true code body s v hv]
    exact ⟨rfl, rfl, rfl, rfl⟩
  · rw [RegistrationCompletion_other E true code body s hex]
    refine ⟨?_, rfl, rfl, rfl⟩
    simpa using hcode

theorem not_carries_of_no_field (E : Engine) (bSuccess : Bool) (code : Int) (o : JsonObject)
    (hno : TryGetField o "game_id" = none) :
    ¬ ∃ v, carriesGameId E bSuccess code (JsonText.json (JsonValue.object o)) v := by
  rintro ⟨v, _, _, o', ho, hv⟩
  have ho' : o = o' := by
    injection ho with h1
    injection h1
  subst ho'
  simp [TryGetStringField, hno] at hv

theorem AttributesToJson_step_keys (N : Numerals) (Attributes : List FAnalyticsEventAttribute)
    (acc : JsonObject) (k : String)
    (h : k ∈ (Attributes.foldl
        (fun Json Attribute =>
          if IsEmpty Attribute.GetValue then Json
          else if N.IsNumeric Attribute.GetValue then
            if Attribute.GetValue.data.contains '.' then
              TMapAdd Json Attribute.GetName (N.AtofNumber Attribute.GetValue)
            else SetNumberField Json Attribute.GetName (N.Atoi Attribute.GetValue)
          else SetStringField Json Attribute.GetName Attribute.GetValue)
        acc).map Prod.fst) :
    k ∈ acc.map Prod.fst ∨ ∃ a ∈ Attributes, a.GetName = k ∧ a.GetValue ≠ "" := by
  induction Attributes generalizing acc with
  | nil => exact Or.inl h
  | cons a rest ih =>
    rw [List.foldl_cons] at h
    rcases ih _ h with h1 | ⟨b, hb, hb2⟩
    · by_cases he : a.GetValue = ""
      · simp only [IsEmpty_eq_true _ he, if_true] at h1
        exact Or.inl h1
      · have hne : IsEmpty a.GetValue = false := IsEmpty_eq_false _ he
        simp only [hne, SetNumberField, SetStringField, Bool.false_eq_true, if_false] at h1
        have key : k ∈ acc.map Prod.fst ∨ k = a.GetName := by
          cases hn : N.IsNumeric a.GetValue <;> cases hc : a.GetValue.data.contains '.' <;>
            simp only [hn, hc, if_true, if_false, Bool.false_eq_true] at h1 <;>
            exact keys_TMapAdd _ _ _ _ h1
        rcases key with h2 | h2
        · exact Or.inl h2
        · exact Or.inr ⟨a, List.mem_cons_self _ _, h2.symm, he⟩
    · exact Or.inr ⟨b, List.mem_cons_of_mem _ hb, hb2⟩

theorem AttributesToJson_keys (N : Numerals) (Attributes : List FAnalyticsEventAttribute)
    (k : String)
    (h : k ∈ (FTokebiAnalyticsProvider.AttributesToJson N Attributes).map Prod.fst) :
    ∃ a ∈ Attributes, a.GetName = k ∧ a.GetValue ≠ "" := by
  rcases AttributesToJson_step_keys N Attributes [] k h with h1 | h1
  · simp at h1
  · exact h1

theorem AddAttributes_other (Payload AttributesJson : JsonObject) (k : String)
    (h : ∀ k1 ∈ AttributesJson.map Prod.fst, FStringEquals k1 k = false) :
    TryGetField (FTokebiAnalyticsProvider.AddAttributes Payload AttributesJson) k
      = TryGetField Payload k := by
  induction AttributesJson generalizing Payload with
  | nil => rfl
  | cons x rest ih =>
    show TryGetField (FTokebiAnalyticsProvider.AddAttributes (TMapAdd Payload x.1 x.2) rest) k = _
    rw [ih _ (fun k1 hk1 => h k1 (List.mem_cons_of_mem _ hk1)),
      TryGetField_TMapAdd_ne _ _ _ _ (h x.1 (List.mem_cons_self _ _))]

theorem provider_GenerateSessionID_ne_empty (env : Env) :
    FTokebiAnalyticsProvider.GenerateSessionID env ≠ "" := by
  intro h
  have h2 := congrArg String.data h
  simp [FTokebiAnalyticsProvider.GenerateSessionID, String.data_append] at h2

theorem provider_eventTypeOf (p : FTokebiAnalyticsProvider) (EventType : String)
    (Payload : JsonObject) :
    eventTypeOf (FTokebiAnalyticsProvider.CreateEventPayload p EventType Payload)
      = some EventType := by
  simp [eventTypeOf, FTokebiAnalyticsProvider.CreateEventPayload, SetStringField, SetObjectField,
    TMapAdd, TryGetField, FStringEquals, foldCase]

theorem provider_payloadField (p : FTokebiAnalyticsProvider) (EventType : String)
    (Payload : JsonObject) :
    payloadField (FTokebiAnalyticsProvider.CreateEventPayload p EventType Payload)
      = some Payload := by
  simp [payloadField, FTokebiAnalyticsProvider.CreateEventPayload, SetStringField, SetObjectField,
    TMapAdd, TryGetField, FStringEquals, foldCase]

theorem StartSession_payload_sessionId (N : Numerals) (Attributes : List FAnalyticsEventAttribute)
    (SessionID : String) (UtcNow : Int)
    (h : ∀ a ∈ Attributes, FStringEquals a.GetName "sessionId" = true → a.GetValue = "") :
    TryGetField
        (if Attributes.length > 0 then
          FTokebiAnalyticsProvider.AddAttributes
            (SetNumberField (SetStringField [] "sessionId" SessionID) "timestamp" UtcNow)
            (FTokebiAnalyticsProvider.AttributesToJson N Attributes)
        else SetNumberField (SetStringField [] "sessionId" SessionID) "timestamp" UtcNow)
        "sessionId"
      = some (JsonValue.string SessionID) := by
  have base : TryGetField
      (SetNumberField (SetStringField [] "sessionId" SessionID) "timestamp" UtcNow) "sessionId"
      = some (JsonValue.string SessionID) := by
    simp [SetNumberField, SetStringField, TMapAdd, TryGetField, FStringEquals, foldCase]
  split
  · rw [AddAttributes_other _ _ _ ?_, base]
    intro k1 hk
    obtain ⟨a, ha, hn, hv⟩ := AttributesToJson_keys N Attributes k1 hk
    cases hc : FStringEquals k1 "sessionId" with
    | false => rfl
    | true =>
      rw [← hn] at hc
      exact absurd (h a ha hc) hv
  · exact base

theorem StartSession_inactive (N : Numerals) (env : Env)
    (Attributes : List FAnalyticsEventAttribute) (p : FTokebiAnalyticsProvider)
    (h : p.bSessionStarted = false) :
    FTokebiAnalyticsProvider.StartSession N env Attributes p
      = (true, FTokebiAnalyticsProvider.QueueEvent
          { p with SessionID := FTokebiAnalyticsProvider.GenerateSessionID env,
                   bSessionStarted := true }
          "session_start"
          (if Attributes.length > 0 then
            FTokebiAnalyticsProvider.AddAttributes
              (SetNumberField
                (SetStringField [] "sessionId" (FTokebiAnalyticsProvider.GenerateSessionID env))
                "timestamp" env.UtcNow)
              (FTokebiAnalyticsProvider.AttributesToJson N Attributes)
          else
            SetNumberField
              (SetStringField [] "sessionId" (FTokebiAnalyticsProvider.GenerateSessionID env))
              "timestamp" env.UtcNow)) := by
  unfold FTokebiAnalyticsProvider.StartSession
  rw [if_neg (by simp [h])]

theorem Construct_fields (env : Env) (bWorld : Bool) (d : Disk)
    (InApiKey InEndpoint InEnvironment InGameId : String) :
    (FTokebiAnalyticsProvider.Construct env bWorld d InApiKey InEndpoint InEnvironment
        InGameId).provider.ApiKey = InApiKey
    ∧ (FTokebiAnalyticsProvider.Construct env bWorld d InApiKey InEndpoint InEnvironment
        InGameId).provider.Endpoint = InEndpoint
    ∧ (FTokebiAnalyticsProvider.Construct env bWorld d InApiKey InEndpoint InEnvironment
        InGameId).provider.Environment = InEnvironment
    ∧ (FTokebiAnalyticsProvider.Construct env bWorld d InApiKey InEndpoint InEnvironment
        InGameId).provider.GameId = InGameId := by
  cases bWorld <;>
    simp [FTokebiAnalyticsProvider.Construct, FTokebiAnalyticsProvider.StartFlushTimer]

theorem IsEmpty_iff (s : String) : IsEmpty s = true ↔ s = "" := by
  simp [IsEmpty]

theorem afterEnqueue_initialized (env : Env) (s : State) (e : JsonObject) :
    (afterEnqueue env s e).bSystemInitialized = s.bSystemInitialized
    ∧ (afterEnqueue env s e).CurrentSessionID = s.CurrentSessionID := by
  obtain ⟨_, _, _, _, _, _, h7, h8, _⟩ := GetPlayerID_fields env s
  exact ⟨h8, h7⟩

theorem FlushQueuedEvents_effect (E : Engine) (cfg : Settings) (env : Env) (s : State) :
    (FlushQueuedEvents E cfg env s).bSystemInitialized = s.bSystemInitialized
    ∧ (((FlushQueuedEvents E cfg env s).requests = s.requests
          ∧ (FlushQueuedEvents E cfg env s).EventQueue = s.EventQueue ∧ s.EventQueue = [])
        ∨ ((FlushQueuedEvents E cfg env s).requests
              = s.requests ++ [trackRequest cfg s.EventQueue]
            ∧ (FlushQueuedEvents E cfg env s).EventQueue = [])) := by
  refine ⟨(FlushQueuedEvents_frame E cfg env s).2.2.2.1, ?_⟩
  by_cases h : s.EventQueue = []
  · left
    rw [FlushQueuedEvents_empty E cfg env s h]
    exact ⟨rfl, rfl, h⟩
  · right
    exact FlushQueuedEvents_requests E cfg env s h

theorem QueueEvent_effect (E : Engine) (cfg : Settings) (env : Env) (EventType : String)
    (EventData : List (String × String)) (s : State) :
    (QueueEvent E cfg env EventType EventData s).bSystemInitialized = s.bSystemInitialized
    ∧ (QueueEvent E cfg env EventType EventData s).CurrentSessionID = s.CurrentSessionID
    ∧ (((QueueEvent E cfg env EventType EventData s).requests = s.requests
          ∧ (QueueEvent E cfg env EventType EventData s).EventQueue = s.EventQueue)
        ∨ (∃ e, (QueueEvent E cfg env EventType EventData s).requests = s.requests
            ∧ (QueueEvent E cfg env EventType EventData s).EventQueue = s.EventQueue ++ [e]
            ∧ s.EventQueue.length + 1 < MAX_QUEUE_SIZE)
        ∨ (∃ e, (QueueEvent E cfg env EventType EventData s).requests
              = s.requests ++ [trackRequest cfg (s.EventQueue ++ [e])]
            ∧ (QueueEvent E cfg env EventType EventData s).EventQueue = [])) := by
  by_cases hc : cfg.TokebiApiKey = "" ∨ cfg.TokebiGameId = ""
  · rw [QueueEvent_unconfigured E cfg env EventType EventData s hc]
    exact ⟨rfl, rfl, Or.inl ⟨rfl, rfl⟩⟩
  · have hkey : cfg.TokebiApiKey ≠ "" := fun h => hc (Or.inl h)
    have hgid : cfg.TokebiGameId ≠ "" := fun h => hc (Or.inr h)
    obtain ⟨a1, _, _, a4, _, _⟩ := afterEnqueue_fields env s
      (queuedEventOf cfg env EventType EventData s)
    obtain ⟨b1, b2⟩ := afterEnqueue_initialized env s
      (queuedEventOf cfg env EventType EventData s)
    rw [QueueEvent_configured E cfg env EventType EventData s hkey hgid]
    split
    · have hne : (afterEnqueue env s (queuedEventOf cfg env EventType EventData s)).EventQueue
          ≠ [] := by rw [a1]; simp
      obtain ⟨f1, f2⟩ := FlushQueuedEvents_requests E cfg env _ hne
      obtain ⟨_, _, f3, f4, _⟩ := FlushQueuedEvents_frame E cfg env
        (afterEnqueue env s (queuedEventOf cfg env EventType EventData s))
      refine ⟨by rw [f4, b1], by rw [f3, b2],
        Or.inr (Or.inr ⟨queuedEventOf cfg env EventType EventData s, ?_, f2⟩)⟩
      rw [f1, a4, a1]
    · rename_i hlt
      refine ⟨b1, b2,
        Or.inr (Or.inl ⟨queuedEventOf cfg env EventType EventData s, a4, a1, ?_⟩)⟩
      simp only [List.length_append, List.length_singleton, ge_iff_le, not_le] at hlt
      exact hlt

theorem SendHTTPRequest_effect (E : Engine) (cfg : Settings) (env : Env) (Endpoint : String)
    (JsonPayload : JsonText) (cb : Callback) (s : State) :
    (SendHTTPRequest E cfg env Endpoint JsonPayload cb s).bSystemInitialized
        = s.bSystemInitialized
    ∧ (SendHTTPRequest E cfg env Endpoint JsonPayload cb s).EventQueue = s.EventQueue
    ∧ (SendHTTPRequest E cfg env Endpoint JsonPayload cb s).requests
        = s.requests ++ [{ Verb := "POST", URL := Endpoint, ContentType := "application/json",
                           Authorization := cfg.TokebiApiKey, Content := JsonPayload,
                           OnComplete := cb }] := by
  cases h : env.ProcessRequest
  · have e : SendHTTPRequest E cfg env Endpoint JsonPayload cb s
        = cb.invoke E env.io false 0 (JsonText.raw "Failed to process request")
            { s with requests := s.requests ++
                [{ Verb := "POST", URL := Endpoint, ContentType := "application/json",
                   Authorization := cfg.TokebiApiKey, Content := JsonPayload,
                   OnComplete := cb }] } := by
      simp [SendHTTPRequest, h]
    obtain ⟨_, i2, _, i4, i5⟩ := invoke_frame E env.io cb false 0
      (JsonText.raw "Failed to process request")
      { s with requests := s.requests ++
          [{ Verb := "POST", URL := Endpoint, ContentType := "application/json",
             Authorization := cfg.TokebiApiKey, Content := JsonPayload, OnComplete := cb }] }
    rw [e]
    exact ⟨i5, i2, i4⟩
  · have e : SendHTTPRequest E cfg env Endpoint JsonPayload cb s
        = { s with
              requests := s.requests ++
                [{ Verb := "POST", URL := Endpoint, ContentType := "application/json",
                   Authorization := cfg.TokebiApiKey, Content := JsonPayload,
                   OnComplete := cb }]
              pending := s.pending ++
                [{ Verb := "POST", URL := Endpoint, ContentType := "application/json",
                   Authorization := cfg.TokebiApiKey, Content := JsonPayload,
                   OnComplete := cb }] } := by
      simp [SendHTTPRequest, h]
    rw [e]
    exact ⟨rfl, rfl, rfl⟩

theorem RegisterGameWithTokebi_effect (E : Engine) (cfg : Settings) (env : Env) (s : State) :
    (RegisterGameWithTokebi E cfg env s).bSystemInitialized = s.bSystemInitialized
    ∧ (RegisterGameWithTokebi E cfg env s).EventQueue = s.EventQueue
    ∧ ((RegisterGameWithTokebi E cfg env s).requests = s.requests
        ∨ (RegisterGameWithTokebi E cfg env s).requests
            = s.requests ++ [registrationRequest E cfg]) := by
  unfold RegisterGameWithTokebi
  split
  · exact ⟨rfl, rfl, Or.inl rfl⟩
  · obtain ⟨h1, h2, h3⟩ := SendHTTPRequest_effect E cfg env (cfg.TokebiEndpoint ++ "/api/games")
      (JsonText.json (JsonValue.object
        (SetNumberField (SetStringField (SetStringField (SetStringField [] "gameName"
          cfg.TokebiGameId) "platform" "unreal") "unrealVersion" E.ENGINE_VERSION_STRING)
          "playerCount" 1)))
      Callback.registration s
    refine ⟨h1, h2, Or.inr ?_⟩
    rw [h3]
    simp [registrationRequest, SetStringField, SetNumberField, TMapAdd, FStringEquals, foldCase]

theorem OnProcessRequestComplete_requests (E : Engine) (io : WriteOutcome) (i : Nat)
    (bWasSuccessful : Bool) (Response : Option HttpResponse) (s : State) :
    (OnProcessRequestComplete E io i bWasSuccessful Response s).requests = s.requests := by
  unfold OnProcessRequestComplete
  cases h : s.pending.get? i with
  | none => rfl
  | some req =>
    simp only []
    rw [(invoke_frame E io req.OnComplete _ _ _ _).2.2.2.1]

theorem TokebiEndSession_inactive (E : Engine) (cfg : Settings) (env : Env) (s : State)
    (h : s.CurrentSessionID = "") : TokebiEndSession E cfg env s = s := by
  simp [TokebiEndSession, IsEmpty, h]

theorem TokebiRegisterGame_initialized (E : Engine) (cfg : Settings) (env : Env) (s : State) :
    (TokebiRegisterGame E cfg env s).bSystemInitialized = true := by
  unfold TokebiRegisterGame
  simp only []
  split
  · rw [(RegisterGameWithTokebi_effect E cfg env _).1]
    exact InitializeTokebiSystem_initialized E cfg s
  · exact InitializeTokebiSystem_initialized E cfg s

theorem TokebiStartSession_initialized (E : Engine) (cfg : Settings) (env : Env) (s : State) :
    (TokebiStartSession E cfg env s).bSystemInitialized = true := by
  unfold TokebiStartSession
  simp only []
  rw [(QueueEvent_effect E cfg env _ _ _).1]
  exact InitializeTokebiSystem_initialized E cfg s

theorem TokebiTrack_initialized (E : Engine) (cfg : Settings) (env : Env) (EventName : String)
    (EventData : List (String × String)) (s : State) :
    (TokebiTrack E cfg env EventName EventData s).bSystemInitialized = true := by
  unfold TokebiTrack
  simp only []
  rw [(QueueEvent_effect E cfg env _ _ _).1]
  exact InitializeTokebiSystem_initialized E cfg s

theorem TokebiEndSession_initialized (E : Engine) (cfg : Settings) (env : Env) (s : State) :
    (TokebiEndSession E cfg env s).bSystemInitialized = s.bSystemInitialized := by
  unfold TokebiEndSession
  split
  · rfl
  · show (TokebiFlushEvents E cfg env _).bSystemInitialized = _
    unfold TokebiFlushEvents
    rw [(FlushQueuedEvents_effect E cfg env _).1, (QueueEvent_effect E cfg env _ _ _).1]

theorem LoadEventsFromFile_loads (E : Engine) (cfg : Settings) (s : State) :
    (LoadEventsFromFile E cfg s).LoadCalls = s.LoadCalls + 1 := by
  rw [LoadEventsFromFile_eq]

theorem InitializeTokebiSystem_loads (E : Engine) (cfg : Settings) (s : State) :
    (s.bSystemInitialized = true → (InitializeTokebiSystem E cfg s).LoadCalls = s.LoadCalls)
    ∧ (s.bSystemInitialized = false →
        (InitializeTokebiSystem E cfg s).LoadCalls = s.LoadCalls + 1) := by
  refine ⟨fun h => ?_, fun h => ?_⟩
  · rw [InitializeTokebiSystem_of_initialized E cfg s h]
  · unfold InitializeTokebiSystem
    simp only [h, if_false, Bool.false_eq_true]
    rw [LoadEventsFromFile_eq]
    simp only [StartFlushTicker]
    split <;> rfl

theorem invoke_loads (E : Engine) (io : WriteOutcome) (cb : Callback) (bSuccess : Bool)
    (ResponseCode : Int) (ResponseBody : JsonText) (s : State) :
    (cb.invoke E io bSuccess ResponseCode ResponseBody s).LoadCalls = s.LoadCalls := by
  cases cb with
  | track b =>
    cases hc : FlushQueuedEvents.Completion b bSuccess ResponseCode ResponseBody <;>
      simp [Callback.invoke, hc]
  | registration =>
    simp only [Callback.invoke, RegisterGameWithTokebi.Completion, OnGameRegistrationComplete]
    by_cases hc : (bSuccess && (decide (ResponseCode = 200) || decide (ResponseCode = 201)))
        = true
    · rw [if_pos hc]
      cases DeserializeObject ResponseBody with
      | none => rfl
      | some o =>
        cases ht : TryGetStringField E o "game_id" <;> simp [ht]
    · rw [if_neg hc]

theorem OnProcessRequestComplete_loads (E : Engine) (io : WriteOutcome) (i : Nat)
    (bWasSuccessful : Bool) (Response : Option HttpResponse) (s : State) :
    (OnProcessRequestComplete E io i bWasSuccessful Response s).LoadCalls = s.LoadCalls := by
  unfold OnProcessRequestComplete
  cases h : s.pending.get? i with
  | none => rfl
  | some req =>
    simp only []
    rw [invoke_loads]

theorem SendHTTPRequest_loads (E : Engine) (cfg : Settings) (env : Env) (Endpoint : String)
    (JsonPayload : JsonText) (cb : Callback) (s : State) :
    (SendHTTPRequest E cfg env Endpoint JsonPayload cb s).LoadCalls = s.LoadCalls := by
  unfold SendHTTPRequest
  simp only []
  split
  · rw [invoke_loads]
  · rfl

theorem FlushQueuedEvents_loads (E : Engine) (cfg : Settings) (env : Env) (s : State) :
    (FlushQueuedEvents E cfg env s).LoadCalls = s.LoadCalls := by
  unfold FlushQueuedEvents
  split
  · rfl
  · simp only []
    rw [SendHTTPRequest_loads]

theorem afterEnqueue_loads (env : Env) (s : State) (e : JsonObject) :
    (afterEnqueue env s e).LoadCalls = s.LoadCalls := by
  show (GetPlayerID env s).2.LoadCalls = s.LoadCalls
  rw [GetPlayerID_frame env s]

theorem QueueEvent_loads (E : Engine) (cfg : Settings) (env : Env) (EventType : String)
    (EventData : List (String × String)) (s : State) :
    (QueueEvent E cfg env EventType EventData s).LoadCalls = s.LoadCalls := by
  by_cases hc : cfg.TokebiApiKey = "" ∨ cfg.TokebiGameId = ""
  · rw [QueueEvent_unconfigured E cfg env EventType EventData s hc]
  · have hkey : cfg.TokebiApiKey ≠ "" := fun h => hc (Or.inl h)
    have hgid : cfg.TokebiGameId ≠ "" := fun h => hc (Or.inr h)
    rw [QueueEvent_configured E cfg env EventType EventData s hkey hgid]
    split
    · rw [FlushQueuedEvents_loads, afterEnqueue_loads]
    · rw [afterEnqueue_loads]

theorem RegisterGameWithTokebi_loads (E : Engine) (cfg : Settings) (env : Env) (s : State) :
    (RegisterGameWithTokebi E cfg env s).LoadCalls = s.LoadCalls := by
  unfold RegisterGameWithTokebi
  split
  · rfl
  · simp only []
    rw [SendHTTPRequest_loads]

theorem TokebiRegisterGame_loads (E : Engine) (cfg : Settings) (env : Env) (s : State) :
    (TokebiRegisterGame E cfg env s).LoadCalls = (InitializeTokebiSystem E cfg s).LoadCalls := by
  unfold TokebiRegisterGame
  simp only []
  split
  · rw [RegisterGameWithTokebi_loads]
  · rfl

theorem TokebiStartSession_loads (E : Engine) (cfg : Settings) (env : Env) (s : State) :
    (TokebiStartSession E cfg env s).LoadCalls = (InitializeTokebiSystem E cfg s).LoadCalls := by
  unfold TokebiStartSession
  simp only []
  rw [QueueEvent_loads]

theorem TokebiTrack_loads (E : Engine) (cfg : Settings) (env : Env) (EventName : String)
    (EventData : List (String × String)) (s : State) :
    (TokebiTrack E cfg env EventName EventData s).LoadCalls
      = (InitializeTokebiSystem E cfg s).LoadCalls := by
  unfold TokebiTrack
  simp only []
  rw [QueueEvent_loads]

theorem TokebiEndSession_loads (E : Engine) (cfg : Settings) (env : Env) (s : State) :
    (TokebiEndSession E cfg env s).LoadCalls = s.LoadCalls := by
  unfold TokebiEndSession
  split
  · rfl
  · show (TokebiFlushEvents E cfg env _).LoadCalls = _
    unfold TokebiFlushEvents
    rw [FlushQueuedEvents_loads, QueueEvent_loads]

theorem loads_of_initialize (E : Engine) (cfg : Settings) (s t : State)
    (ht : t.LoadCalls = (InitializeTokebiSystem E cfg s).LoadCalls)
    (hi : t.bSystemInitialized = true) :
    (s.bSystemInitialized = true → t.bSystemInitialized = true ∧ t.LoadCalls = s.LoadCalls)
    ∧ (t.LoadCalls = s.LoadCalls
        ∨ (t.LoadCalls = s.LoadCalls + 1 ∧ t.bSystemInitialized = true)) := by
  obtain ⟨l1, l2⟩ := InitializeTokebiSystem_loads E cfg s
  refine ⟨fun h => ⟨hi, by rw [ht, l1 h]⟩, ?_⟩
  cases h : s.bSystemInitialized
  · exact Or.inr ⟨by rw [ht, l2 h], hi⟩
  · exact Or.inl (by rw [ht, l1 h])

theorem Call_apply_loads (E : Engine) (cfg : Settings) (s : State) (c : Call) :
    (s.bSystemInitialized = true →
        (c.apply E cfg s).bSystemInitialized = true
        ∧ (c.apply E cfg s).LoadCalls = s.LoadCalls)
    ∧ ((c.apply E cfg s).LoadCalls = s.LoadCalls
        ∨ ((c.apply E cfg s).LoadCalls = s.LoadCalls + 1
            ∧ (c.apply E cfg s).bSystemInitialized = true)) := by
  cases c with
  | registerGame env =>
    exact loads_of_initialize E cfg s _ (TokebiRegisterGame_loads E cfg env s)
      (TokebiRegisterGame_initialized E cfg env s)
  | startSession env =>
    exact loads_of_initialize E cfg s _ (TokebiStartSession_loads E cfg env s)
      (TokebiStartSession_initialized E cfg env s)
  | track env EventName EventData =>
    exact loads_of_initialize E cfg s _ (TokebiTrack_loads E cfg env EventName EventData s)
      (TokebiTrack_initialized E cfg env EventName EventData s)
  | endSession env =>
    refine ⟨fun h => ⟨?_, TokebiEndSession_loads E cfg env s⟩,
      Or.inl (TokebiEndSession_loads E cfg env s)⟩
    show (TokebiEndSession E cfg env s).bSystemInitialized = true
    rw [TokebiEndSession_initialized, h]
  | flushEvents env =>
    refine ⟨fun h => ⟨?_, FlushQueuedEvents_loads E cfg env s⟩,
      Or.inl (FlushQueuedEvents_loads E cfg env s)⟩
    show (FlushQueuedEvents E cfg env s).bSystemInitialized = true
    rw [(FlushQueuedEvents_effect E cfg env s).1, h]
  | tick env =>
    refine ⟨fun h => ⟨?_, FlushQueuedEvents_loads E cfg env s⟩,
      Or.inl (FlushQueuedEvents_loads E cfg env s)⟩
    show (FlushQueuedEvents E cfg env s).bSystemInitialized = true
    rw [(FlushQueuedEvents_effect E cfg env s).1, h]
  | complete io i bWasSuccessful Response =>
    refine ⟨fun h => ⟨?_, OnProcessRequestComplete_loads E io i bWasSuccessful Response s⟩,
      Or.inl (OnProcessRequestComplete_loads E io i bWasSuccessful Response s)⟩
    show (OnProcessRequestComplete E io i bWasSuccessful Response s).bSystemInitialized = true
    rw [(OnProcessRequestComplete_frame E io i bWasSuccessful Response s).2.2.2, h]

theorem runCalls_initialized (E : Engine) (cfg : Settings) (calls : List Call) (s : State)
    (h : s.bSystemInitialized = true) :
    (runCalls E cfg calls s).bSystemInitialized = true
    ∧ (runCalls E cfg calls s).LoadCalls = s.LoadCalls := by
  induction calls generalizing s with
  | nil => exact ⟨h, rfl⟩
  | cons c rest ih =>
    obtain ⟨c1, c2⟩ := (Call_apply_loads E cfg s c).1 h
    obtain ⟨i1, i2⟩ := ih (c.apply E cfg s) c1
    have hrun : runCalls E cfg (c :: rest) s = runCalls E cfg rest (c.apply E cfg s) := rfl
    rw [hrun]
    exact ⟨i1, by rw [i2, c2]⟩

theorem runCalls_loads (E : Engine) (cfg : Settings) (calls : List Call) (s : State) :
    s.LoadCalls ≤ (runCalls E cfg calls s).LoadCalls
    ∧ (runCalls E cfg calls s).LoadCalls ≤ s.LoadCalls + 1 := by
  induction calls generalizing s with
  | nil => exact ⟨Nat.le_refl _, Nat.le_succ _⟩
  | cons c rest ih =>
    have hrun : runCalls E cfg (c :: rest) s = runCalls E cfg rest (c.apply E cfg s) := rfl
    rw [hrun]
    rcases (Call_apply_loads E cfg s c).2 with h0 | ⟨h1, hi⟩
    · obtain ⟨i1, i2⟩ := ih (c.apply E cfg s)
      rw [h0] at i1 i2
      exact ⟨i1, i2⟩
    · rw [(runCalls_initialized E cfg rest _ hi).2, h1]
      exact ⟨Nat.le_succ _, Nat.le_refl _⟩

theorem Steady_of_fields (E : Engine) (cfg : Settings) (B : Nat) (s t : State)
    (h : Steady E cfg B s) (hi : t.bSystemInitialized = s.bSystemInitialized)
    (hr : t.requests = s.requests) (hq : t.EventQueue = s.EventQueue) : Steady E cfg B t := by
  obtain ⟨h1, h2, h3⟩ := h
  refine ⟨by rw [hi, h1], ?_, by rw [hq]; exact h3⟩
  intro r hr2
  rw [hr] at hr2
  exact h2 r hr2

theorem Steady_add_track (E : Engine) (cfg : Settings) (B : Nat) (s t : State)
    (b : List JsonObject) (h : Steady E cfg B s) (hB : 1 ≤ B)
    (hi : t.bSystemInitialized = s.bSystemInitialized)
    (hr : t.requests = s.requests ++ [trackRequest cfg b]) (hb : b.length ≤ B)
    (hq : t.EventQueue = []) : Steady E cfg B t := by
  obtain ⟨h1, h2, _⟩ := h
  refine ⟨by rw [hi, h1], ?_, by rw [hq]; exact hB⟩
  intro r hr2
  rw [hr, List.mem_append, List.mem_singleton] at hr2
  rcases hr2 with hr2 | hr2
  · exact h2 r hr2
  · exact Or.inl ⟨b, hr2, hb⟩

theorem Steady_QueueEvent (E : Engine) (cfg : Settings) (env : Env) (EventType : String)
    (EventData : List (String × String)) (B : Nat) (s : State)
    (hB : MAX_QUEUE_SIZE ≤ B) (h : Steady E cfg B s) :
    Steady E cfg B (QueueEvent E cfg env EventType EventData s) := by
  have hB1 : 1 ≤ B := le_trans (by decide) hB
  obtain ⟨e1, _, e3⟩ := QueueEvent_effect E cfg env EventType EventData s
  rcases e3 with ⟨hr, hq⟩ | ⟨e, hr, hq, hlt⟩ | ⟨e, hr, hq⟩
  · exact Steady_of_fields E cfg B s _ h e1 hr hq
  · obtain ⟨h1, h2, _⟩ := h
    refine ⟨by rw [e1, h1], ?_, ?_⟩
    · intro r hr2
      rw [hr] at hr2
      exact h2 r hr2
    · rw [hq, List.length_append, List.length_singleton]
      omega
  · refine Steady_add_track E cfg B s _ _ h hB1 e1 hr ?_ hq
    rw [List.length_append, List.length_singleton]
    exact h.2.2

theorem Steady_FlushQueuedEvents (E : Engine) (cfg : Settings) (env : Env) (B : Nat)
    (s : State) (h : Steady E cfg B s) : Steady E cfg B (FlushQueuedEvents E cfg env s) := by
  obtain ⟨e1, e2⟩ := FlushQueuedEvents_effect E cfg env s
  rcases e2 with ⟨hr, hq, _⟩ | ⟨hr, hq⟩
  · exact Steady_of_fields E cfg B s _ h e1 hr hq
  · exact Steady_add_track E cfg B s _ _ h (le_trans (Nat.le_add_left 1 _) h.2.2) e1 hr
      (le_trans (Nat.le_succ _) h.2.2) hq

theorem Steady_RegisterGameWithTokebi (E : Engine) (cfg : Settings) (env : Env) (B : Nat)
    (s : State) (h : Steady E cfg B s) :
    Steady E cfg B (RegisterGameWithTokebi E cfg env s) := by
  obtain ⟨e1, e2, e3⟩ := RegisterGameWithTokebi_effect E cfg env s
  rcases e3 with hr | hr
  · exact Steady_of_fields E cfg B s _ h e1 hr e2
  · obtain ⟨h1, h2, h3⟩ := h
    refine ⟨by rw [e1, h1], ?_, by rw [e2]; exact h3⟩
    intro r hr2
    rw [hr, List.mem_append, List.mem_singleton] at hr2
    rcases hr2 with hr2 | hr2
    · exact h2 r hr2
    · exact Or.inr hr2

theorem Steady_TokebiRegisterGame (E : Engine) (cfg : Settings) (env : Env) (B : Nat)
    (s : State) (h : Steady E cfg B (InitializeTokebiSystem E cfg s)) :
    Steady E cfg B (TokebiRegisterGame E cfg env s) := by
  unfold TokebiRegisterGame
  simp only []
  split
  · exact Steady_RegisterGameWithTokebi E cfg env B _ h
  · exact h

theorem Steady_TokebiStartSession (E : Engine) (cfg : Settings) (env : Env) (B : Nat)
    (s : State) (hB : MAX_QUEUE_SIZE ≤ B)
    (h : Steady E cfg B (InitializeTokebiSystem E cfg s)) :
    Steady E cfg B (TokebiStartSession E cfg env s) := by
  unfold TokebiStartSession
  simp only []
  exact Steady_QueueEvent E cfg env _ _ B _ hB
    (Steady_of_fields E cfg B _ _ h rfl rfl rfl)

theorem Steady_TokebiTrack (E : Engine) (cfg : Settings) (env : Env) (EventName : String)
    (EventData : List (String × String)) (B : Nat) (s : State) (hB : MAX_QUEUE_SIZE ≤ B)
    (h : Steady E cfg B (InitializeTokebiSystem E cfg s)) :
    Steady E cfg B (TokebiTrack E cfg env EventName EventData s) := by
  unfold TokebiTrack
  simp only []
  exact Steady_QueueEvent E cfg env _ _ B _ hB h

theorem Steady_TokebiEndSession (E : Engine) (cfg : Settings) (env : Env) (B : Nat)
    (s : State) (hB : MAX_QUEUE_SIZE ≤ B) (h : Steady E cfg B s) :
    Steady E cfg B (TokebiEndSession E cfg env s) := by
  unfold TokebiEndSession
  split
  · exact h
  · exact Steady_of_fields E cfg B _ _
      (Steady_FlushQueuedEvents E cfg env B _ (Steady_QueueEvent E cfg env _ _ B s hB h))
      rfl rfl rfl

theorem Steady_complete (E : Engine) (io : WriteOutcome) (cfg : Settings) (i : Nat)
    (bWasSuccessful : Bool) (Response : Option HttpResponse) (B : Nat) (s : State)
    (h : Steady E cfg B s) :
    Steady E cfg B (OnProcessRequestComplete E io i bWasSuccessful Response s) := by
  obtain ⟨_, f2, _, f4⟩ := OnProcessRequestComplete_frame E io i bWasSuccessful Response s
  exact Steady_of_fields E cfg B s _ h f4
    (OnProcessRequestComplete_requests E io i bWasSuccessful Response s) f2

theorem Steady_initialize (E : Engine) (cfg : Settings) (B : Nat) (d : Disk)
    (h : offlineCount d + 1 ≤ B) :
    Steady E cfg B (InitializeTokebiSystem E cfg (State.initial d)) := by
  obtain ⟨_, _, i3, _, i5, _⟩ := InitializeTokebiSystem_fields E cfg (State.initial d)
  refine ⟨InitializeTokebiSystem_initialized E cfg _, ?_, ?_⟩
  · intro r hr
    rw [i3] at hr
    exact absurd hr (List.not_mem_nil r)
  · rw [i5]
    simp only [State.initial, Bool.false_eq_true, if_false, List.nil_append, List.length_map]
    exact h

theorem Call_apply_steady (E : Engine) (cfg : Settings) (B : Nat) (d : Disk) (s : State)
    (c : Call) (hB : MAX_QUEUE_SIZE ≤ B) (hd : offlineCount d + 1 ≤ B)
    (h : s = State.initial d ∨ Steady E cfg B s) :
    c.apply E cfg s = State.initial d ∨ Steady E cfg B (c.apply E cfg s) := by
  have hinit : Steady E cfg B (InitializeTokebiSystem E cfg s) := by
    rcases h with h | h
    · rw [h]
      exact Steady_initialize E cfg B d hd
    · rw [InitializeTokebiSystem_of_initialized E cfg s h.1]
      exact h
  cases c with
  | registerGame env => exact Or.inr (Steady_TokebiRegisterGame E cfg env B s hinit)
  | startSession env => exact Or.inr (Steady_TokebiStartSession E cfg env B s hB hinit)
  | track env EventName EventData =>
    exact Or.inr (Steady_TokebiTrack E cfg env EventName EventData B s hB hinit)
  | endSession env =>
    rcases h with h | h
    · left
      rw [h]
      exact TokebiEndSession_inactive E cfg env (State.initial d) rfl
    · exact Or.inr (Steady_TokebiEndSession E cfg env B s hB h)
  | flushEvents env =>
    rcases h with h | h
    · left
      rw [h]
      exact FlushQueuedEvents_empty E cfg env (State.initial d) rfl
    · exact Or.inr (Steady_FlushQueuedEvents E cfg env B s h)
  | tick env =>
    rcases h with h | h
    · left
      rw [h]
      exact FlushQueuedEvents_empty E cfg env (State.initial d) rfl
    · exact Or.inr (Steady_FlushQueuedEvents E cfg env B s h)
  | complete io i bWasSuccessful Response =>
    rcases h with h | h
    · left
      rw [h]
      rfl
    · exact Or.inr (Steady_complete E io cfg i bWasSuccessful Response B s h)

theorem runCalls_steady (E : Engine) (cfg : Settings) (B : Nat) (d : Disk) (calls : List Call)
    (s : State) (hB : MAX_QUEUE_SIZE ≤ B) (hd : offlineCount d + 1 ≤ B)
    (h : s = State.initial d ∨ Steady E cfg B s) :
    runCalls E cfg calls s = State.initial d ∨ Steady E cfg B (runCalls E cfg calls s) := by
  induction calls generalizing s with
  | nil => exact h
  | cons c rest ih => exact ih _ (Call_apply_steady E cfg B d s c hB hd h)

theorem runCalls_batches (E : Engine) (cfg : Settings) (B : Nat) (d : Disk) (calls : List Call)
    (hB : MAX_QUEUE_SIZE ≤ B) (hd : offlineCount d + 1 ≤ B) :
    BatchesWithin E cfg B (runCalls E cfg calls (State.initial d)) := by
  rcases runCalls_steady E cfg B d calls (State.initial d) hB hd (Or.inl rfl) with h | h
  · rw [h]
    intro r hr
    exact absurd hr (List.not_mem_nil r)
  · exact h.2.1

/-- C1: for a non-empty queue drained by `FlushQueuedEvents`, the completion
handler of the track request captured exactly the drained batch, and for every
completion result `(bSuccess, ResponseCode, ResponseBody)` with a failed
transport, or a status code outside 200..299, the handler calls
`SaveEventsToFile` with the full batch, in drain order. -/
theorem C1_failed_batch_handed_to_SaveEventsToFile (E : Engine) (cfg : Settings) (env : Env)
    (s : State) (bSuccess : Bool) (ResponseCode : Int) (ResponseBody : JsonText)
    (hq : s.EventQueue ≠ [])
    (hfail : bSuccess = false ∨ ¬ (200 ≤ ResponseCode ∧ ResponseCode ≤ 299)) :
    ∃ req, (FlushQueuedEvents E cfg env s).requests = s.requests ++ [req]
      ∧ req.OnComplete = Callback.track s.EventQueue
      ∧ FlushQueuedEvents.Completion s.EventQueue bSuccess ResponseCode ResponseBody
          = some s.EventQueue
      ∧ ∀ (io : WriteOutcome) (t : State),
          req.OnComplete.invoke E io bSuccess ResponseCode ResponseBody t
            = { t with disk := SaveEventsToFile io s.EventQueue t.disk } := by
  have hno : ¬ (bSuccess = true ∧ ResponseCode = 200) := by
    rintro ⟨hb, hc⟩
    rcases hfail with h | h
    · rw [hb] at h; exact Bool.noConfusion h
    · apply h; rw [hc]; constructor <;> decide
  refine ⟨trackRequest cfg s.EventQueue, (FlushQueuedEvents_requests E cfg env s hq).1, rfl,
    Completion_some _ _ _ _ hno, ?_⟩
  intro io t
  exact invoke_track_fail E io s.EventQueue bSuccess ResponseCode ResponseBody t hno

/-- Witness of C1: a queue of one event whose request completes with status
500. -/
theorem C1_witness :
    ∃ req, (FlushQueuedEvents sampleEngine sampleCfg sampleEnv
          { State.initial emptyDisk with EventQueue := [sampleEvent "level_complete"] }).requests
        = [] ++ [req]
      ∧ req.OnComplete = Callback.track [sampleEvent "level_complete"]
      ∧ FlushQueuedEvents.Completion [sampleEvent "level_complete"] true 500 JsonText.empty
          = some [sampleEvent "level_complete"]
      ∧ ∀ (io : WriteOutcome) (t : State),
          req.OnComplete.invoke sampleEngine io true 500 JsonText.empty t
            = { t with disk := SaveEventsToFile io [sampleEvent "level_complete"] t.disk } :=
  C1_failed_batch_handed_to_SaveEventsToFile sampleEngine sampleCfg sampleEnv
    { State.initial emptyDisk with EventQueue := [sampleEvent "level_complete"] }
    true 500 JsonText.empty (List.cons_ne_nil _ _) (Or.inr (by decide))

/-- C3: when serialization and the file write succeed, `SaveEventsToFile` of a
non-empty list `Events` leaves the file holding exactly the last
`min 500 (|S| + |Events|)` elements of `S ++ Events`, in order, where `S` is the
array decoded from the existing file (empty when the file is absent, empty,
unparseable or not an array). The write succeeds when the directory exists or
is created and `SaveStringToFile` returns true. -/
theorem C3_SaveEventsToFile_keeps_last_500 (io : WriteOutcome) (Events : List JsonObject) (d : Disk)
    (hne : Events ≠ []) (hser : io.serializeOk = true)
    (hdir : io.directoryExists = true ∨ io.createDirectoryTreeOk = true)
    (hsave : io.saveStringToFileOk = true) :
    (SaveEventsToFile io Events d).offlineEvents =
      some (JsonText.json (JsonValue.array
        (lastN (min 500 ((storedArray d.offlineEvents).length + Events.length))
          (storedArray d.offlineEvents ++ Events.map JsonValue.object)))) := by
  have hio : io.succeeds = true := by
    rcases hdir with h | h <;> simp [WriteOutcome.succeeds, hser, hsave, h]
  rw [SaveEventsToFile_ok io Events d hne hio]
  have hl : (storedArray d.offlineEvents).length + Events.length
      = (storedArray d.offlineEvents ++ Events.map JsonValue.object).length := by simp
  rw [hl, lastN_min_length]
  rfl

/-- Witness of C3: one event saved over a file that holds a JSON number. -/
theorem C3_witness :
    (SaveEventsToFile okWrite [sampleEvent "level_complete"]
        { offlineEvents := some (JsonText.json (JsonValue.number 7)),
          playerIdFile := none }).offlineEvents =
      some (JsonText.json (JsonValue.array
        (lastN (min 500 ((storedArray (some (JsonText.json (JsonValue.number 7)))).length
            + [sampleEvent "level_complete"].length))
          (storedArray (some (JsonText.json (JsonValue.number 7)))
            ++ [sampleEvent "level_complete"].map JsonValue.object)))) :=
  C3_SaveEventsToFile_keeps_last_500 okWrite [sampleEvent "level_complete"]
    { offlineEvents := some (JsonText.json (JsonValue.number 7)), playerIdFile := none }
    (List.cons_ne_nil _ _) rfl (Or.inl rfl) rfl

/-- C4: successive calls of `SaveEventsToFile` with non-empty batches
`B1..Bk`, from an absent file and with every write succeeding, leave the file
holding exactly the last `min 500 (|B1| + ... + |Bk|)` events of
`B1 ++ ... ++ Bk`, in order (the file being a JSON array as soon as `k > 0`);
it never holds more than 500 events, and holds exactly the most recent 500
once more than 500 were persisted. -/
theorem C4_bounded_retention (calls : List (WriteOutcome × List JsonObject)) (d : Disk)
    (habsent : d.offlineEvents = none)
    (hne : ∀ c ∈ calls, c.2 ≠ []) (hio : ∀ c ∈ calls, c.1.succeeds = true) :
    let all := ((calls.map (fun c => c.2)).flatten).map JsonValue.object
    storedArray (SaveAll calls d).offlineEvents = lastN (min 500 all.length) all
    ∧ (calls ≠ [] → (SaveAll calls d).offlineEvents
        = some (JsonText.json (JsonValue.array (lastN (min 500 all.length) all))))
    ∧ (storedArray (SaveAll calls d).offlineEvents).length ≤ 500
    ∧ (500 < all.length →
        storedArray (SaveAll calls d).offlineEvents = lastN 500 all
        ∧ (storedArray (SaveAll calls d).offlineEvents).length = 500) := by
  intro all
  have hd : (storedArray d.offlineEvents).length ≤ MAX_SAVED_EVENTS := by
    rw [habsent]; simp [storedArray]
  obtain ⟨h1, h2, _⟩ := SaveAll_stored calls d hne hio hd
  have h1' : storedArray (SaveAll calls d).offlineEvents = lastN 500 all := by
    rw [h1, habsent]; simp only [storedArray, List.nil_append]; rfl
  refine ⟨?_, ?_, ?_, ?_⟩
  · rw [h1', lastN_min_length]
  · intro hc
    obtain ⟨a, ha⟩ := h2 hc
    have : storedArray (SaveAll calls d).offlineEvents = a := by rw [ha]; rfl
    rw [ha, ← this, h1', lastN_min_length]
  · rw [h1', length_lastN]; exact Nat.min_le_left _ _
  · intro hlt
    refine ⟨h1', ?_⟩
    rw [h1', length_lastN]
    exact Nat.min_eq_left (Nat.le_of_lt hlt)

/-- Witness of C4: two batches of 300 events saved in turn; the file ends up
with the most recent 500. -/
theorem C4_witness :
    storedArray (SaveAll twoSaves emptyDisk).offlineEvents
      = lastN 500 (((twoSaves.map (fun c => c.2)).flatten).map JsonValue.object)
    ∧ (storedArray (SaveAll twoSaves emptyDisk).offlineEvents).length = 500 :=
  (C4_bounded_retention twoSaves emptyDisk rfl
    (by
      intro c hc h0
      have hl : c.2.length = 300 := by
        rcases List.mem_cons.mp hc with h | h
        · rw [h]; exact List.length_replicate _ _
        · rw [List.mem_singleton.mp h]; exact List.length_replicate _ _
      rw [h0] at hl
      exact absurd hl (by decide))
    (by
      intro c hc
      rcases List.mem_cons.mp hc with h | h
      · rw [h]; rfl
      · rw [List.mem_singleton.mp h]; rfl)).2.2.2
    (by
      have h : (((twoSaves.map (fun c => c.2)).flatten).map JsonValue.object).length
          = 300 + (300 + 0) := by
        simp only [twoSaves, List.map_cons, List.map_nil, List.flatten_cons, List.flatten_nil,
          List.length_map, List.length_append, batch300, List.length_replicate,
          List.length_nil]
      rw [h]
      decide)

/-- C5: round trip of the offline store. For a non-empty list `Events` of at
most 500 events, with the offline file absent, no registered game id and an
empty queue, and the write going through: `SaveEventsToFile` leaves a file
holding exactly `Events`; `LoadEventsFromFile` then leaves the queue equal to
`Events`, in order, and the file deleted; a following `FlushQueuedEvents` sends
exactly `Events` and empties the queue, and once its request completes with
status 200 the queue is empty and no offline file exists. -/
theorem C5_offline_round_trip (E : Engine) (cfg : Settings) (env : Env) (io io' : WriteOutcome)
    (Events : List JsonObject) (ResponseBody : JsonText) (s : State)
    (hne : Events ≠ []) (hlen : Events.length ≤ 500) (hio : io.succeeds = true)
    (habsent : s.disk.offlineEvents = none) (hreg : s.RegisteredGameId = "")
    (hq : s.EventQueue = []) (hstart : env.ProcessRequest = true) :
    let s1 : State := { s with disk := SaveEventsToFile io Events s.disk }
    let s2 := LoadEventsFromFile E cfg s1
    let s3 := FlushQueuedEvents E cfg env s2
    let s4 := OnProcessRequestComplete E io' s.pending.length true
      (some { ResponseCode := 200, Content := ResponseBody }) s3
    s1.disk.offlineEvents = some (JsonText.json (JsonValue.array (Events.map JsonValue.object)))
    ∧ s2.EventQueue = Events ∧ s2.disk.offlineEvents = none
    ∧ s3.requests = s.requests ++ [trackRequest cfg Events]
    ∧ s3.pending = s.pending ++ [trackRequest cfg Events]
    ∧ s3.EventQueue = [] ∧ s3.disk.offlineEvents = none
    ∧ s4.EventQueue = [] ∧ s4.disk.offlineEvents = none ∧ s4.pending = s.pending := by
  intro s1 s2 s3 s4
  have hsave : s1.disk.offlineEvents
      = some (JsonText.json (JsonValue.array (Events.map JsonValue.object))) := by
    show (SaveEventsToFile io Events s.disk).offlineEvents = _
    rw [SaveEventsToFile_ok io Events s.disk hne hio, habsent]
    simp only [storedArray, List.nil_append]
    rw [lastN_of_length_le]
    simpa [MAX_SAVED_EVENTS] using hlen
  have hload : s2 = { s1 with EventQueue := Events,
                              disk := { s1.disk with offlineEvents := none },
                              LoadCalls := s1.LoadCalls + 1 } := by
    show LoadEventsFromFile E cfg s1 = _
    rw [LoadEventsFromFile_array E cfg s1 _ hsave]
    have h1 : s1.RegisteredGameId = "" := hreg
    have h2 : s1.EventQueue = [] := hq
    rw [h1, h2, map_reconciled_unregistered, objectsOf_map_object, List.nil_append]
  have hq2 : s2.EventQueue ≠ [] := by rw [hload]; exact hne
  have hflush : s3 = _ := FlushQueuedEvents_started E cfg env s2 hq2 hstart
  have hp3 : s3.pending = s.pending ++ [trackRequest cfg Events] := by
    rw [hflush, hload]
  have hdone : s4 = { s3 with pending := s.pending } := by
    show OnProcessRequestComplete E io' s.pending.length true _ s3 = _
    rw [OnProcessRequestComplete_last E io' true _ s3 s.pending _ hp3]
    simp only [SendHTTPRequest.Completion, trackRequest]
    exact invoke_track_ok E io' Events ResponseBody _
  refine ⟨hsave, ?_, ?_, ?_, hp3, ?_, ?_, ?_, ?_, ?_⟩
  · rw [hload]
  · rw [hload]
  · rw [hflush, hload]
  · rw [hflush]
  · rw [hflush, hload]
  · rw [hdone, hflush]
  · rw [hdone, hflush, hload]
  · rw [hdone]

/-- Witness of C5: one event saved, loaded back and sent. -/
theorem C5_witness :
    let s1 : State :=
      { State.initial emptyDisk with
        disk := SaveEventsToFile okWrite [sampleEvent "level_complete"]
          (State.initial emptyDisk).disk }
    let s2 := LoadEventsFromFile sampleEngine sampleCfg s1
    let s3 := FlushQueuedEvents sampleEngine sampleCfg sampleEnv s2
    let s4 := OnProcessRequestComplete sampleEngine okWrite
      (State.initial emptyDisk).pending.length true
      (some { ResponseCode := 200, Content := JsonText.empty }) s3
    s1.disk.offlineEvents = some (JsonText.json (JsonValue.array
        ([sampleEvent "level_complete"].map JsonValue.object)))
    ∧ s2.EventQueue = [sampleEvent "level_complete"] ∧ s2.disk.offlineEvents = none
    ∧ s3.requests = (State.initial emptyDisk).requests
        ++ [trackRequest sampleCfg [sampleEvent "level_complete"]]
    ∧ s3.pending = (State.initial emptyDisk).pending
        ++ [trackRequest sampleCfg [sampleEvent "level_complete"]]
    ∧ s3.EventQueue = [] ∧ s3.disk.offlineEvents = none
    ∧ s4.EventQueue = [] ∧ s4.disk.offlineEvents = none
    ∧ s4.pending = (State.initial emptyDisk).pending :=
  C5_offline_round_trip sampleEngine sampleCfg sampleEnv okWrite okWrite
    [sampleEvent "level_complete"] JsonText.empty (State.initial emptyDisk)
    (List.cons_ne_nil _ _) (by decide) rfl rfl rfl rfl rfl

/-- C6, as stated, fails on an array with an element that is not an object: from
the file `[1, {event}]` and an empty queue, `LoadEventsFromFile` queues the
event alone, so the queue is not the previous queue followed by the two
elements of the array. -/
theorem C6_counterexample :
    (LoadEventsFromFile sampleEngine sampleCfg
        (stateWithFile (JsonText.json (JsonValue.array
          [JsonValue.number 1, JsonValue.object (sampleEvent "level_start")])) [])).EventQueue
      = [sampleEvent "level_start"]
    ∧ (LoadEventsFromFile sampleEngine sampleCfg
        (stateWithFile (JsonText.json (JsonValue.array
          [JsonValue.number 1, JsonValue.object (sampleEvent "level_start")]))
          [])).EventQueue.map JsonValue.object
      ≠ [] ++ [JsonValue.number 1, JsonValue.object (sampleEvent "level_start")] := by
  have h := LoadEventsFromFile_array sampleEngine sampleCfg
    (stateWithFile (JsonText.json (JsonValue.array
      [JsonValue.number 1, JsonValue.object (sampleEvent "level_start")])) [])
    [JsonValue.number 1, JsonValue.object (sampleEvent "level_start")] rfl
  rw [h]
  refine ⟨by simp [stateWithFile, State.initial, objectsOf, reconciled_unregistered], ?_⟩
  intro hc
  have hl := congrArg List.length hc
  simp [stateWithFile, State.initial, objectsOf] at hl

/-- C6, amended: for every offline file whose content is a JSON array,
`LoadEventsFromFile` appends to the queue, in file order, every element of the
array that is a JSON object, each after the game-id reconciliation, and skips
the other elements; the backing file no longer exists afterwards. When no
canonical id is stored the objects are appended unchanged. -/
theorem C6_LoadEventsFromFile_appends_objects (E : Engine) (cfg : Settings) (s : State)
    (a : List JsonValue) (h : s.disk.offlineEvents = some (JsonText.json (JsonValue.array a))) :
    (LoadEventsFromFile E cfg s).EventQueue
        = s.EventQueue ++ (objectsOf a).map (reconciled E cfg s.RegisteredGameId)
    ∧ (LoadEventsFromFile E cfg s).disk.offlineEvents = none
    ∧ (s.RegisteredGameId = "" →
        (LoadEventsFromFile E cfg s).EventQueue = s.EventQueue ++ objectsOf a) := by
  rw [LoadEventsFromFile_array E cfg s a h]
  refine ⟨rfl, rfl, ?_⟩
  intro hr
  simp only [hr, map_reconciled_unregistered]

/-- Witness of C6: a file holding two events and a string, loaded behind one
queued event. -/
theorem C6_witness :
    (LoadEventsFromFile sampleEngine sampleCfg
        (stateWithFile (JsonText.json (JsonValue.array mixedArray))
          [sampleEvent "level_start"])).EventQueue
      = (stateWithFile (JsonText.json (JsonValue.array mixedArray))
          [sampleEvent "level_start"]).EventQueue
        ++ (objectsOf mixedArray).map (reconciled sampleEngine sampleCfg
            (stateWithFile (JsonText.json (JsonValue.array mixedArray))
              [sampleEvent "level_start"]).RegisteredGameId)
    ∧ (LoadEventsFromFile sampleEngine sampleCfg
        (stateWithFile (JsonText.json (JsonValue.array mixedArray))
          [sampleEvent "level_start"])).disk.offlineEvents = none
    ∧ (LoadEventsFromFile sampleEngine sampleCfg
        (stateWithFile (JsonText.json (JsonValue.array mixedArray))
          [sampleEvent "level_start"])).EventQueue
      = (stateWithFile (JsonText.json (JsonValue.array mixedArray))
          [sampleEvent "level_start"]).EventQueue ++ objectsOf mixedArray :=
  ⟨(C6_LoadEventsFromFile_appends_objects sampleEngine sampleCfg
      (stateWithFile (JsonText.json (JsonValue.array mixedArray)) [sampleEvent "level_start"])
      mixedArray rfl).1,
   (C6_LoadEventsFromFile_appends_objects sampleEngine sampleCfg
      (stateWithFile (JsonText.json (JsonValue.array mixedArray)) [sampleEvent "level_start"])
      mixedArray rfl).2.1,
   (C6_LoadEventsFromFile_appends_objects sampleEngine sampleCfg
      (stateWithFile (JsonText.json (JsonValue.array mixedArray)) [sampleEvent "level_start"])
      mixedArray rfl).2.2 rfl⟩

/-- C7: when the offline file is absent, or its content does not decode as a
JSON array (empty, unparseable, or another JSON value), `LoadEventsFromFile`
returns normally, leaves the in-memory queue and every static variable as they
were, and afterwards no offline file exists: the state differs from the one
before only in the file being gone and in the count of executions of the
load, which grows by one. -/
theorem C7_LoadEventsFromFile_missing_or_malformed (E : Engine) (cfg : Settings) (s : State)
    (h : ∀ a, s.disk.offlineEvents ≠ some (JsonText.json (JsonValue.array a))) :
    (LoadEventsFromFile E cfg s).EventQueue = s.EventQueue
    ∧ (LoadEventsFromFile E cfg s).disk.offlineEvents = none
    ∧ LoadEventsFromFile E cfg s
        = { s with disk := { s.disk with offlineEvents := none },
                   LoadCalls := s.LoadCalls + 1 } := by
  rw [LoadEventsFromFile_not_array E cfg s h]
  exact ⟨rfl, rfl, rfl⟩

/-- Witness of C7: a file holding text that is not JSON, with one event
already queued. -/
theorem C7_witness :
    (LoadEventsFromFile sampleEngine sampleCfg
        (stateWithFile (JsonText.raw "not json") [sampleEvent "level_start"])).EventQueue
      = (stateWithFile (JsonText.raw "not json") [sampleEvent "level_start"]).EventQueue
    ∧ (LoadEventsFromFile sampleEngine sampleCfg
        (stateWithFile (JsonText.raw "not json") [sampleEvent "level_start"])).disk.offlineEvents
      = none
    ∧ LoadEventsFromFile sampleEngine sampleCfg
        (stateWithFile (JsonText.raw "not json") [sampleEvent "level_start"])
      = { stateWithFile (JsonText.raw "not json") [sampleEvent "level_start"] with
          disk := { (stateWithFile (JsonText.raw "not json")
                      [sampleEvent "level_start"]).disk with offlineEvents := none },
          LoadCalls := (stateWithFile (JsonText.raw "not json")
                      [sampleEvent "level_start"]).LoadCalls + 1 } :=
  C7_LoadEventsFromFile_missing_or_malformed sampleEngine sampleCfg
    (stateWithFile (JsonText.raw "not json") [sampleEvent "level_start"])
    (by intro a h; simp [stateWithFile, State.initial] at h)

/-- C8: `FlushQueuedEvents` issues a request iff the queue is non-empty. On an
empty queue nothing is sent and the state is unchanged; on a queue `e1..en`
exactly one request is issued, a POST to `{endpoint}/api/track` whose body is
the object `{events: [e1, ..., en]}` in queue order, and the queue is empty
when the call returns. -/
theorem C8_FlushQueuedEvents_sends_one_batch (E : Engine) (cfg : Settings) (env : Env)
    (s : State) :
    ((FlushQueuedEvents E cfg env s).requests ≠ s.requests ↔ s.EventQueue ≠ [])
    ∧ (s.EventQueue = [] → FlushQueuedEvents E cfg env s = s)
    ∧ (s.EventQueue ≠ [] →
        ∃ req, (FlushQueuedEvents E cfg env s).requests = s.requests ++ [req]
          ∧ req.Verb = "POST"
          ∧ req.URL = cfg.TokebiEndpoint ++ "/api/track"
          ∧ req.Content = JsonText.json (JsonValue.object
              [("events", JsonValue.array (s.EventQueue.map JsonValue.object))])
          ∧ (FlushQueuedEvents E cfg env s).EventQueue = []) := by
  refine ⟨?_, FlushQueuedEvents_empty E cfg env s, ?_⟩
  · constructor
    · intro h hq
      exact h (by rw [FlushQueuedEvents_empty E cfg env s hq])
    · intro hq h
      have hl := congrArg List.length h
      rw [(FlushQueuedEvents_requests E cfg env s hq).1] at hl
      simp at hl
  · intro hq
    exact ⟨trackRequest cfg s.EventQueue, (FlushQueuedEvents_requests E cfg env s hq).1,
      rfl, rfl, rfl, (FlushQueuedEvents_requests E cfg env s hq).2⟩

/-- Witness of C8: a queue of two events is sent as one batch; an empty
queue is left alone. -/
theorem C8_witness :
    (∃ req, (FlushQueuedEvents sampleEngine sampleCfg sampleEnv
          (stateWithFile JsonText.empty [sampleEvent "a", sampleEvent "b"])).requests
        = (stateWithFile JsonText.empty [sampleEvent "a", sampleEvent "b"]).requests ++ [req]
      ∧ req.Verb = "POST"
      ∧ req.URL = sampleCfg.TokebiEndpoint ++ "/api/track"
      ∧ req.Content = JsonText.json (JsonValue.object
          [("events", JsonValue.array
            ((stateWithFile JsonText.empty [sampleEvent "a", sampleEvent "b"]).EventQueue.map
              JsonValue.object))])
      ∧ (FlushQueuedEvents sampleEngine sampleCfg sampleEnv
          (stateWithFile JsonText.empty [sampleEvent "a", sampleEvent "b"])).EventQueue = [])
    ∧ FlushQueuedEvents sampleEngine sampleCfg sampleEnv (stateWithFile JsonText.empty [])
        = stateWithFile JsonText.empty [] :=
  ⟨(C8_FlushQueuedEvents_sends_one_batch sampleEngine sampleCfg sampleEnv
      (stateWithFile JsonText.empty [sampleEvent "a", sampleEvent "b"])).2.2
      (List.cons_ne_nil _ _),
   (C8_FlushQueuedEvents_sends_one_batch sampleEngine sampleCfg sampleEnv
      (stateWithFile JsonText.empty [])).2.1 rfl⟩

/-- C10: with API key and game id configured, `QueueEvent` appends one event
`e` to the queue `q`; if `|q| + 1 >= 100` a flush is triggered at once whose
batch is `q ++ [e]` and the queue is empty afterwards, otherwise the queue is
`q ++ [e]` and nothing is sent. In both cases the queue holds fewer than 100
events afterwards. -/
theorem C10_QueueEvent_forced_flush (E : Engine) (cfg : Settings) (env : Env)
    (EventType : String) (EventData : List (String × String)) (s : State)
    (hkey : cfg.TokebiApiKey ≠ "") (hgid : cfg.TokebiGameId ≠ "") :
    ∃ e, (QueueEvent E cfg env EventType EventData s).queued = s.queued ++ [e]
      ∧ TryGetField e "eventType" = some (JsonValue.string EventType)
      ∧ (s.EventQueue.length + 1 ≥ 100 →
          (QueueEvent E cfg env EventType EventData s).EventQueue = []
          ∧ (QueueEvent E cfg env EventType EventData s).requests
              = s.requests ++ [trackRequest cfg (s.EventQueue ++ [e])])
      ∧ (s.EventQueue.length + 1 < 100 →
          (QueueEvent E cfg env EventType EventData s).EventQueue = s.EventQueue ++ [e]
          ∧ (QueueEvent E cfg env EventType EventData s).requests = s.requests
          ∧ (QueueEvent E cfg env EventType EventData s).pending = s.pending
          ∧ (QueueEvent E cfg env EventType EventData s).disk.offlineEvents
              = s.disk.offlineEvents)
      ∧ (QueueEvent E cfg env EventType EventData s).EventQueue.length < 100 := by
  obtain ⟨_, hR, hP, _, hO, _⟩ := GetPlayerID_fields env s
  have hlen : (s.EventQueue ++ [queuedEventOf cfg env EventType EventData s]).length
      = s.EventQueue.length + 1 := by simp
  have hne : (afterEnqueue env s (queuedEventOf cfg env EventType EventData s)).EventQueue
      ≠ [] := by simp [afterEnqueue]
  have hfl := FlushQueuedEvents_requests E cfg env
    (afterEnqueue env s (queuedEventOf cfg env EventType EventData s)) hne
  have hfq := (FlushQueuedEvents_frame E cfg env
    (afterEnqueue env s (queuedEventOf cfg env EventType EventData s))).1
  rw [QueueEvent_configured E cfg env EventType EventData s hkey hgid, hlen]
  refine ⟨queuedEventOf cfg env EventType EventData s, ?_, ?_, ?_, ?_, ?_⟩
  · by_cases hge : s.EventQueue.length + 1 ≥ MAX_QUEUE_SIZE
    · rw [if_pos hge, hfq]; rfl
    · rw [if_neg hge]; rfl
  · simp [queuedEventOf, eventOf, TryGetField, FStringEquals, foldCase]
  · intro hge
    have hge' : s.EventQueue.length + 1 ≥ MAX_QUEUE_SIZE := hge
    rw [if_pos hge']
    refine ⟨hfl.2, ?_⟩
    rw [hfl.1]
    simp only [afterEnqueue, hR]
  · intro hlt
    have hlt' : ¬ s.EventQueue.length + 1 ≥ MAX_QUEUE_SIZE := by
      simp only [MAX_QUEUE_SIZE]; omega
    rw [if_neg hlt']
    exact ⟨rfl, hR, hP, hO⟩
  · by_cases hge : s.EventQueue.length + 1 ≥ MAX_QUEUE_SIZE
    · rw [if_pos hge, hfl.2]; simp
    · rw [if_neg hge]
      simp only [afterEnqueue, List.length_append, List.length_singleton]
      simp only [MAX_QUEUE_SIZE] at hge
      omega

/-- Witness of C10: the first event of a fresh process is queued and nothing
is sent. -/
theorem C10_witness :
    ∃ e, (QueueEvent sampleEngine sampleCfg sampleEnv "level_complete" [("level", "3")]
          (State.initial emptyDisk)).queued = (State.initial emptyDisk).queued ++ [e]
      ∧ TryGetField e "eventType" = some (JsonValue.string "level_complete")
      ∧ ((State.initial emptyDisk).EventQueue.length + 1 ≥ 100 →
          (QueueEvent sampleEngine sampleCfg sampleEnv "level_complete" [("level", "3")]
            (State.initial emptyDisk)).EventQueue = []
          ∧ (QueueEvent sampleEngine sampleCfg sampleEnv "level_complete" [("level", "3")]
              (State.initial emptyDisk)).requests
            = (State.initial emptyDisk).requests
                ++ [trackRequest sampleCfg ((State.initial emptyDisk).EventQueue ++ [e])])
      ∧ ((State.initial emptyDisk).EventQueue.length + 1 < 100 →
          (QueueEvent sampleEngine sampleCfg sampleEnv "level_complete" [("level", "3")]
            (State.initial emptyDisk)).EventQueue = (State.initial emptyDisk).EventQueue ++ [e]
          ∧ (QueueEvent sampleEngine sampleCfg sampleEnv "level_complete" [("level", "3")]
              (State.initial emptyDisk)).requests = (State.initial emptyDisk).requests
          ∧ (QueueEvent sampleEngine sampleCfg sampleEnv "level_complete" [("level", "3")]
              (State.initial emptyDisk)).pending = (State.initial emptyDisk).pending
          ∧ (QueueEvent sampleEngine sampleCfg sampleEnv "level_complete" [("level", "3")]
              (State.initial emptyDisk)).disk.offlineEvents
            = (State.initial emptyDisk).disk.offlineEvents)
      ∧ (QueueEvent sampleEngine sampleCfg sampleEnv "level_complete" [("level", "3")]
          (State.initial emptyDisk)).EventQueue.length < 100 :=
  C10_QueueEvent_forced_flush sampleEngine sampleCfg sampleEnv "level_complete"
    [("level", "3")] (State.initial emptyDisk) (by decide) (by decide)

/-- C11: when the configured API key is empty or the configured game id is
empty, `QueueEvent` drops the event: the state is returned as it was, so the
queue is unchanged and no flush or network request is triggered. -/
theorem C11_QueueEvent_unconfigured_drops (E : Engine) (cfg : Settings) (env : Env)
    (EventType : String) (EventData : List (String × String)) (s : State)
    (h : cfg.TokebiApiKey = "" ∨ cfg.TokebiGameId = "") :
    QueueEvent E cfg env EventType EventData s = s
    ∧ (QueueEvent E cfg env EventType EventData s).EventQueue = s.EventQueue
    ∧ (QueueEvent E cfg env EventType EventData s).requests = s.requests
    ∧ (QueueEvent E cfg env EventType EventData s).pending = s.pending
    ∧ (QueueEvent E cfg env EventType EventData s).queued = s.queued := by
  rw [QueueEvent_unconfigured E cfg env EventType EventData s h]
  exact ⟨rfl, rfl, rfl, rfl, rfl⟩

/-- Witness of C11: the default settings, whose API key and game id are
empty, with 99 events already queued. -/
theorem C11_witness :
    QueueEvent sampleEngine defaultCfg sampleEnv "level_complete" [("level", "3")]
        (stateWithFile JsonText.empty (List.replicate 99 (sampleEvent "a")))
      = stateWithFile JsonText.empty (List.replicate 99 (sampleEvent "a")) :=
  (C11_QueueEvent_unconfigured_drops sampleEngine defaultCfg sampleEnv "level_complete"
    [("level", "3")] (stateWithFile JsonText.empty (List.replicate 99 (sampleEvent "a")))
    (Or.inl rfl)).1

/-- C12: drain atomicity. Each enqueue (the critical section of `QueueEvent`,
reached when API key and game id are configured) and each drain (the critical
section of `FlushQueuedEvents`) being one atomic step, for every finite
interleaving of such steps the concatenation of all drained batches in drain
order, followed by the remaining queue, is what was drained and queued before
followed by the enqueued events in enqueue order: one event for each enqueue
step, carrying the event type and the payload of the data map of that step.
So no event is lost or returned twice, and the number of drained events plus
the queue size grows by the number of enqueue steps. From a fresh process the
drained batches followed by the queue are exactly the enqueued events. -/
theorem C12_drain_atomicity (E : Engine) (cfg : Settings) (steps : List QueueStep)
    (s : State) (d : Disk)
    (hkey : cfg.TokebiApiKey ≠ "") (hgid : cfg.TokebiGameId ≠ "") :
    drained (runQueue E cfg steps s) ++ (runQueue E cfg steps s).EventQueue
      = drained s ++ s.EventQueue ++ enqueuedEvents E cfg steps s
    ∧ (enqueuedEvents E cfg steps s).map eventTypeOf
        = (enqueueArguments steps).map (fun a => some a.1)
    ∧ (enqueuedEvents E cfg steps s).map payloadField
        = (enqueueArguments steps).map (fun a => some (payloadOf a.2))
    ∧ (enqueuedEvents E cfg steps s).length = (enqueueArguments steps).length
    ∧ (drained (runQueue E cfg steps s)).length + (runQueue E cfg steps s).EventQueue.length
        = (drained s).length + s.EventQueue.length + (enqueueArguments steps).length
    ∧ drained (runQueue E cfg steps (State.initial d))
        ++ (runQueue E cfg steps (State.initial d)).EventQueue
      = enqueuedEvents E cfg steps (State.initial d)
    ∧ (drained (runQueue E cfg steps (State.initial d))).length
        + (runQueue E cfg steps (State.initial d)).EventQueue.length
      = (enqueueArguments steps).length := by
  have h := runQueue_drained E cfg steps s hkey hgid
  have h0 := runQueue_drained E cfg steps (State.initial d) hkey hgid
  obtain ⟨a1, a2, a3⟩ := enqueuedEvents_arguments E cfg steps s
  obtain ⟨_, _, b3⟩ := enqueuedEvents_arguments E cfg steps (State.initial d)
  have h0b : drained (runQueue E cfg steps (State.initial d))
      ++ (runQueue E cfg steps (State.initial d)).EventQueue
      = enqueuedEvents E cfg steps (State.initial d) := by
    rw [h0]
    simp [drained, inFlight, State.initial]
  refine ⟨h, a1, a2, a3, ?_, h0b, ?_⟩
  · have hl := congrArg List.length h
    simp only [List.length_append] at hl
    rw [hl, a3]
  · have hl := congrArg List.length h0b
    simp only [List.length_append] at hl
    rw [hl, b3]

/-- Witness of C12: two events are enqueued, the queue is drained, a third
event is enqueued: the drained batch followed by the queue holds the three
events in order. -/
theorem C12_witness :
    (drained (runQueue sampleEngine sampleCfg
        [QueueStep.enqueue sampleEnv "a" [], QueueStep.enqueue sampleEnv "b" levelData,
         QueueStep.drain sampleEnv, QueueStep.enqueue sampleEnv "c" []]
        (State.initial emptyDisk))
      ++ (runQueue sampleEngine sampleCfg
        [QueueStep.enqueue sampleEnv "a" [], QueueStep.enqueue sampleEnv "b" levelData,
         QueueStep.drain sampleEnv, QueueStep.enqueue sampleEnv "c" []]
        (State.initial emptyDisk)).EventQueue).map eventTypeOf
      = [some "a", some "b", some "c"]
    ∧ (drained (runQueue sampleEngine sampleCfg
        [QueueStep.enqueue sampleEnv "a" [], QueueStep.enqueue sampleEnv "b" levelData,
         QueueStep.drain sampleEnv, QueueStep.enqueue sampleEnv "c" []]
        (State.initial emptyDisk))).length
      + (runQueue sampleEngine sampleCfg
        [QueueStep.enqueue sampleEnv "a" [], QueueStep.enqueue sampleEnv "b" levelData,
         QueueStep.drain sampleEnv, QueueStep.enqueue sampleEnv "c" []]
        (State.initial emptyDisk)).EventQueue.length
      = 3 :=
  ⟨by
    rw [(C12_drain_atomicity sampleEngine sampleCfg
      [QueueStep.enqueue sampleEnv "a" [], QueueStep.enqueue sampleEnv "b" levelData,
       QueueStep.drain sampleEnv, QueueStep.enqueue sampleEnv "c" []]
      (State.initial emptyDisk) emptyDisk (by decide) (by decide)).2.2.2.2.2.1,
      (C12_drain_atomicity sampleEngine sampleCfg
      [QueueStep.enqueue sampleEnv "a" [], QueueStep.enqueue sampleEnv "b" levelData,
       QueueStep.drain sampleEnv, QueueStep.enqueue sampleEnv "c" []]
      (State.initial emptyDisk) emptyDisk (by decide) (by decide)).2.1]
    rfl,
   (C12_drain_atomicity sampleEngine sampleCfg
      [QueueStep.enqueue sampleEnv "a" [], QueueStep.enqueue sampleEnv "b" levelData,
       QueueStep.drain sampleEnv, QueueStep.enqueue sampleEnv "c" []]
      (State.initial emptyDisk) emptyDisk (by decide) (by decide)).2.2.2.2.2.2⟩

/-- C13, evaluated at the failing input: the configured game id is `g1`; a
registration request is issued, one event is tracked and queued with `g1`, then
the registration completes with status 201 and `game_id` `G2`. The canonical id
`G2` is stored, but the queued event is left as it was queued, and the batch of
the next flush carries `g1`. -/
theorem C13_queued_event_keeps_configured_id :
    (OnProcessRequestComplete sampleEngine okWrite 0 true
        (some { ResponseCode := 201,
                Content := JsonText.json (JsonValue.object [("game_id", JsonValue.string "G2")]) })
        (TokebiTrack sampleEngine sampleCfg sampleEnv "level_complete" []
          (TokebiRegisterGame sampleEngine sampleCfg sampleEnv
            (State.initial emptyDisk)))).RegisteredGameId = "G2"
    ∧ (OnProcessRequestComplete sampleEngine okWrite 0 true
        (some { ResponseCode := 201,
                Content := JsonText.json (JsonValue.object [("game_id", JsonValue.string "G2")]) })
        (TokebiTrack sampleEngine sampleCfg sampleEnv "level_complete" []
          (TokebiRegisterGame sampleEngine sampleCfg sampleEnv
            (State.initial emptyDisk)))).EventQueue.map (fun e => TryGetField e "gameId")
        = [some (JsonValue.string "g1")]
    ∧ (drained (FlushQueuedEvents sampleEngine sampleCfg sampleEnv
        (OnProcessRequestComplete sampleEngine okWrite 0 true
          (some { ResponseCode := 201,
                  Content := JsonText.json
                    (JsonValue.object [("game_id", JsonValue.string "G2")]) })
          (TokebiTrack sampleEngine sampleCfg sampleEnv "level_complete" []
            (TokebiRegisterGame sampleEngine sampleCfg sampleEnv
              (State.initial emptyDisk)))))).map (fun e => TryGetField e "gameId")
        = [some (JsonValue.string "g1")] := by
  refine ⟨rfl, rfl, rfl⟩

/-- C14: for every event accepted by `QueueEvent` (API key and game id
configured), the queued event's `gameId` is the stored canonical game id when
`RegisteredGameId` is non-empty and the configured game id otherwise; the
event is the one added last to the queue, or last in the batch of the forced
flush. -/
theorem C14_QueueEvent_gameId (E : Engine) (cfg : Settings) (env : Env)
    (EventType : String) (EventData : List (String × String)) (s : State)
    (hkey : cfg.TokebiApiKey ≠ "") (hgid : cfg.TokebiGameId ≠ "") :
    ∃ e, (QueueEvent E cfg env EventType EventData s).queued = s.queued ++ [e]
      ∧ (s.RegisteredGameId ≠ "" →
          TryGetField e "gameId" = some (JsonValue.string s.RegisteredGameId))
      ∧ (s.RegisteredGameId = "" →
          TryGetField e "gameId" = some (JsonValue.string cfg.TokebiGameId))
      ∧ ((QueueEvent E cfg env EventType EventData s).EventQueue = s.EventQueue ++ [e]
          ∨ ((QueueEvent E cfg env EventType EventData s).EventQueue = []
              ∧ (QueueEvent E cfg env EventType EventData s).requests
                  = s.requests ++ [trackRequest cfg (s.EventQueue ++ [e])])) := by
  obtain ⟨a1, a2, _, a4, _⟩ := afterEnqueue_fields env s
    (queuedEventOf cfg env EventType EventData s)
  have hg := gameId_queuedEventOf cfg env EventType EventData s
  have hne : (afterEnqueue env s (queuedEventOf cfg env EventType EventData s)).EventQueue
      ≠ [] := by rw [a1]; simp
  obtain ⟨f1, f2⟩ := FlushQueuedEvents_requests E cfg env _ hne
  rw [QueueEvent_configured E cfg env EventType EventData s hkey hgid]
  refine ⟨queuedEventOf cfg env EventType EventData s, ?_, ?_, ?_, ?_⟩
  · split
    · rw [(FlushQueuedEvents_frame E cfg env _).1, a2]
    · exact a2
  · intro h; rw [hg, if_neg h]
  · intro h; rw [hg, if_pos h]
  · split
    · right
      exact ⟨f2, by rw [f1, a4, a1]⟩
    · left
      exact a1

/-- Witness of C14: an event queued before any registration carries the
configured id `g1`; one queued once the canonical id `G2` is stored carries
`G2`. -/
theorem C14_witness :
    (∃ e, (QueueEvent sampleEngine sampleCfg sampleEnv "level_complete" []
          (State.initial emptyDisk)).queued = (State.initial emptyDisk).queued ++ [e]
        ∧ TryGetField e "gameId" = some (JsonValue.string sampleCfg.TokebiGameId))
    ∧ (∃ e, (QueueEvent sampleEngine sampleCfg sampleEnv "level_complete" []
          registeredState).queued = registeredState.queued ++ [e]
        ∧ TryGetField e "gameId" = some (JsonValue.string registeredState.RegisteredGameId)) := by
  constructor
  · obtain ⟨e, h1, _, h3, _⟩ := C14_QueueEvent_gameId sampleEngine sampleCfg sampleEnv
      "level_complete" [] (State.initial emptyDisk) (by decide) (by decide)
    exact ⟨e, h1, h3 rfl⟩
  · obtain ⟨e, h1, h2, _, _⟩ := C14_QueueEvent_gameId sampleEngine sampleCfg sampleEnv
      "level_complete" [] registeredState (by decide) (by decide)
    exact ⟨e, h1, h2 (by decide)⟩

/-- C15, as stated, fails: the registration request of a fresh process
completes with status 200 and the body `{Game_Id: "G2"}`, which has no field
spelled `game_id`. The field table compares keys ignoring case, so
`TryGetStringField("game_id")` finds the field and `G2` is stored as the
canonical id. -/
theorem C15_counterexample :
    (State.initial emptyDisk).RegisteredGameId = ""
    ∧ (RegisterGameWithTokebi.Completion sampleEngine true 200
        (JsonText.json (JsonValue.object [("Game_Id", JsonValue.string "G2")]))
        (State.initial emptyDisk)).RegisteredGameId = "G2"
    ∧ (OnProcessRequestComplete sampleEngine okWrite 0 true
        (some { ResponseCode := 200,
                Content := JsonText.json
                  (JsonValue.object [("Game_Id", JsonValue.string "G2")]) })
        (TokebiRegisterGame sampleEngine sampleCfg sampleEnv
          (State.initial emptyDisk))).RegisteredGameId = "G2" := by
  refine ⟨rfl, rfl, rfl⟩

/-- C15, amended: for every registration response `(bSuccess, ResponseCode,
ResponseBody)`, the stored canonical game id is set exactly when the transport
succeeded, the status is 200 or 201, and the body parses as a JSON object in
which a field named `game_id`, the name compared ignoring letter case, reads
as a string `v`, and it then becomes `v`; on every other outcome it is
unchanged. So the stored id differs afterwards only on such a response, and
when none was stored before and the response is not of that kind, a newly
queued event carries the configured game id. -/
theorem C15_registration_sets_canonical_id (E : Engine) (cfg : Settings) (env : Env)
    (bSuccess : Bool) (ResponseCode : Int) (ResponseBody : JsonText) (s : State)
    (EventType : String) (EventData : List (String × String)) :
    (∀ v, carriesGameId E bSuccess ResponseCode ResponseBody v →
      (RegisterGameWithTokebi.Completion E bSuccess ResponseCode ResponseBody s).RegisteredGameId
        = v)
    ∧ ((¬ ∃ v, carriesGameId E bSuccess ResponseCode ResponseBody v) →
      (RegisterGameWithTokebi.Completion E bSuccess ResponseCode ResponseBody s).RegisteredGameId
        = s.RegisteredGameId)
    ∧ ((RegisterGameWithTokebi.Completion E bSuccess ResponseCode ResponseBody s).RegisteredGameId
          ≠ s.RegisteredGameId →
        ∃ v, carriesGameId E bSuccess ResponseCode ResponseBody v
          ∧ (RegisterGameWithTokebi.Completion E bSuccess ResponseCode
              ResponseBody s).RegisteredGameId = v)
    ∧ ((¬ ∃ v, carriesGameId E bSuccess ResponseCode ResponseBody v) →
        s.RegisteredGameId = "" → cfg.TokebiApiKey ≠ "" → cfg.TokebiGameId ≠ "" →
        ∃ e, (QueueEvent E cfg env EventType EventData
              (RegisterGameWithTokebi.Completion E bSuccess ResponseCode ResponseBody s)).queued
            = (RegisterGameWithTokebi.Completion E bSuccess ResponseCode ResponseBody s).queued
                ++ [e]
          ∧ TryGetField e "gameId" = some (JsonValue.string cfg.TokebiGameId)) := by
  refine ⟨?_, ?_, ?_, ?_⟩
  · intro v hv
    rw [RegistrationCompletion_carries E bSuccess ResponseCode ResponseBody s v hv]
  · intro hn
    rw [RegistrationCompletion_other E bSuccess ResponseCode ResponseBody s hn]
  · intro hne
    by_cases hex : ∃ v, carriesGameId E bSuccess ResponseCode ResponseBody v
    · obtain ⟨v, hv⟩ := hex
      exact ⟨v, hv, by
        rw [RegistrationCompletion_carries E bSuccess ResponseCode ResponseBody s v hv]⟩
    · exact absurd
        (by rw [RegistrationCompletion_other E bSuccess ResponseCode ResponseBody s hex]) hne
  · intro hn hreg hkey hgid
    refine ⟨_, QueueEvent_queued E cfg env EventType EventData _ hkey hgid, ?_⟩
    rw [gameId_queuedEventOf,
      RegistrationCompletion_other E bSuccess ResponseCode ResponseBody s hn]
    simp only [hreg, if_true]

/-- Witness of C15: a 201 response whose body is `{game_id: "G2"}` stores
`G2`; a 500 response stores nothing. -/
theorem C15_witness :
    (RegisterGameWithTokebi.Completion sampleEngine true 201
        (JsonText.json (JsonValue.object [("game_id", JsonValue.string "G2")]))
        (State.initial emptyDisk)).RegisteredGameId = "G2"
    ∧ (RegisterGameWithTokebi.Completion sampleEngine true 500
        (JsonText.json (JsonValue.object [("game_id", JsonValue.string "G2")]))
        (State.initial emptyDisk)).RegisteredGameId = (State.initial emptyDisk).RegisteredGameId :=
  ⟨(C15_registration_sets_canonical_id sampleEngine sampleCfg sampleEnv true 201
      (JsonText.json (JsonValue.object [("game_id", JsonValue.string "G2")]))
      (State.initial emptyDisk) "level_complete" []).1 "G2"
      ⟨rfl, Or.inr rfl, [("game_id", JsonValue.string "G2")], rfl, rfl⟩,
   (C15_registration_sets_canonical_id sampleEngine sampleCfg sampleEnv true 500
      (JsonText.json (JsonValue.object [("game_id", JsonValue.string "G2")]))
      (State.initial emptyDisk) "level_complete" []).2.1
      (by
        rintro ⟨v, _, hc, _⟩
        rcases hc with h | h <;> exact absurd h (by decide))⟩

/-- C16, as stated, fails: the registration request of a fresh process
completes with status 200 and the body `{status: "ok"}`, which has no
`game_id` field. No canonical id is stored, yet the game is marked registered,
and a later `TokebiRegisterGame` issues no second registration request. With
the body `{Game_Id: "G2"}`, which has no field spelled `game_id` either, the
lookup ignores case and the canonical id `G2` is stored. -/
theorem C16_counterexample :
    (OnProcessRequestComplete sampleEngine okWrite 0 true
        (some { ResponseCode := 200,
                Content := JsonText.json (JsonValue.object [("status", JsonValue.string "ok")]) })
        (TokebiRegisterGame sampleEngine sampleCfg sampleEnv
          (State.initial emptyDisk))).bGameRegistered = true
    ∧ (OnProcessRequestComplete sampleEngine okWrite 0 true
        (some { ResponseCode := 200,
                Content := JsonText.json (JsonValue.object [("status", JsonValue.string "ok")]) })
        (TokebiRegisterGame sampleEngine sampleCfg sampleEnv
          (State.initial emptyDisk))).RegisteredGameId = ""
    ∧ (TokebiRegisterGame sampleEngine sampleCfg sampleEnv
        (OnProcessRequestComplete sampleEngine okWrite 0 true
          (some { ResponseCode := 200,
                  Content := JsonText.json
                    (JsonValue.object [("status", JsonValue.string "ok")]) })
          (TokebiRegisterGame sampleEngine sampleCfg sampleEnv
            (State.initial emptyDisk)))).requests
      = [registrationRequest sampleEngine sampleCfg]
    ∧ (OnProcessRequestComplete sampleEngine okWrite 0 true
        (some { ResponseCode := 200,
                Content := JsonText.json
                  (JsonValue.object [("Game_Id", JsonValue.string "G2")]) })
        (TokebiRegisterGame sampleEngine sampleCfg sampleEnv
          (State.initial emptyDisk))).RegisteredGameId = "G2" := by
  refine ⟨rfl, rfl, rfl, rfl⟩

/-- C16, amended: for every registration response with status 200 or 201 whose
JSON body has no field named `game_id`, in any letter case, no canonical id is
stored, so the configured game id remains the one in use when none was stored
before; the response still completes the registration: `bGameRegistered`
becomes true and a later `TokebiRegisterGame` issues no registration
request. -/
theorem C16_missing_game_id_keeps_configured_id (E : Engine) (cfg : Settings) (env : Env)
    (ResponseCode : Int) (o : JsonObject) (s : State) (EventType : String)
    (EventData : List (String × String))
    (hcode : ResponseCode = 200 ∨ ResponseCode = 201)
    (hno : TryGetField o "game_id" = none) :
    (RegisterGameWithTokebi.Completion E true ResponseCode
        (JsonText.json (JsonValue.object o)) s).RegisteredGameId = s.RegisteredGameId
    ∧ (RegisterGameWithTokebi.Completion E true ResponseCode
        (JsonText.json (JsonValue.object o)) s).bGameRegistered = true
    ∧ (TokebiRegisterGame E cfg env
        (RegisterGameWithTokebi.Completion E true ResponseCode
          (JsonText.json (JsonValue.object o)) s)).requests = s.requests
    ∧ (s.RegisteredGameId = "" → cfg.TokebiApiKey ≠ "" → cfg.TokebiGameId ≠ "" →
        ∃ e, (QueueEvent E cfg env EventType EventData
              (RegisterGameWithTokebi.Completion E true ResponseCode
                (JsonText.json (JsonValue.object o)) s)).queued = s.queued ++ [e]
          ∧ TryGetField e "gameId" = some (JsonValue.string cfg.TokebiGameId)) := by
  have hn := not_carries_of_no_field E true ResponseCode o hno
  have hc := RegistrationCompletion_other E true ResponseCode
    (JsonText.json (JsonValue.object o)) s hn
  obtain ⟨r1, _, r3, _⟩ := RegistrationCompletion_success E ResponseCode
    (JsonText.json (JsonValue.object o)) s hcode
  refine ⟨by rw [hc], r1, ?_, ?_⟩
  · rw [TokebiRegisterGame_registered E cfg env _ r1,
      (InitializeTokebiSystem_fields E cfg _).2.2.1, r3]
  · intro hreg hkey hgid
    refine ⟨queuedEventOf cfg env EventType EventData
      (RegisterGameWithTokebi.Completion E true ResponseCode
        (JsonText.json (JsonValue.object o)) s), ?_, ?_⟩
    · rw [QueueEvent_queued E cfg env EventType EventData _ hkey hgid, hc]
    · rw [gameId_queuedEventOf, hc]
      simp only [hreg, if_true]

/-- Witness of C16, amended: a 201 response with the body `{status: "ok"}`
handled by a fresh process. -/
theorem C16_witness :
    (RegisterGameWithTokebi.Completion sampleEngine true 201
        (JsonText.json (JsonValue.object [("status", JsonValue.string "ok")]))
        (State.initial emptyDisk)).RegisteredGameId = (State.initial emptyDisk).RegisteredGameId
    ∧ (RegisterGameWithTokebi.Completion sampleEngine true 201
        (JsonText.json (JsonValue.object [("status", JsonValue.string "ok")]))
        (State.initial emptyDisk)).bGameRegistered = true
    ∧ (TokebiRegisterGame sampleEngine sampleCfg sampleEnv
        (RegisterGameWithTokebi.Completion sampleEngine true 201
          (JsonText.json (JsonValue.object [("status", JsonValue.string "ok")]))
          (State.initial emptyDisk))).requests = (State.initial emptyDisk).requests :=
  ⟨(C16_missing_game_id_keeps_configured_id sampleEngine sampleCfg sampleEnv 201
      [("status", JsonValue.string "ok")] (State.initial emptyDisk) "level_complete" []
      (Or.inr rfl) rfl).1,
   (C16_missing_game_id_keeps_configured_id sampleEngine sampleCfg sampleEnv 201
      [("status", JsonValue.string "ok")] (State.initial emptyDisk) "level_complete" []
      (Or.inr rfl) rfl).2.1,
   (C16_missing_game_id_keeps_configured_id sampleEngine sampleCfg sampleEnv 201
      [("status", JsonValue.string "ok")] (State.initial emptyDisk) "level_complete" []
      (Or.inr rfl) rfl).2.2.1⟩

/-- C17, as stated, fails: from a fresh process with a valid configuration, two
calls of `TokebiRegisterGame` made before any response has arrived issue two
registration requests to `/api/games`; so do two calls between which the first
request completed with status 500. -/
theorem C17_counterexample :
    (TokebiRegisterGame sampleEngine sampleCfg sampleEnv
        (TokebiRegisterGame sampleEngine sampleCfg sampleEnv
          (State.initial emptyDisk))).requests
      = [registrationRequest sampleEngine sampleCfg, registrationRequest sampleEngine sampleCfg]
    ∧ (TokebiRegisterGame sampleEngine sampleCfg sampleEnv
        (OnProcessRequestComplete sampleEngine okWrite 0 true
          (some { ResponseCode := 500, Content := JsonText.raw "Internal Server Error" })
          (TokebiRegisterGame sampleEngine sampleCfg sampleEnv
            (State.initial emptyDisk)))).requests
      = [registrationRequest sampleEngine sampleCfg,
         registrationRequest sampleEngine sampleCfg] := by
  exact ⟨rfl, rfl⟩

/-- C17, amended: with a valid configuration and the game not yet marked
registered, `TokebiRegisterGame` issues one registration request to
`/api/games`; once that request has completed with status 200 or 201 the game
is marked registered, and a second call issues no request and leaves the state
as it is. In every state marked registered the call issues no request. -/
theorem C17_registered_call_is_noop (E : Engine) (cfg : Settings) (env env2 : Env)
    (io : WriteOutcome) (ResponseCode : Int) (ResponseBody : JsonText) (s : State)
    (hkey : cfg.TokebiApiKey ≠ "") (hgid : cfg.TokebiGameId ≠ "")
    (hunreg : s.bGameRegistered = false) (hstart : env.ProcessRequest = true)
    (hcode : ResponseCode = 200 ∨ ResponseCode = 201) :
    let s1 := TokebiRegisterGame E cfg env s
    let s2 := OnProcessRequestComplete E io s.pending.length true
      (some { ResponseCode := ResponseCode, Content := ResponseBody }) s1
    let s3 := TokebiRegisterGame E cfg env2 s2
    s1.requests = s.requests ++ [registrationRequest E cfg]
    ∧ s2.bGameRegistered = true
    ∧ s3 = s2
    ∧ s3.requests = s.requests ++ [registrationRequest E cfg]
    ∧ (∀ t : State, t.bGameRegistered = true →
        (TokebiRegisterGame E cfg env2 t).requests = t.requests
        ∧ (TokebiRegisterGame E cfg env2 t).pending = t.pending) := by
  intro s1 s2 s3
  obtain ⟨iP, _, iR, _⟩ := InitializeTokebiSystem_fields E cfg s
  have hI := InitializeTokebiSystem_initialized E cfg s
  have h1 : s1 = _ :=
    (TokebiRegisterGame_unregistered E cfg env s hunreg).trans
      (RegisterGameWithTokebi_started E cfg env _ hkey hgid hstart)
  have hp1 : s1.pending = s.pending ++ [registrationRequest E cfg] := by
    rw [h1]; simp only [iP]
  have hr1 : s1.requests = s.requests ++ [registrationRequest E cfg] := by
    rw [h1]; simp only [iR]
  have hi1 : s1.bSystemInitialized = true := by
    rw [h1]; exact hI
  have h2 : s2 = _ := OnProcessRequestComplete_last E io true
    (some { ResponseCode := ResponseCode, Content := ResponseBody }) s1 s.pending _ hp1
  simp only [SendHTTPRequest.Completion, registrationRequest, Callback.invoke] at h2
  obtain ⟨c1, c2, c3, _⟩ := RegistrationCompletion_success E ResponseCode ResponseBody
    { s1 with pending := s.pending } hcode
  have hg2 : s2.bGameRegistered = true := by rw [h2]; exact c1
  have hi2 : s2.bSystemInitialized = true := by rw [h2, c2]; exact hi1
  have hr2 : s2.requests = s.requests ++ [registrationRequest E cfg] := by
    rw [h2, c3]; exact hr1
  have h3 : s3 = s2 :=
    (TokebiRegisterGame_registered E cfg env2 s2 hg2).trans
      (InitializeTokebiSystem_of_initialized E cfg s2 hi2)
  refine ⟨hr1, hg2, h3, by rw [h3]; exact hr2, ?_⟩
  intro t ht
  rw [TokebiRegisterGame_registered E cfg env2 t ht]
  exact ⟨(InitializeTokebiSystem_fields E cfg t).2.2.1, (InitializeTokebiSystem_fields E cfg t).1⟩

/-- Witness of C17, amended: a fresh process registers, the response arrives
with status 201 and a canonical id, and the second call changes nothing. -/
theorem C17_witness :
    let s1 := TokebiRegisterGame sampleEngine sampleCfg sampleEnv (State.initial emptyDisk)
    let s2 := OnProcessRequestComplete sampleEngine okWrite
      (State.initial emptyDisk).pending.length true
      (some { ResponseCode := 201,
              Content := JsonText.json (JsonValue.object [("game_id", JsonValue.string "G2")]) })
      s1
    let s3 := TokebiRegisterGame sampleEngine sampleCfg sampleEnv s2
    s1.requests = (State.initial emptyDisk).requests ++ [registrationRequest sampleEngine sampleCfg]
    ∧ s2.bGameRegistered = true
    ∧ s3 = s2
    ∧ s3.requests
        = (State.initial emptyDisk).requests ++ [registrationRequest sampleEngine sampleCfg]
    ∧ (∀ t : State, t.bGameRegistered = true →
        (TokebiRegisterGame sampleEngine sampleCfg sampleEnv t).requests = t.requests
        ∧ (TokebiRegisterGame sampleEngine sampleCfg sampleEnv t).pending = t.pending) :=
  C17_registered_call_is_noop sampleEngine sampleCfg sampleEnv sampleEnv okWrite 201
    (JsonText.json (JsonValue.object [("game_id", JsonValue.string "G2")]))
    (State.initial emptyDisk) (by decide) (by decide) rfl rfl (Or.inr rfl)

/-- C18, as stated, fails: on a provider with no session, `StartSession` with
the single attribute `sessionId = guest` returns true and sets the session id
`session_1700000000_89ABCDEF`, but the payload of the queued `session_start`
event holds `guest` under `sessionId`, the attribute having replaced the
session id. The same happens with the attribute spelled `SessionId`, since the
field table of the payload compares keys ignoring case. -/
theorem C18_counterexample :
    (FTokebiAnalyticsProvider.StartSession sampleNumerals sampleEnv
        [{ GetName := "sessionId", GetValue := "guest" }] sampleProvider).1 = true
    ∧ (FTokebiAnalyticsProvider.StartSession sampleNumerals sampleEnv
        [{ GetName := "sessionId", GetValue := "guest" }] sampleProvider).2.SessionID
        = "session_1700000000_89ABCDEF"
    ∧ (FTokebiAnalyticsProvider.StartSession sampleNumerals sampleEnv
        [{ GetName := "sessionId", GetValue := "guest" }] sampleProvider).2.EventQueue.map
          payloadSessionId
        = [some (JsonValue.string "guest")]
    ∧ (FTokebiAnalyticsProvider.StartSession sampleNumerals sampleEnv
        [{ GetName := "SessionId", GetValue := "guest" }] sampleProvider).2.EventQueue.map
          payloadSessionId
        = [some (JsonValue.string "guest")] := by
  refine ⟨rfl, ?_, rfl, rfl⟩
  decide

/-- C18, amended: `FTokebiAnalyticsProvider::StartSession` returns false and
changes nothing when a session is already active; otherwise it returns true,
marks the session active, sets a newly generated non-empty session id, and
appends exactly one `session_start` event to the queue, whose payload carries
that session id provided no attribute with a non-empty value is named
`sessionId`, in any letter case. -/
theorem C18_StartSession_contract (N : Numerals) (env : Env)
    (Attributes : List FAnalyticsEventAttribute) (p : FTokebiAnalyticsProvider) :
    (p.bSessionStarted = true →
      FTokebiAnalyticsProvider.StartSession N env Attributes p = (false, p))
    ∧ (p.bSessionStarted = false →
      (FTokebiAnalyticsProvider.StartSession N env Attributes p).1 = true
      ∧ (FTokebiAnalyticsProvider.StartSession N env Attributes p).2.bSessionStarted = true
      ∧ (FTokebiAnalyticsProvider.StartSession N env Attributes p).2.SessionID
          = FTokebiAnalyticsProvider.GenerateSessionID env
      ∧ (FTokebiAnalyticsProvider.StartSession N env Attributes p).2.SessionID ≠ ""
      ∧ ∃ e, (FTokebiAnalyticsProvider.StartSession N env Attributes p).2.EventQueue
            = p.EventQueue ++ [e]
          ∧ eventTypeOf e = some "session_start"
          ∧ ((∀ a ∈ Attributes, FStringEquals a.GetName "sessionId" = true → a.GetValue = "") →
              payloadSessionId e
                = some (JsonValue.string
                    (FTokebiAnalyticsProvider.StartSession N env Attributes p).2.SessionID))) := by
  constructor
  · intro h
    simp [FTokebiAnalyticsProvider.StartSession, h]
  · intro h
    rw [StartSession_inactive N env Attributes p h]
    refine ⟨rfl, rfl, rfl, provider_GenerateSessionID_ne_empty env, _, rfl,
      provider_eventTypeOf _ _ _, ?_⟩
    intro hattr
    simp only [payloadSessionId, provider_payloadField]
    exact StartSession_payload_sessionId N Attributes _ _ hattr

/-- Witness of C18, amended: a started provider refuses the call; a provider
with no session, called with the attribute `level = 3`, starts one, and the
payload of the queued event carries the new session id. -/
theorem C18_witness :
    FTokebiAnalyticsProvider.StartSession sampleNumerals sampleEnv
        [{ GetName := "level", GetValue := "3" }] startedProvider = (false, startedProvider)
    ∧ (FTokebiAnalyticsProvider.StartSession sampleNumerals sampleEnv
        [{ GetName := "level", GetValue := "3" }] sampleProvider).1 = true
    ∧ (FTokebiAnalyticsProvider.StartSession sampleNumerals sampleEnv
        [{ GetName := "level", GetValue := "3" }] sampleProvider).2.SessionID ≠ ""
    ∧ ∃ e, (FTokebiAnalyticsProvider.StartSession sampleNumerals sampleEnv
          [{ GetName := "level", GetValue := "3" }] sampleProvider).2.EventQueue
          = sampleProvider.EventQueue ++ [e]
        ∧ payloadSessionId e
          = some (JsonValue.string (FTokebiAnalyticsProvider.StartSession sampleNumerals
              sampleEnv [{ GetName := "level", GetValue := "3" }] sampleProvider).2.SessionID) :=
  ⟨(C18_StartSession_contract sampleNumerals sampleEnv
      [{ GetName := "level", GetValue := "3" }] startedProvider).1 rfl,
   ((C18_StartSession_contract sampleNumerals sampleEnv
      [{ GetName := "level", GetValue := "3" }] sampleProvider).2 rfl).1,
   ((C18_StartSession_contract sampleNumerals sampleEnv
      [{ GetName := "level", GetValue := "3" }] sampleProvider).2 rfl).2.2.2.1,
   match ((C18_StartSession_contract sampleNumerals sampleEnv
      [{ GetName := "level", GetValue := "3" }] sampleProvider).2 rfl).2.2.2.2 with
   | ⟨e, h1, _, h3⟩ => ⟨e, h1, h3 (by decide)⟩⟩

/-- C19, evaluated at the failing input: with a valid configuration and the
session `session_1690000000_AAAAAAAA` active, `TokebiStartSession` replaces the
session id by a newly generated one and appends a second `session_start` event
to the queue. -/
theorem C19_TokebiStartSession_replaces_active_session :
    sessionState.CurrentSessionID = "session_1690000000_AAAAAAAA"
    ∧ (TokebiStartSession sampleEngine sampleCfg sampleEnv sessionState).CurrentSessionID
        = "session_1700000000_89ABCDEF"
    ∧ (TokebiStartSession sampleEngine sampleCfg sampleEnv sessionState).EventQueue.map eventTypeOf
        = [some "session_start", some "level_start", some "session_start"]
    ∧ (TokebiStartSession sampleEngine sampleCfg sampleEnv sessionState).EventQueue.length
        = sessionState.EventQueue.length + 1 := by
  refine ⟨rfl, ?_, ?_, ?_⟩
  · decide
  · decide
  · decide

/-- C20: with API key and game id configured and a session active with id
`s.CurrentSessionID`, `TokebiEndSession` queues one `session_end` event whose
payload field `session_id` is that id, triggers exactly one flush whose batch
is the previously queued events followed last by that event, and returns with
the queue empty and the session id cleared: the event was stamped before the
session state was cleared. -/
theorem C20_TokebiEndSession_flushes (E : Engine) (cfg : Settings) (env : Env) (s : State)
    (hkey : cfg.TokebiApiKey ≠ "") (hgid : cfg.TokebiGameId ≠ "")
    (hs : s.CurrentSessionID ≠ "") :
    ∃ e p, (TokebiEndSession E cfg env s).queued = s.queued ++ [e]
      ∧ eventTypeOf e = some "session_end"
      ∧ payloadField e = some p
      ∧ TryGetField p "session_id" = some (JsonValue.string s.CurrentSessionID)
      ∧ (TokebiEndSession E cfg env s).requests
          = s.requests ++ [trackRequest cfg (s.EventQueue ++ [e])]
      ∧ (TokebiEndSession E cfg env s).EventQueue = []
      ∧ (TokebiEndSession E cfg env s).CurrentSessionID = "" := by
  obtain ⟨a1, a2, _, a4, _⟩ := afterEnqueue_fields env s (sessionEndEventOf cfg env s)
  have hne : (afterEnqueue env s (sessionEndEventOf cfg env s)).EventQueue ≠ [] := by
    rw [a1]; simp
  obtain ⟨f1, f2⟩ := FlushQueuedEvents_requests E cfg env _ hne
  have fq := (FlushQueuedEvents_frame E cfg env
    (afterEnqueue env s (sessionEndEventOf cfg env s))).1
  rw [TokebiEndSession_active E cfg env s hkey hgid hs]
  refine ⟨sessionEndEventOf cfg env s,
    payloadOf [("session_id", s.CurrentSessionID), ("timestamp", FromInt env.UtcNow)],
    ?_, ?_, ?_, ?_, ?_, ?_, rfl⟩
  · show (FlushQueuedEvents E cfg env _).queued = _
    rw [fq, a2]
  · simp [sessionEndEventOf, queuedEventOf, eventOf, eventTypeOf, TryGetField, FStringEquals, foldCase]
  · simp [sessionEndEventOf, queuedEventOf, eventOf, payloadField, TryGetField, FStringEquals, foldCase]
  · simp [payloadOf, SetStringField, TMapAdd, TryGetField, FStringEquals, foldCase]
  · show (FlushQueuedEvents E cfg env _).requests = _
    rw [f1, a4, a1]
  · show (FlushQueuedEvents E cfg env _).EventQueue = _
    exact f2

/-- Witness of C20: a session with two queued events is ended. -/
theorem C20_witness :
    ∃ e p, (TokebiEndSession sampleEngine sampleCfg sampleEnv sessionState).queued
        = sessionState.queued ++ [e]
      ∧ eventTypeOf e = some "session_end"
      ∧ payloadField e = some p
      ∧ TryGetField p "session_id" = some (JsonValue.string sessionState.CurrentSessionID)
      ∧ (TokebiEndSession sampleEngine sampleCfg sampleEnv sessionState).requests
          = sessionState.requests ++ [trackRequest sampleCfg (sessionState.EventQueue ++ [e])]
      ∧ (TokebiEndSession sampleEngine sampleCfg sampleEnv sessionState).EventQueue = []
      ∧ (TokebiEndSession sampleEngine sampleCfg sampleEnv sessionState).CurrentSessionID = "" :=
  C20_TokebiEndSession_flushes sampleEngine sampleCfg sampleEnv sessionState
    (by decide) (by decide) (by decide)

/-- C23: for every call of `SendHTTPRequest` the supplied callback is invoked
exactly once. When `ProcessRequest` refuses the request, the callback runs
during the call with `(false, 0, "Failed to process request")` and the request
is not pending. When the request is started, the call invokes nothing and the
completion of the request invokes the callback once and removes the request
from the pending ones: with `(true, status code, body)` of the response when
the transport succeeded with a valid response, whatever the status code, and
with `(false, 0, "Network error")` otherwise. The first argument is true
exactly on a completed transport, so a transport failure is told apart from a
completed request of any status. -/
theorem C23_SendHTTPRequest_callback_once (E : Engine) (cfg : Settings) (env : Env)
    (io : WriteOutcome) (Endpoint : String) (JsonPayload : JsonText) (cb : Callback)
    (s : State) (bWasSuccessful : Bool) (Response : Option HttpResponse) :
    (env.ProcessRequest = false →
      SendHTTPRequest E cfg env Endpoint JsonPayload cb s
        = cb.invoke E env.io false 0 (JsonText.raw "Failed to process request")
            { s with requests := s.requests ++
                [{ Verb := "POST", URL := Endpoint, ContentType := "application/json",
                   Authorization := cfg.TokebiApiKey, Content := JsonPayload,
                   OnComplete := cb }] }
      ∧ (SendHTTPRequest E cfg env Endpoint JsonPayload cb s).pending = s.pending)
    ∧ (env.ProcessRequest = true →
      SendHTTPRequest E cfg env Endpoint JsonPayload cb s
        = { s with
              requests := s.requests ++
                [{ Verb := "POST", URL := Endpoint, ContentType := "application/json",
                   Authorization := cfg.TokebiApiKey, Content := JsonPayload,
                   OnComplete := cb }]
              pending := s.pending ++
                [{ Verb := "POST", URL := Endpoint, ContentType := "application/json",
                   Authorization := cfg.TokebiApiKey, Content := JsonPayload,
                   OnComplete := cb }] }
      ∧ OnProcessRequestComplete E io s.pending.length bWasSuccessful Response
            (SendHTTPRequest E cfg env Endpoint JsonPayload cb s)
          = cb.invoke E io (SendHTTPRequest.Completion bWasSuccessful Response).1
              (SendHTTPRequest.Completion bWasSuccessful Response).2.1
              (SendHTTPRequest.Completion bWasSuccessful Response).2.2
              { s with requests := s.requests ++
                  [{ Verb := "POST", URL := Endpoint, ContentType := "application/json",
                     Authorization := cfg.TokebiApiKey, Content := JsonPayload,
                     OnComplete := cb }] }
      ∧ (OnProcessRequestComplete E io s.pending.length bWasSuccessful Response
            (SendHTTPRequest E cfg env Endpoint JsonPayload cb s)).pending = s.pending)
    ∧ (∀ r : HttpResponse,
        SendHTTPRequest.Completion true (some r) = (true, r.ResponseCode, r.Content))
    ∧ ((bWasSuccessful = false ∨ Response = none) →
        SendHTTPRequest.Completion bWasSuccessful Response
          = (false, 0, JsonText.raw "Network error"))
    ∧ ((SendHTTPRequest.Completion bWasSuccessful Response).1 = true
        ↔ (bWasSuccessful = true ∧ ∃ r, Response = some r)) := by
  refine ⟨?_, ?_, fun r => rfl, ?_, ?_⟩
  · intro h
    have e : SendHTTPRequest E cfg env Endpoint JsonPayload cb s
        = cb.invoke E env.io false 0 (JsonText.raw "Failed to process request")
            { s with requests := s.requests ++
                [{ Verb := "POST", URL := Endpoint, ContentType := "application/json",
                   Authorization := cfg.TokebiApiKey, Content := JsonPayload,
                   OnComplete := cb }] } := by
      simp [SendHTTPRequest, h]
    refine ⟨e, ?_⟩
    rw [e, (invoke_frame E env.io cb false 0 _ _).2.2.1]
  · intro h
    have e : SendHTTPRequest E cfg env Endpoint JsonPayload cb s
        = { s with
              requests := s.requests ++
                [{ Verb := "POST", URL := Endpoint, ContentType := "application/json",
                   Authorization := cfg.TokebiApiKey, Content := JsonPayload,
                   OnComplete := cb }]
              pending := s.pending ++
                [{ Verb := "POST", URL := Endpoint, ContentType := "application/json",
                   Authorization := cfg.TokebiApiKey, Content := JsonPayload,
                   OnComplete := cb }] } := by
      simp [SendHTTPRequest, h]
    have c := OnProcessRequestComplete_last E io bWasSuccessful Response
      (SendHTTPRequest E cfg env Endpoint JsonPayload cb s) s.pending
      { Verb := "POST", URL := Endpoint, ContentType := "application/json",
        Authorization := cfg.TokebiApiKey, Content := JsonPayload, OnComplete := cb }
      (by rw [e])
    refine ⟨e, ?_, ?_⟩
    · rw [c, e]
    · rw [c, (invoke_frame E io cb _ _ _ _).2.2.1]
  · intro h
    rcases h with h | h
    · subst h
      cases Response <;> rfl
    · subst h
      cases bWasSuccessful <;> rfl
  · cases bWasSuccessful <;> cases Response <;> simp [SendHTTPRequest.Completion]

/-- Witness of C23: a track request that `ProcessRequest` refuses saves its
batch at once; one that is started and completes with status 404 hands
`(true, 404, body)` to the callback. -/
theorem C23_witness :
    (SendHTTPRequest sampleEngine sampleCfg { sampleEnv with ProcessRequest := false }
        "https://tokebi-api.vercel.app/api/track" JsonText.empty
        (Callback.track [sampleEvent "a"]) (State.initial emptyDisk)).pending
      = (State.initial emptyDisk).pending
    ∧ SendHTTPRequest.Completion true (some { ResponseCode := 404, Content := JsonText.empty })
      = (true, 404, JsonText.empty) :=
  ⟨((C23_SendHTTPRequest_callback_once sampleEngine sampleCfg
      { sampleEnv with ProcessRequest := false } okWrite
      "https://tokebi-api.vercel.app/api/track" JsonText.empty
      (Callback.track [sampleEvent "a"]) (State.initial emptyDisk) true none).1 rfl).2,
   (C23_SendHTTPRequest_callback_once sampleEngine sampleCfg sampleEnv okWrite
      "https://tokebi-api.vercel.app/api/track" JsonText.empty
      (Callback.track [sampleEvent "a"]) (State.initial emptyDisk) true none).2.2.1
      { ResponseCode := 404, Content := JsonText.empty }⟩

/-- C24: every execution of `LoadEventsFromFile` adds one to the count of
its executions, and in every sequence of public calls, ticks of the flush
tickers and HTTP completions, started in any state, that count grows by at
most one, so `LoadEventsFromFile` is executed at most once; in a process
started over any disk it is at most one at the end. From a state in which the
system is initialized the load is never executed, the system stays
initialized, and `InitializeTokebiSystem` returns the state unchanged. -/
theorem C24_at_most_one_load (E : Engine) (cfg : Settings) (calls : List Call) (s : State)
    (d : Disk) :
    (LoadEventsFromFile E cfg s).LoadCalls = s.LoadCalls + 1
    ∧ s.LoadCalls ≤ (runCalls E cfg calls s).LoadCalls
    ∧ (runCalls E cfg calls s).LoadCalls ≤ s.LoadCalls + 1
    ∧ (runCalls E cfg calls (State.initial d)).LoadCalls ≤ 1
    ∧ (s.bSystemInitialized = true →
        (runCalls E cfg calls s).LoadCalls = s.LoadCalls
        ∧ (runCalls E cfg calls s).bSystemInitialized = true
        ∧ InitializeTokebiSystem E cfg s = s
        ∧ InitializeTokebiSystem E cfg (runCalls E cfg calls s) = runCalls E cfg calls s) := by
  refine ⟨LoadEventsFromFile_loads E cfg s, (runCalls_loads E cfg calls s).1,
    (runCalls_loads E cfg calls s).2, (runCalls_loads E cfg calls (State.initial d)).2,
    fun h => ?_⟩
  obtain ⟨h1, h2⟩ := runCalls_initialized E cfg calls s h
  exact ⟨h2, h1, InitializeTokebiSystem_of_initialized E cfg s h,
    InitializeTokebiSystem_of_initialized E cfg _ h1⟩

/-- Witness of C24: a registration, two tracked events, a session and a tick,
from a fresh process, where the load is executed once, and from an
initialized one, where it is not executed. -/
theorem C24_witness :
    (runCalls sampleEngine sampleCfg
        [Call.registerGame sampleEnv, Call.track sampleEnv "a" [], Call.startSession sampleEnv,
         Call.track sampleEnv "b" [], Call.tick sampleEnv, Call.endSession sampleEnv]
        (State.initial emptyDisk)).LoadCalls = 1
    ∧ sessionState.bSystemInitialized = true
    ∧ (runCalls sampleEngine sampleCfg
        [Call.registerGame sampleEnv, Call.track sampleEnv "a" [], Call.startSession sampleEnv,
         Call.track sampleEnv "b" [], Call.tick sampleEnv, Call.endSession sampleEnv]
        sessionState).LoadCalls = sessionState.LoadCalls :=
  ⟨Nat.le_antisymm
    (C24_at_most_one_load sampleEngine sampleCfg
      [Call.registerGame sampleEnv, Call.track sampleEnv "a" [], Call.startSession sampleEnv,
       Call.track sampleEnv "b" [], Call.tick sampleEnv, Call.endSession sampleEnv]
      (State.initial emptyDisk) emptyDisk).2.2.2.1
    (by decide),
   rfl,
   ((C24_at_most_one_load sampleEngine sampleCfg
      [Call.registerGame sampleEnv, Call.track sampleEnv "a" [], Call.startSession sampleEnv,
       Call.track sampleEnv "b" [], Call.tick sampleEnv, Call.endSession sampleEnv]
      sessionState emptyDisk).2.2.2.2 rfl).1⟩

/-- C25: `FTokebiAnalyticsModule::CreateAnalyticsProvider` returns no provider
exactly when the configured API key is empty; otherwise it returns the
provider constructed with that API key, with the endpoint
`https://tokebi-api.vercel.app` when the configured one is empty, the
environment `production` when the configured one is empty and the game id
`unreal_game` when the configured one is empty, every non-empty value being
passed through unchanged. -/
theorem C25_CreateAnalyticsProvider (env : Env) (bWorld : Bool) (d : Disk)
    (GetConfigValue : String → Bool → String) :
    (FTokebiAnalyticsModule.CreateAnalyticsProvider env bWorld d GetConfigValue = none
      ↔ GetConfigValue "TokebiApiKey" true = "")
    ∧ (GetConfigValue "TokebiApiKey" true ≠ "" →
      ∃ w, FTokebiAnalyticsModule.CreateAnalyticsProvider env bWorld d GetConfigValue = some w
        ∧ w = FTokebiAnalyticsProvider.Construct env bWorld d (GetConfigValue "TokebiApiKey" true)
            (if GetConfigValue "TokebiEndpoint" false = "" then "https://tokebi-api.vercel.app"
             else GetConfigValue "TokebiEndpoint" false)
            (if GetConfigValue "TokebiEnvironment" false = "" then "production"
             else GetConfigValue "TokebiEnvironment" false)
            (if GetConfigValue "TokebiGameId" false = "" then "unreal_game"
             else GetConfigValue "TokebiGameId" false)
        ∧ w.provider.ApiKey = GetConfigValue "TokebiApiKey" true
        ∧ w.provider.Endpoint
            = (if GetConfigValue "TokebiEndpoint" false = "" then "https://tokebi-api.vercel.app"
               else GetConfigValue "TokebiEndpoint" false)
        ∧ w.provider.Environment
            = (if GetConfigValue "TokebiEnvironment" false = "" then "production"
               else GetConfigValue "TokebiEnvironment" false)
        ∧ w.provider.GameId
            = (if GetConfigValue "TokebiGameId" false = "" then "unreal_game"
               else GetConfigValue "TokebiGameId" false)) := by
  constructor
  · by_cases h : GetConfigValue "TokebiApiKey" true = ""
    · simp [FTokebiAnalyticsModule.CreateAnalyticsProvider, IsEmpty, h]
    · simp [FTokebiAnalyticsModule.CreateAnalyticsProvider, IsEmpty, h]
  · intro h
    refine ⟨_, ?_, rfl, ?_⟩
    · simp [FTokebiAnalyticsModule.CreateAnalyticsProvider, IsEmpty, h]
    · exact Construct_fields env bWorld d _ _ _ _

/-- Witness of C25: a configuration that sets the API key `k1` only yields a
provider with the three defaults. -/
theorem C25_witness :
    ∃ w, FTokebiAnalyticsModule.CreateAnalyticsProvider sampleEnv true emptyDisk keyOnlyConfig
        = some w
      ∧ w.provider.ApiKey = "k1"
      ∧ w.provider.Endpoint = "https://tokebi-api.vercel.app"
      ∧ w.provider.Environment = "production"
      ∧ w.provider.GameId = "unreal_game" := by
  obtain ⟨w, h1, _, h3, h4, h5, h6⟩ :=
    (C25_CreateAnalyticsProvider sampleEnv true emptyDisk keyOnlyConfig).2 (by decide)
  exact ⟨w, h1, h3, h4, h5, h6⟩

/-- C26, evaluated at the failing input: a provider with two queued events is
flushed and both requests are started; the first fails at the transport, the
second completes with status 500. Afterwards the queue is empty, the disk is
as before (no file was written) and no request is pending: neither event is
held anywhere for a retry. -/
theorem C26_failed_sends_lose_events :
    sampleWorld.provider.EventQueue = [sampleEvent "level_start", sampleEvent "level_complete"]
    ∧ (FTokebiAnalyticsProvider.FlushEvents sampleEnv sampleWorld).provider.EventQueue = []
    ∧ (FTokebiAnalyticsProvider.FlushEvents sampleEnv sampleWorld).pending.length = 2
    ∧ (ProviderWorld.OnProcessRequestComplete 0 true
        (some { ResponseCode := 500, Content := JsonText.raw "Internal Server Error" })
        (ProviderWorld.OnProcessRequestComplete 0 false none
          (FTokebiAnalyticsProvider.FlushEvents sampleEnv sampleWorld))).provider.EventQueue = []
    ∧ (ProviderWorld.OnProcessRequestComplete 0 true
        (some { ResponseCode := 500, Content := JsonText.raw "Internal Server Error" })
        (ProviderWorld.OnProcessRequestComplete 0 false none
          (FTokebiAnalyticsProvider.FlushEvents sampleEnv sampleWorld))).disk = emptyDisk
    ∧ (ProviderWorld.OnProcessRequestComplete 0 true
        (some { ResponseCode := 500, Content := JsonText.raw "Internal Server Error" })
        (ProviderWorld.OnProcessRequestComplete 0 false none
          (FTokebiAnalyticsProvider.FlushEvents sampleEnv sampleWorld))).pending = [] := by
  refine ⟨rfl, rfl, rfl, rfl, rfl, rfl⟩

/-- C27, evaluated at the failing input: a provider with endpoint
`https://tokebi-api.vercel.app` and the queue `[level_start, level_complete]`
is flushed. Two POST requests are issued, both to
`https://tokebi-api.vercel.app/track`, the body of each being one event
object; the queue is left empty. -/
theorem C27_one_request_per_event :
    (FTokebiAnalyticsProvider.FlushEvents sampleEnv sampleWorld).requests
      = [{ Verb := "POST", URL := "https://tokebi-api.vercel.app/track",
           ContentType := "application/json", Authorization := "Bearer k1",
           Content := JsonText.json (JsonValue.object (sampleEvent "level_start")) },
         { Verb := "POST", URL := "https://tokebi-api.vercel.app/track",
           ContentType := "application/json", Authorization := "Bearer k1",
           Content := JsonText.json (JsonValue.object (sampleEvent "level_complete")) }]
    ∧ (FTokebiAnalyticsProvider.FlushEvents sampleEnv sampleWorld).provider.EventQueue = [] := by
  exact ⟨rfl, rfl⟩

/-- C29, evaluated at the failing input: the player-identity file holds a
single space. The file is non-empty, so both functions take the branch that
returns its content trimmed, which is the empty string; the event queued by
`TokebiTrack` carries the empty `playerId`. -/
theorem C29_blank_file_gives_empty_id :
    (FTokebiAnalyticsProvider.GeneratePlayerID sampleEnv blankIdDisk).1 = ""
    ∧ (GetPlayerID sampleEnv (State.initial blankIdDisk)).1 = ""
    ∧ (TokebiTrack sampleEngine sampleCfg sampleEnv "level_complete" levelData
        (State.initial blankIdDisk)).EventQueue.map (fun e => TryGetField e "playerId")
      = [some (JsonValue.string "")] := by
  refine ⟨by decide, by decide, ?_⟩
  rfl

set_option maxRecDepth 100000 in
/-- C30, as stated, fails: the offline events file holds 100 events (a failed
batch saved by an earlier run). The first `TokebiTrack` of the process
initializes the system, which loads the 100 events into the queue, and adds
its own event; the forced flush then sends one batch of 101 events. -/
theorem C30_counterexample :
    offlineCount fullDisk = 100
    ∧ (TokebiTrack sampleEngine sampleCfg sampleEnv "level_complete" []
        (State.initial fullDisk)).requests.map (fun r => (batchOf r).length) = [101]
    ∧ (TokebiTrack sampleEngine sampleCfg sampleEnv "level_complete" []
        (State.initial fullDisk)).requests.map (fun r => r.URL)
        = ["https://tokebi-api.vercel.app/api/track"] := by
  refine ⟨by decide, rfl, rfl⟩

/-- C30, amended: the process starting over an offline events file that holds
`n` event objects, in every state reached by any sequence of public calls,
ticks of the flush tickers and HTTP completions, every request issued is the
registration request or the track request of a batch of at most
`max 100 (n + 1)` events; so every batch sent to `/api/track` contains at most
`MAX_QUEUE_SIZE = 100` events when the offline file holds fewer than 100. -/
theorem C30_batches_bounded (E : Engine) (cfg : Settings) (calls : List Call) (d : Disk) :
    (∀ r ∈ (runCalls E cfg calls (State.initial d)).requests,
      (∃ b, r = trackRequest cfg b ∧ b.length ≤ max MAX_QUEUE_SIZE (offlineCount d + 1))
        ∨ r = registrationRequest E cfg)
    ∧ (offlineCount d < MAX_QUEUE_SIZE →
        ∀ r ∈ (runCalls E cfg calls (State.initial d)).requests,
          (∃ b, r = trackRequest cfg b ∧ b.length ≤ MAX_QUEUE_SIZE)
            ∨ r = registrationRequest E cfg) := by
  refine ⟨?_, fun h => ?_⟩
  · exact runCalls_batches E cfg _ d calls (le_max_left _ _) (le_max_right _ _)
  · exact runCalls_batches E cfg _ d calls (le_refl _) h

/-- Witness of C30, amended: a fresh process over a disk with no file tracks
an event, starts and ends a session and flushes. -/
theorem C30_witness :
    offlineCount emptyDisk < MAX_QUEUE_SIZE
    ∧ ∀ r ∈ (runCalls sampleEngine sampleCfg
        [Call.track sampleEnv "a" [], Call.startSession sampleEnv,
         Call.endSession sampleEnv, Call.flushEvents sampleEnv]
        (State.initial emptyDisk)).requests,
      (∃ b, r = trackRequest sampleCfg b ∧ b.length ≤ MAX_QUEUE_SIZE)
        ∨ r = registrationRequest sampleEngine sampleCfg :=
  ⟨by decide,
   (C30_batches_bounded sampleEngine sampleCfg
    [Call.track sampleEnv "a" [], Call.startSession sampleEnv,
     Call.endSession sampleEnv, Call.flushEvents sampleEnv] emptyDisk).2 (by decide)⟩

end Tokebi
